import Mathlib

/-!
Verification of arpfuzzer: wire codec, filter engine and capture queue.

A shallow embedding of `src/include/arplib.hpp`, `src/include/StaticTypes.hpp`,
`src/src/arplib.cpp`, the setter calls of `src/src/fuzzer.cpp`,
`src/include/configFile.hpp`, `src/src/configFile.cpp` and the configuration
and filter-map statements of `src/src/arpfuzzer_main.cpp`.

* `uint8_t` is `Fin 256`, `uint16_t` is `Fin 65536`.
* `std::array<uint8_t, N>` is `Fin N → Byte`.
* A 16-bit object occupies two bytes of memory whose order depends on the
  host (`Endian`); `htons` is the identity on a big-endian host and the byte
  swap on a little-endian one.
* Code that can throw returns `Except ArpSocketException _`.
* Results of system calls are parameters; the calls a method makes are listed
  as `Action`s next to its result.
* Code of `configFile.cpp` that can throw returns `Except ConfigFileException _`.
* The answers of the Lua C API and the parsers of `StringUtils.hpp` are
  parameters; `mergeStrings` is concatenation.
-/

namespace arplib

/-! ## Machine integers and byte order -/

/-- An object of type `uint8_t`. -/
abbrev Byte := Fin 256

/-- An object of type `uint16_t`. -/
abbrev U16 := Fin 65536

/-- Byte order of the host on which the program runs. -/
inductive Endian where
  | little
  | big
  deriving DecidableEq, Repr

/-- Conversion to `uint8_t` (reduction modulo 256). -/
def toByte (n : Nat) : Byte := ⟨n % 256, Nat.mod_lt _ (by decide)⟩

/-- Conversion to `uint16_t` (reduction modulo 65536), as `static_cast<uint16_t>`. -/
def toU16 (n : Nat) : U16 := ⟨n % 65536, Nat.mod_lt _ (by decide)⟩

/-- The two bytes that a `uint16_t` object occupies in memory, index 0 at the
lower address. -/
def storeU16 (e : Endian) (x : U16) : Fin 2 → Byte :=
  match e with
  | .little => ![toByte x.val, toByte (x.val / 256)]
  | .big => ![toByte (x.val / 256), toByte x.val]

/-- The `uint16_t` read through a `uint16_t*` that points at two bytes of
memory, `b0` at the lower address. -/
def loadU16 (e : Endian) (b0 b1 : Byte) : U16 :=
  match e with
  | .little => toU16 (b0.val + 256 * b1.val)
  | .big => toU16 (256 * b0.val + b1.val)

/-- Host to network short: identity on a big-endian host, byte swap on a
little-endian host. -/
def htons (e : Endian) (v : U16) : U16 :=
  match e with
  | .little => toU16 ((v.val % 256) * 256 + v.val / 256)
  | .big => v

/-! ## StaticTypes.hpp -/

def MAC_ARRAY_LEN : Nat := 6

def IP_ARRAY_LEN : Nat := 4

/-- The type `std::array<uint8_t, MAC_ARRAY_LEN>`. -/
abbrev MacAddr := Fin 6 → Byte

/-- The type `std::array<uint8_t, IP_ARRAY_LEN>`. -/
abbrev IpAddr := Fin 4 → Byte

/-! ## arplib.hpp: packet layout -/

/-- The enumerators of `enum PACKET_MAPPING`. -/
def IPHDR_DEST_MAC : Nat := 0
def IPHDR_SRC_MAC : Nat := 6
def FRAME_TYPE : Nat := 12
def HARD_TYPE : Nat := 14
def PROT_TYPE : Nat := 16
def HARD_SIZE : Nat := 18
def PROT_SIZE : Nat := 19
def OP_SIZE : Nat := 20
def SENDER_MAC : Nat := 22
def SENDER_IP : Nat := 28
def DEST_MAC : Nat := 32
def DEST_IP : Nat := 38

/-- The type `struct ArpPkt`, members in declaration order. -/
structure ArpPkt where
  hdrTargetMAC : MacAddr
  hdrSenderMAC : MacAddr
  frameType : U16
  hardType : U16
  protType : U16
  hardSize : Byte
  protSize : Byte
  opcode : U16
  senderMAC : MacAddr
  senderIp : IpAddr
  targetMAC : MacAddr
  targetIp : IpAddr
  deriving DecidableEq

/-- Size and alignment of each member of `ArpPkt` in declaration order:
byte arrays have alignment 1, `uint16_t` has size and alignment 2. -/
def ArpPkt.members : List (Nat × Nat) :=
  [(6, 1), (6, 1), (2, 2), (2, 2), (2, 2), (1, 1), (1, 1), (2, 2), (6, 1), (4, 1), (6, 1), (4, 1)]

/-- Round `n` up to the next multiple of `a`. -/
def alignUp (n a : Nat) : Nat := (n + a - 1) / a * a

/-- Offsets given to the members of a standard-layout struct: each member is
placed at the first address after the previous one that satisfies its
alignment. Returns the offsets and the end of the last member. -/
def layoutFrom (pos : Nat) : List (Nat × Nat) → List Nat × Nat
  | [] => ([], pos)
  | (size, align) :: rest =>
    let off := alignUp pos align
    let r := layoutFrom (off + size) rest
    (off :: r.1, r.2)

/-- The value of `sizeof` for a struct: the end of the last member rounded up
to the largest member alignment. -/
def structSize (ms : List (Nat × Nat)) : Nat :=
  alignUp (layoutFrom 0 ms).2 ((ms.map Prod.snd).foldl max 1)

/-- The value of `sizeof(ArpPkt)`. -/
def sizeofArpPkt : Nat := structSize ArpPkt.members

/-- The object representation of an `ArpPkt`: the bytes of its members in
declaration order (the layout inserts no padding, see `layoutFrom`). -/
def ArpPkt.toBytes (e : Endian) (p : ArpPkt) : List Byte :=
  List.ofFn p.hdrTargetMAC ++ List.ofFn p.hdrSenderMAC ++
  List.ofFn (storeU16 e p.frameType) ++ List.ofFn (storeU16 e p.hardType) ++
  List.ofFn (storeU16 e p.protType) ++
  [p.hardSize] ++ [p.protSize] ++ List.ofFn (storeU16 e p.opcode) ++
  List.ofFn p.senderMAC ++ List.ofFn p.senderIp ++
  List.ofFn p.targetMAC ++ List.ofFn p.targetIp

/-- The `width` bytes of an image that start at `offset`. -/
def slice (img : List Byte) (offset width : Nat) : List Byte :=
  (img.drop offset).take width

/-- The constant `IP_MAXPACKET` of `<netinet/ip.h>`, the size of an `ArpBuffer`. -/
def IP_MAXPACKET : Nat := 65535

/-- The type `std::array<uint8_t, IP_MAXPACKET>`, as the byte found at each index; only
indices below `IP_MAXPACKET` belong to the array. -/
abbrev ArpBuffer := Nat → Byte

/-- The call `memcpy(dst.data(), src, n)`: the first `n` bytes of `dst` are replaced by
the first `n` bytes of `src`. -/
def memcpy (dst : ArpBuffer) (src : List Byte) (n : Nat) : ArpBuffer :=
  fun i => if i < n then src.getD i (dst i) else dst i

/-- The `n` bytes starting at `buf.data()`, as handed to `sendto`. -/
def bufferPrefix (buf : ArpBuffer) (n : Nat) : List Byte :=
  List.ofFn (fun i : Fin n => buf i.val)

/-- The value-initialised buffer `incoming = {}`. -/
def zeroBuffer : ArpBuffer := fun _ => 0

/-- The call `memcpy(&pkt, buf.data(), sizeof(ArpPkt))`: the struct whose object
representation is the first 42 bytes of the buffer. -/
def ArpPkt.ofBuffer (e : Endian) (buf : ArpBuffer) : ArpPkt :=
  { hdrTargetMAC := fun i => buf (0 + i.val)
    hdrSenderMAC := fun i => buf (6 + i.val)
    frameType := loadU16 e (buf 12) (buf 13)
    hardType := loadU16 e (buf 14) (buf 15)
    protType := loadU16 e (buf 16) (buf 17)
    hardSize := buf 18
    protSize := buf 19
    opcode := loadU16 e (buf 20) (buf 21)
    senderMAC := fun i => buf (22 + i.val)
    senderIp := fun i => buf (28 + i.val)
    targetMAC := fun i => buf (32 + i.val)
    targetIp := fun i => buf (38 + i.val) }

/-- The value-initialised `ArpPkt {}`: every member zero except the two with
default member initialisers, `hardSize { 0x6 }` and `protSize { 0x4 }`. -/
def ArpPkt.init : ArpPkt :=
  { hdrTargetMAC := fun _ => 0
    hdrSenderMAC := fun _ => 0
    frameType := 0
    hardType := 0
    protType := 0
    hardSize := 6
    protSize := 4
    opcode := 0
    senderMAC := fun _ => 0
    senderIp := fun _ => 0
    targetMAC := fun _ => 0
    targetIp := fun _ => 0 }

/-! ## The C library routine `inet_pton` -/

/-- The routine `inet_pton(AF_INET, text, dst)` belongs to the C library, not
to the repository; the code takes it as a parameter. `some a` stands for a
return value of 1 with the four bytes `a` written to `dst`, `none` for a
return value of 0 with `dst` untouched. -/
abbrev InetPton := String → Option IpAddr

/-- Scanner state of `dottedQuad`: the finished octets, the octet being read,
and whether a digit of it has been seen. -/
structure QuadState where
  done : List Byte
  cur : Nat
  sawDigit : Bool

/-- One character of dotted-decimal text. -/
def QuadState.step (st : QuadState) (ch : Char) : Option QuadState :=
  if ch.isDigit then
    let new := st.cur * 10 + (ch.toNat - 48)
    if st.sawDigit && st.cur == 0 then none
    else if new > 255 then none
    else if !st.sawDigit && st.done.length ≥ 4 then none
    else some { st with cur := new, sawDigit := true }
  else if ch == '.' && st.sawDigit then
    if st.done.length ≥ 3 then none
    else some { done := st.done ++ [toByte st.cur], cur := 0, sawDigit := false }
  else none

/-- Scan a list of characters. -/
def QuadState.run (st : QuadState) : List Char → Option QuadState
  | [] => some st
  | ch :: rest =>
    match st.step ch with
    | none => none
    | some st1 => st1.run rest

/-- An instance of `InetPton` for strict dotted-decimal text (four decimal
octets 0..255 without leading zeros), used to evaluate the code on concrete
inputs. -/
def dottedQuad : InetPton := fun text =>
  match QuadState.run { done := [], cur := 0, sawDigit := false } text.toList with
  | some st =>
    if st.sawDigit then
      match st.done ++ [toByte st.cur] with
      | [a, b, c, d] => some ![a, b, c, d]
      | _ => none
    else none
  | none => none

/-! ## arplib.cpp: ArpsocketBase -/

/-- The exception type `ArpSocketException`, carrying its message. -/
structure ArpSocketException where
  errorMessage : String
  deriving DecidableEq, Repr

deriving instance DecidableEq for Except

/-- The data members of `class ArpsocketBase` that the codec uses. -/
structure ArpsocketBase where
  arppkt : ArpPkt
  incoming : ArpBuffer

namespace ArpsocketBase

def setDestHdrMAC (s : ArpsocketBase) (dhMAC : MacAddr) : ArpsocketBase :=
  { s with arppkt := { s.arppkt with hdrTargetMAC := dhMAC } }

def setSrcHdrMAC (s : ArpsocketBase) (shMAC : MacAddr) : ArpsocketBase :=
  { s with arppkt := { s.arppkt with hdrSenderMAC := shMAC } }

def setFrameType (e : Endian) (s : ArpsocketBase) (fr : U16) : ArpsocketBase :=
  { s with arppkt := { s.arppkt with frameType := htons e fr } }

def setHardType (e : Endian) (s : ArpsocketBase) (ht : U16) : ArpsocketBase :=
  { s with arppkt := { s.arppkt with hardType := htons e ht } }

def setProtType (e : Endian) (s : ArpsocketBase) (pt : U16) : ArpsocketBase :=
  { s with arppkt := { s.arppkt with protType := htons e pt } }

def setHardSize (s : ArpsocketBase) (hs : Byte) : ArpsocketBase :=
  { s with arppkt := { s.arppkt with hardSize := hs } }

def setProtSize (s : ArpsocketBase) (ps : Byte) : ArpsocketBase :=
  { s with arppkt := { s.arppkt with protSize := ps } }

def setOpcode (e : Endian) (s : ArpsocketBase) (op : U16) : ArpsocketBase :=
  { s with arppkt := { s.arppkt with opcode := htons e op } }

def setDestMAC (s : ArpsocketBase) (dMAC : MacAddr) : ArpsocketBase :=
  { s with arppkt := { s.arppkt with targetMAC := dMAC } }

/-- The result of `inet_pton` is not inspected: on failure the member keeps
its bytes. -/
def setDestIp (inet_pton : InetPton) (s : ArpsocketBase) (dIp : String) : ArpsocketBase :=
  match inet_pton dIp with
  | some a => { s with arppkt := { s.arppkt with targetIp := a } }
  | none => s

def setSrcMAC (s : ArpsocketBase) (sMAC : MacAddr) : ArpsocketBase :=
  { s with arppkt := { s.arppkt with senderMAC := sMAC } }

def setSrcIp (inet_pton : InetPton) (s : ArpsocketBase) (sIp : String) : ArpsocketBase :=
  match inet_pton sIp with
  | some a => { s with arppkt := { s.arppkt with senderIp := a } }
  | none => s

def setAllDestMAC (s : ArpsocketBase) (dhMAC : MacAddr) : ArpsocketBase :=
  (s.setDestHdrMAC dhMAC).setDestMAC dhMAC

def getSrcHdrMAC (s : ArpsocketBase) : MacAddr :=
  fun i => s.incoming (IPHDR_SRC_MAC + i.val)

def getDestHdrMAC (s : ArpsocketBase) : MacAddr :=
  fun i => s.incoming (IPHDR_DEST_MAC + i.val)

def getFrameType (e : Endian) (s : ArpsocketBase) : U16 :=
  loadU16 e (s.incoming FRAME_TYPE) (s.incoming (FRAME_TYPE + 1))

def getHardType (e : Endian) (s : ArpsocketBase) : U16 :=
  loadU16 e (s.incoming HARD_TYPE) (s.incoming (HARD_TYPE + 1))

def getProtType (e : Endian) (s : ArpsocketBase) : U16 :=
  loadU16 e (s.incoming PROT_TYPE) (s.incoming (PROT_TYPE + 1))

/-- Reads through a `const uint16_t*` at offset `HARD_SIZE`. -/
def getHardSize (e : Endian) (s : ArpsocketBase) : U16 :=
  loadU16 e (s.incoming HARD_SIZE) (s.incoming (HARD_SIZE + 1))

/-- Reads through a `const uint16_t*` at offset `PROT_SIZE`. -/
def getProtSize (e : Endian) (s : ArpsocketBase) : U16 :=
  loadU16 e (s.incoming PROT_SIZE) (s.incoming (PROT_SIZE + 1))

def getOpcode (e : Endian) (s : ArpsocketBase) : U16 :=
  loadU16 e (s.incoming OP_SIZE) (s.incoming (OP_SIZE + 1))

def getDestMAC (s : ArpsocketBase) : MacAddr :=
  fun i => s.incoming (DEST_MAC + i.val)

/-- The `std::string` result, resized to `IP_ARRAY_LEN` bytes. -/
def getDestIp (s : ArpsocketBase) : List Byte :=
  List.ofFn (fun i : Fin 4 => s.incoming (DEST_IP + i.val))

def getSrcMAC (s : ArpsocketBase) : MacAddr :=
  fun i => s.incoming (SENDER_MAC + i.val)

/-- The `std::string` result, resized to `IP_ARRAY_LEN` bytes. -/
def getSrcIp (s : ArpsocketBase) : List Byte :=
  List.ofFn (fun i : Fin 4 => s.incoming (SENDER_IP + i.val))

end ArpsocketBase

/-! ## arplib.hpp / arplib.cpp: FilterValue and ArpsocketFiltered -/

/-- The type `union FilterValue`: six bytes of storage in which every member starts at
offset 0: `bt` is byte 0, `doublebt` bytes 0..1, `btarrMAC` bytes 0..5 and
`btarrIp` bytes 0..3. -/
structure FilterValue where
  mem : Fin 6 → Byte

namespace FilterValue

def bt (ft : FilterValue) : Byte := ft.mem 0

def doublebt (e : Endian) (ft : FilterValue) : U16 := loadU16 e (ft.mem 0) (ft.mem 1)

def btarrMAC (ft : FilterValue) : MacAddr := ft.mem

def btarrIp (ft : FilterValue) : IpAddr := fun i => ft.mem (Fin.castLE (by decide) i)

/-- The constructor `FilterValue(uint8_t val) : bt{val}`. It writes byte 0; the
bytes it does not write keep whatever the storage held (`junk`). -/
def ofU8 (junk : FilterValue) (val : Byte) : FilterValue :=
  ⟨fun i => if i.val < 1 then val else junk.mem i⟩

/-- The constructor `FilterValue(uint16_t val) : doublebt{val}`: writes bytes 0..1. -/
def ofU16 (e : Endian) (junk : FilterValue) (val : U16) : FilterValue :=
  ⟨fun i => if h : i.val < 2 then storeU16 e val ⟨i.val, h⟩ else junk.mem i⟩

/-- The constructor `FilterValue(MacAddr&& val) : btarrMAC{val}`: writes all six bytes. -/
def ofMAC (val : MacAddr) : FilterValue := ⟨val⟩

/-- The constructor `FilterValue(IpAddr&& val) : btarrIp{val}`: writes bytes 0..3. -/
def ofIp (junk : FilterValue) (val : IpAddr) : FilterValue :=
  ⟨fun i => if h : i.val < 4 then val ⟨i.val, h⟩ else junk.mem i⟩

end FilterValue

/-- The type `std::map<std::string, FilterValue>`, as its entries in iteration order
(ascending key). -/
abbrev FilterMap := List (String × FilterValue)

/-- The loop of the address comparators: `true` at the first index where the
two arrays differ, `false` when the loop runs to its end. -/
def anyDiffer {n : Nat} (a b : Fin n → Byte) : Bool :=
  (List.finRange n).any (fun el => a el != b el)

/-- The member initialiser of `filterActions`. A key outside the table yields
`none`: `operator[]` then inserts an empty `std::function`, and calling it
throws `std::bad_function_call`. Each comparator returns `true` when the
packet is to be discarded. -/
def filterActions (e : Endian) (key : String) : Option (ArpPkt → FilterValue → Bool) :=
  if key = "frameType" then
    some (fun pck ft => if ft.doublebt e = pck.frameType then false else true)
  else if key = "hardType" then
    some (fun pck ft => if ft.doublebt e = pck.hardType then false else true)
  else if key = "protType" then
    some (fun pck ft => if ft.doublebt e = pck.protType then false else true)
  else if key = "hardSize" then
    some (fun pck ft => if ft.bt = pck.hardSize then false else true)
  else if key = "protSize" then
    some (fun pck ft => if ft.bt = pck.protSize then false else true)
  else if key = "opcode" then
    some (fun pck ft => if ft.doublebt e = pck.opcode then false else true)
  else if key = "senderMAC" then
    some (fun pck ft => anyDiffer ft.btarrMAC pck.senderMAC)
  else if key = "senderIp" then
    some (fun pck ft => anyDiffer ft.btarrIp pck.senderIp)
  else if key = "targetMAC" then
    some (fun pck ft => anyDiffer ft.btarrMAC pck.targetMAC)
  else if key = "targetIp" then
    some (fun pck ft => anyDiffer ft.btarrIp pck.senderIp)
  else none

/-- Whether the equality comparator registered under the rule's name matches
the packet, that is, whether the action exists and does not ask to discard. -/
def ruleMatches (e : Endian) (pck : ArpPkt) (rule : String × FilterValue) : Bool :=
  match filterActions e rule.1 with
  | some action => !action pck rule.2
  | none => false

/-- The ten keys of `filterActions`. -/
def filterNames : List String :=
  ["frameType", "hardType", "protType", "hardSize", "protSize", "opcode",
   "senderMAC", "senderIp", "targetMAC", "targetIp"]

/-- The data members of `class ArpsocketFiltered`, which derives from
`ArpsocketBase`. -/
structure ArpsocketFiltered extends ArpsocketBase where
  lastPacketRecv : ArpPkt
  filters : FilterMap

/-- The constructor `ArpsocketBase(iface)`: `arppkt {}` is value-initialised,
`incoming` has no initialiser and holds whatever the storage held. -/
def ArpsocketBase.new (incoming : ArpBuffer) : ArpsocketBase :=
  { arppkt := ArpPkt.init, incoming := incoming }

/-- The constructor `ArpsocketFiltered(iface, filt)`: it is `noexcept` and
stores the map as it is given, `filters{filt}`. -/
def ArpsocketFiltered.new (incoming : ArpBuffer) (filt : FilterMap) : ArpsocketFiltered :=
  { toArpsocketBase := ArpsocketBase.new incoming, lastPacketRecv := ArpPkt.init, filters := filt }

/-- The range-for loop of `applyFilters` over the remaining entries. An
exception raised inside the `try` block is rethrown as
`ArpSocketException("Error: applyFilters()")`. -/
def applyFiltersLoop (e : Endian) (pck : ArpPkt) :
    List (String × FilterValue) → Except ArpSocketException Bool
  | [] => .ok true
  | (key, filter) :: rest =>
    match filterActions e key with
    | none => .error ⟨"Error: applyFilters()"⟩
    | some action => if action pck filter then .ok false else applyFiltersLoop e pck rest

def ArpsocketFiltered.applyFilters (e : Endian) (s : ArpsocketFiltered) :
    Except ArpSocketException Bool :=
  applyFiltersLoop e s.lastPacketRecv s.filters

/-! ## arplib.cpp: Arpsocket -/

/-- The data members of `class Arpsocket`, which derives from
`ArpsocketFiltered`, that the send path, the receive path, the capture queue
and the worker life cycle use. `queueMtx` is `true` while the mutex is held;
`reader` is `none` for the null pointer and `some tid` when it points at the
thread object of thread `tid`. -/
structure Arpsocket extends ArpsocketFiltered where
  udsfd : Int
  etherFrame : ArpBuffer
  incomingQueue : List ArpPkt
  reader : Option Nat
  queueMtx : Bool
  running : Bool

namespace Arpsocket

/-- The constructor `Arpsocket(iface, filt)`: default frame type, hardware
type, protocol type, opcode and target address; `udsfd { -1 }`, empty queue,
`reader {nullptr}`, free mutex, `running {true}`. -/
def new (e : Endian) (inet_pton : InetPton) (incoming etherFrame : ArpBuffer)
    (filt : FilterMap) : Arpsocket :=
  let f := ArpsocketFiltered.new incoming filt
  let p := { f.arppkt with
    frameType := htons e 0x0806, hardType := htons e 1,
    protType := htons e 0x800, opcode := htons e 0x1 }
  let p := match inet_pton "127.0.0.1" with
    | some a => { p with targetIp := a }
    | none => p
  { f with arppkt := p, udsfd := -1, etherFrame := etherFrame, incomingQueue := [],
           reader := none, queueMtx := false, running := true }

/-- A call of a method inherited from `ArpsocketBase` on an `Arpsocket`: it
acts on the base-class members and leaves the others alone. -/
def onBase (s : Arpsocket) (method : ArpsocketBase → ArpsocketBase) : Arpsocket :=
  { s with toArpsocketBase := method s.toArpsocketBase }

/-- The call `queueMtx.lock()`. -/
def lock (s : Arpsocket) : Arpsocket := { s with queueMtx := true }

/-- The call `queueMtx.unlock()`. -/
def unlock (s : Arpsocket) : Arpsocket := { s with queueMtx := false }

/-- The bytes at `etherFrame.data()` of length `sizeof(ArpPkt)` that `send`
hands to `sendto`, after `memcpy(etherFrame.data(), &arppkt, sizeof(arppkt))`. -/
def sendBuffer (e : Endian) (s : Arpsocket) : List Byte :=
  bufferPrefix (memcpy s.etherFrame (s.arppkt.toBytes e) sizeofArpPkt) sizeofArpPkt

/-- The method `send`, given the value `bytesSent` returned by `sendto` and
the text of `strerror(errno)`. -/
def send (e : Endian) (s : Arpsocket) (bytesSent : Int) (strerror : String) :
    Except ArpSocketException Int × Arpsocket :=
  let s1 := { s with etherFrame := memcpy s.etherFrame (s.arppkt.toBytes e) sizeofArpPkt }
  if bytesSent ≤ 0 then
    (.error ⟨"Error: sendto() : " ++ strerror⟩, s1)
  else
    (.ok bytesSent, s1)

/-- The critical section of `receive`: lock, `push_back`, unlock. -/
def pushBack (s : Arpsocket) (pkt : ArpPkt) : Arpsocket :=
  let s1 := s.lock
  let s2 := { s1 with incomingQueue := s1.incomingQueue ++ [pkt] }
  s2.unlock

/-- The method `receive`, given the outcome of `recvfrom`: `none` for a
return value of -1, `some data` for a datagram, of which at most
`incoming.size()` bytes are stored. -/
def receive (e : Endian) (s : Arpsocket) (recvfrom : Option (List Byte)) :
    Except ArpSocketException Int × Arpsocket :=
  let s1 := { s with incoming := zeroBuffer }
  match recvfrom with
  | none => (.ok (-1), s1)
  | some data =>
    let bytesRecv := min data.length IP_MAXPACKET
    let s2 := { s1 with incoming := memcpy s1.incoming data bytesRecv }
    let s3 := { s2 with lastPacketRecv := ArpPkt.ofBuffer e s2.incoming }
    match s3.toArpsocketFiltered.applyFilters e with
    | .error err => (.error err, s3)
    | .ok false => (.ok (-2), s3)
    | .ok true => (.ok bytesRecv, s3.pushBack s3.lastPacketRecv)

/-- The method `popPacket`. -/
def popPacket (s : Arpsocket) : Except ArpSocketException ArpPkt × Arpsocket :=
  let s1 := s.lock
  match s1.incomingQueue with
  | [] =>
    let s2 := s1.unlock
    (.error ⟨"Error: attempt to pop from empty queue"⟩, s2)
  | ret :: rest =>
    let s2 := { s1 with incomingQueue := rest }
    let s3 := s2.unlock
    (.ok ret, s3)

/-- The method `availeblePackets`. -/
def availeblePackets (s : Arpsocket) : Nat × Arpsocket :=
  let s1 := s.lock
  let len := s1.incomingQueue.length
  let s2 := s1.unlock
  (len, s2)

end Arpsocket

/-! ## A frame sent by one socket and read by another -/

/-- The values handed to the twelve setters. -/
structure FieldValues where
  hdrTargetMAC : MacAddr
  hdrSenderMAC : MacAddr
  targetMAC : MacAddr
  senderMAC : MacAddr
  targetIp : String
  senderIp : String
  frameType : U16
  hardType : U16
  protType : U16
  hardSize : Byte
  protSize : Byte
  opcode : U16

/-- One call of each setter, in the order in which `ArpFuzzer::init` calls
them (fuzzer.cpp, lines 68 to 81). -/
def assignFields (e : Endian) (inet_pton : InetPton) (b : ArpsocketBase) (v : FieldValues) :
    ArpsocketBase :=
  let b := b.setDestHdrMAC v.hdrTargetMAC
  let b := b.setSrcHdrMAC v.hdrSenderMAC
  let b := b.setDestMAC v.targetMAC
  let b := b.setSrcMAC v.senderMAC
  let b := b.setDestIp inet_pton v.targetIp
  let b := b.setSrcIp inet_pton v.senderIp
  let b := b.setFrameType e v.frameType
  let b := b.setHardType e v.hardType
  let b := b.setProtType e v.protType
  let b := b.setHardSize v.hardSize
  let b := b.setProtSize v.protSize
  b.setOpcode e v.opcode

/-- An ARP request from 192.168.1.10 (AA:BB:CC:DD:EE:FF) for 192.168.1.1,
with the usual Ethernet and IPv4 constants. -/
def sampleFields : FieldValues :=
  { hdrTargetMAC := ![0xFF, 0xFF, 0xFF, 0xFF, 0xFF, 0xFF]
    hdrSenderMAC := ![0xAA, 0xBB, 0xCC, 0xDD, 0xEE, 0xFF]
    targetMAC := ![0, 0, 0, 0, 0, 0]
    senderMAC := ![0xAA, 0xBB, 0xCC, 0xDD, 0xEE, 0xFF]
    targetIp := "192.168.1.1"
    senderIp := "192.168.1.10"
    frameType := 0x0806
    hardType := 1
    protType := 0x0800
    hardSize := 6
    protSize := 4
    opcode := 1 }

/-- The state of `receiver` after a call of `receive` in which `recvfrom`
delivers the bytes that `sender` hands to `sendto`. -/
def deliver (e : Endian) (sender receiver : Arpsocket) : Arpsocket :=
  (receiver.receive e (some (sender.sendBuffer e))).2

/-! ## Runs of queue operations -/

/-- An operation on the capture queue: a push by the capture worker or a call
of `popPacket` by the control thread. Each holds `queueMtx` for its whole
critical section, so an interleaving of the two threads is a sequence of
these operations. -/
inductive QueueOp where
  | push (pkt : ArpPkt)
  | pop

/-- The outcome of a run: the frames returned by the successful pops, in
order, and the final state. -/
def runQueueOps (s : Arpsocket) : List QueueOp → List ArpPkt × Arpsocket
  | [] => ([], s)
  | .push pkt :: ops => runQueueOps (s.pushBack pkt) ops
  | .pop :: ops =>
    match s.popPacket with
    | (.ok ret, s1) => let r := runQueueOps s1 ops; (ret :: r.1, r.2)
    | (.error _, s1) => runQueueOps s1 ops

/-- The frames pushed by a run, in push order. -/
def pushedFrames : List QueueOp → List ArpPkt
  | [] => []
  | .push pkt :: ops => pkt :: pushedFrames ops
  | .pop :: ops => pushedFrames ops

/-! ## Actions of a thread on its environment -/

/-- A system call, a thread operation or an operation on `queueMtx`
performed by the code, in the order in which the code performs them. -/
inductive Action where
  | sendto (frame : List Byte)
  | socket
  | connect
  | usleep (us : Nat)
  | select
  | recvfrom
  | lock
  | unlock
  | write (msg : String)
  | newThread (tid : Nat)
  | join (tid : Nat)
  | close
  deriving DecidableEq, Repr

/-! ## arplib.cpp: the send path with its system calls -/

/-- The method `Arpsocket::send` together with the actions it performs: one
`memcpy`, one call of `sendto` on the first `sizeof(ArpPkt)` bytes of
`etherFrame`, then the test of `bytesSent`. -/
def Arpsocket.sendTraced (e : Endian) (s : Arpsocket) (bytesSent : Int) (strerror : String) :
    Except ArpSocketException Int × Arpsocket × List Action :=
  let s1 := { s with etherFrame := memcpy s.etherFrame (s.arppkt.toBytes e) sizeofArpPkt }
  let calls := [Action.sendto (bufferPrefix s1.etherFrame sizeofArpPkt)]
  if bytesSent ≤ 0 then
    (.error ⟨"Error: sendto() : " ++ strerror⟩, s1, calls)
  else
    (.ok bytesSent, s1, calls)

/-- The data members of `class ArpsocketScript`, which derives from
`ArpsocketFiltered`. -/
structure ArpsocketScript extends ArpsocketFiltered where
  etherFrame : ArpBuffer

/-- The method `ArpsocketScript::send` together with the actions it
performs. -/
def ArpsocketScript.sendTraced (e : Endian) (s : ArpsocketScript) (bytesSent : Int)
    (strerror : String) : Except ArpSocketException Int × ArpsocketScript × List Action :=
  let s1 := { s with etherFrame := memcpy s.etherFrame (s.arppkt.toBytes e) sizeofArpPkt }
  let calls := [Action.sendto (bufferPrefix s1.etherFrame sizeofArpPkt)]
  if bytesSent ≤ 0 then
    (.error ⟨"Error: sendto() : " ++ strerror⟩, s1, calls)
  else
    (.ok bytesSent, s1, calls)

/-! ## arplib.cpp: the capture worker -/

namespace Arpsocket

/-- The method `shutdown`. -/
def shutdown (s : Arpsocket) : Arpsocket := { s with running := false }

/-- The method `receive` together with the actions it performs. -/
def receiveTraced (e : Endian) (s : Arpsocket) (recvfrom : Option (List Byte)) :
    Except ArpSocketException Int × Arpsocket × List Action :=
  let s1 := { s with incoming := zeroBuffer }
  match recvfrom with
  | none => (.ok (-1), s1, [.recvfrom])
  | some data =>
    let bytesRecv := min data.length IP_MAXPACKET
    let s2 := { s1 with incoming := memcpy s1.incoming data bytesRecv }
    let s3 := { s2 with lastPacketRecv := ArpPkt.ofBuffer e s2.incoming }
    match s3.toArpsocketFiltered.applyFilters e with
    | .error err => (.error err, s3, [.recvfrom])
    | .ok false => (.ok (-2), s3, [.recvfrom])
    | .ok true => (.ok bytesRecv, s3.pushBack s3.lastPacketRecv, [.recvfrom, .lock, .unlock])

/-- Calls of `popPacket` made by the control thread, results dropped. -/
def popN : Nat → Arpsocket → Arpsocket
  | 0, s => s
  | n + 1, s => popN n s.popPacket.2

end Arpsocket

/-- The retry loop around `connect` in `receiveAll`: `connect attempt` is the
value returned by the call numbered `attempt`. Returns the last value of
`udsret` and the actions performed. -/
def connectLoop (connect : Nat → Int) : (retry : Nat) → (attempt : Nat) → Int × List Action
  | 0, _ => (-1, [])
  | retry + 1, attempt =>
    let udsret := connect attempt
    if udsret ≠ -1 then (udsret, [.connect])
    else
      let r := connectLoop connect retry (attempt + 1)
      (r.1, [.connect, .usleep 1000] ++ r.2)

/-- What the environment does during one pass of the `while(running)` loop:
whether the control thread has called `shutdown()` since the flag was last
tested, the value returned by `select`, the outcome of `recvfrom` if it is
called, the number of `popPacket` calls the control thread makes between the
return of `receive` and the worker taking the lock, and the value returned by
`write` if it is called. -/
structure LoopEvent where
  shutdown : Bool
  select : Int
  recvfrom : Option (List Byte)
  pops : Nat
  write : Int

/-- How the `while(running)` loop is left: the flag was found false, an
exception was thrown out of it, or the events ran out with the worker still
inside the loop. -/
inductive LoopExit where
  | finished
  | threw (err : ArpSocketException)
  | pending
  deriving DecidableEq, Repr

/-- The `while(running)` loop of `receiveAll`, with the state it leaves and
the actions of the worker. -/
def receiveLoop (e : Endian) (strerror : String) (s : Arpsocket) :
    List LoopEvent → LoopExit × Arpsocket × List Action
  | [] => if s.running then (.pending, s, []) else (.finished, s, [])
  | ev :: rest =>
    let s0 := if ev.shutdown then s.shutdown else s
    if s0.running = false then (.finished, s0, [])
    else if ev.select = -1 then
      (.threw ⟨"readLineTimeout: Select Error."⟩, s0, [.select])
    else if ev.select = 0 then
      let r := receiveLoop e strerror s0 rest
      (r.1, r.2.1, [.select, .usleep 250] ++ r.2.2)
    else
      match s0.receiveTraced e ev.recvfrom with
      | (.error err, s1, calls) =>
        (.threw ⟨"Error: receiveAll() from receive() : " ++ err.errorMessage⟩, s1,
          .select :: calls)
      | (.ok ret, s1, calls) =>
        if ret = -2 then
          let r := receiveLoop e strerror s1 rest
          (r.1, r.2.1, .select :: calls ++ [.usleep 250] ++ r.2.2)
        else if ret = -1 then
          (.threw ⟨"Error: recvfrom() : " ++ strerror⟩, s1, .select :: calls)
        else if ret = 0 then
          (.threw ⟨"readTimeout: Connection Closed by peer."⟩, s1, .select :: calls)
        else
          let s2 := s1.popN ev.pops
          let s3 := s2.lock
          let buf := Nat.repr s3.incomingQueue.length
          let s4 := s3.unlock
          if ev.write = -1 then
            (.threw ⟨"Error: can't write on UDS : " ++ strerror⟩, s4,
              .select :: calls ++ [.lock, .write buf, .unlock])
          else
            let r := receiveLoop e strerror s4 rest
            (r.1, r.2.1, .select :: calls ++ [.lock, .write buf, .unlock, .usleep 250] ++ r.2.2)

/-- The environment of one run of `receiveAll`: the value returned by
`socket`, the values returned by the successive calls of `connect`, and the
events of the loop. -/
structure WorkerEnv where
  socket : Int
  connect : Nat → Int
  loop : List LoopEvent

/-- The result of a run of `receiveAll`: it returned, leaving the given state
after the given actions, having caught the given exception if any; or the
events ran out while it was still in its loop. The method is `noexcept` and
both results are free of exceptions. -/
inductive WorkerOutcome where
  | returned (s : Arpsocket) (calls : List Action) (caught : Option ArpSocketException)
  | pending (s : Arpsocket) (calls : List Action)

/-- The method `receiveAll`. -/
def Arpsocket.receiveAll (e : Endian) (strerror : String) (s : Arpsocket) (env : WorkerEnv) :
    WorkerOutcome :=
  let s1 := { s with udsfd := env.socket }
  if env.socket = -1 then
    .returned { s1 with running := false } [.socket]
      (some ⟨"Error: can't create UDS : " ++ strerror⟩)
  else
    let c := connectLoop env.connect 5 0
    if c.1 = -1 then
      .returned { s1 with running := false } (.socket :: c.2)
        (some ⟨"Error: can't connect UDS : " ++ strerror⟩)
    else
      match receiveLoop e strerror s1 env.loop with
      | (.pending, s2, calls) => .pending s2 (.socket :: c.2 ++ calls)
      | (.finished, s2, calls) =>
        .returned { s2 with running := false } (.socket :: c.2 ++ calls) none
      | (.threw err, s2, calls) =>
        .returned { s2 with running := false } (.socket :: c.2 ++ calls) (some err)

namespace WorkerOutcome

/-- The state left by the run. -/
def state : WorkerOutcome → Arpsocket
  | .returned s _ _ => s
  | .pending s _ => s

/-- The actions of the run. -/
def calls : WorkerOutcome → List Action
  | .returned _ calls _ => calls
  | .pending _ calls => calls

/-- Whether `receiveAll` returned. -/
def hasReturned : WorkerOutcome → Bool
  | .returned _ _ _ => true
  | .pending _ _ => false

/-- The exception caught by `receiveAll`, if any. -/
def caught : WorkerOutcome → Option ArpSocketException
  | .returned _ _ err => err
  | .pending _ _ => none

end WorkerOutcome

/-! ## arplib.cpp: worker life cycle -/

namespace Arpsocket

/-- The method `startReceiverThread`, given the outcome of
`new thread(...)`: `some tid` when thread `tid` was created, which then runs
`receiveAll` on this object, `none` when the creation threw. -/
def startReceiverThread (s : Arpsocket) (created : Option Nat) :
    Except ArpSocketException Unit × Arpsocket × List Action :=
  match created with
  | some tid => (.ok (), { s with reader := some tid }, [.newThread tid])
  | none => (.error ⟨"Error: startReceiverThread() - creation "⟩, s, [])

/-- Successive calls of `startReceiverThread`: the results, the final state
and the actions performed. -/
def startMany (s : Arpsocket) :
    List (Option Nat) → List (Except ArpSocketException Unit) × Arpsocket × List Action
  | [] => ([], s, [])
  | created :: rest =>
    let r := s.startReceiverThread created
    let q := startMany r.2.1 rest
    (r.1 :: q.1, q.2.1, r.2.2 ++ q.2.2)

end Arpsocket

/-- The result of running the destructor `~Arpsocket`: it completed, or it
called a member function through the null pointer `reader`, which has no
defined behaviour. -/
inductive DtorOutcome where
  | completed (s : Arpsocket) (calls : List Action)
  | nullDereference (s : Arpsocket)

/-- The destructor `~Arpsocket`: `shutdown()`, then `reader->join()` and
`delete reader` inside a `try` block whose handler only logs, then
`close(udsfd)` when `udsfd` is not -1. -/
def Arpsocket.destroy (s : Arpsocket) : DtorOutcome :=
  let s1 := s.shutdown
  match s1.reader with
  | none => .nullDereference s1
  | some tid =>
    if s1.udsfd ≠ -1 then .completed s1 [.join tid, .close]
    else .completed s1 [.join tid]

/-- Whether the destructor completed. -/
def DtorOutcome.hasCompleted : DtorOutcome → Bool
  | .completed _ _ => true
  | .nullDereference _ => false

/-! ## fuzzer.cpp: scalar fields set by ArpFuzzer::init -/

/-- The conversion `static_cast<uint16_t>` of a `long`: reduction modulo
65536. -/
def castU16 (n : Int) : U16 := toU16 (n % 65536).toNat

/-- The conversion of a `uint16_t` argument to a `uint8_t` parameter:
reduction modulo 256. -/
def narrowU8 (x : U16) : Byte := toByte x.val

/-- The six scalar setter calls of `ArpFuzzer::init` (fuzzer.cpp, lines 76 to
81; `ArpFuzzerScript::init` has the same calls), given the integers that
`getInteger()` returns for `frameType`, `hardType`, `protType`, `hardSize`,
`protSize` and `opcode`. -/
def ArpFuzzer.initScalars (e : Endian) (b : ArpsocketBase)
    (frameType hardType protType hardSize protSize opcode : Int) : ArpsocketBase :=
  let b := b.setFrameType e (castU16 frameType)
  let b := b.setHardType e (castU16 hardType)
  let b := b.setProtType e (castU16 protType)
  let b := b.setHardSize (narrowU8 (castU16 hardSize))
  let b := b.setProtSize (narrowU8 (castU16 protSize))
  b.setOpcode e (castU16 opcode)

/-- The packet that `receive` copies out of `incoming` after `recvfrom` has
delivered `data`: at most `incoming.size()` bytes of `data` are stored and
the rest of the buffer is zero. -/
def receivedFrame (e : Endian) (data : List Byte) : ArpPkt :=
  ArpPkt.ofBuffer e (memcpy zeroBuffer data (min data.length IP_MAXPACKET))

/-- The frame whose object representation is the first 42 bytes of a
datagram. -/
def frameOfBytes (e : Endian) (data : List Byte) : ArpPkt :=
  ArpPkt.ofBuffer e (fun i => (data.take 42).getD i 0)

/-- The actions that may occur in the capture loop. -/
def Action.inLoop : Action → Bool
  | .select | .recvfrom | .lock | .unlock | .write _ | .usleep _ => true
  | _ => false

/-! ## The mutex along a trace -/

/-- The actions of a trace that the thread performs while it holds
`queueMtx`: those after a `lock` and before the next `unlock`. The argument
`held` tells whether the mutex is held at the start of the trace. -/
def heldActions (held : Bool) : List Action → List Action
  | [] => []
  | a :: rest =>
    match a with
    | .lock => heldActions true rest
    | .unlock => heldActions false rest
    | a => if held then a :: heldActions held rest else heldActions held rest

/-- Whether an action is a `write` on the notification channel. -/
def Action.isWrite : Action → Bool
  | .write _ => true
  | _ => false

/-! ## Runs of calls on one object -/

/-- A call on an `Arpsocket` made during its life: one of the methods that
read or write the running flag or run beside the worker. -/
inductive LifeOp where
  | shutdown
  | startReceiverThread (created : Option Nat)
  | receiveAll (env : WorkerEnv)
  | receive (recvfrom : Option (List Byte))
  | popPacket
  | send (bytesSent : Int)

/-- The state of the object after one call. -/
def applyLifeOp (e : Endian) (strerror : String) (s : Arpsocket) : LifeOp → Arpsocket
  | .shutdown => s.shutdown
  | .startReceiverThread created => (s.startReceiverThread created).2.1
  | .receiveAll env => (s.receiveAll e strerror env).state
  | .receive recvfrom => (s.receive e recvfrom).2
  | .popPacket => s.popPacket.2
  | .send bytesSent => (s.send e bytesSent strerror).2

/-- The state of the object after a run of calls. -/
def runLifeOps (e : Endian) (strerror : String) (s : Arpsocket) : List LifeOp → Arpsocket
  | [] => s
  | op :: rest => runLifeOps e strerror (applyLifeOp e strerror s op) rest

/-! ## Bytes outside a field -/

/-- Two images agree outside the field of `width` bytes at `offset`. -/
def sameOutside (img1 img2 : List Byte) (offset width : Nat) : Prop :=
  img1.take offset = img2.take offset ∧ img1.drop (offset + width) = img2.drop (offset + width)

/-! ## Maps keyed by `std::string` -/

/-- The call `emplace(key, value)` on a `std::map` keyed by `std::string`,
the map being the list of its entries in key order (the order of
`std::string`, lexicographic on the characters): nothing is inserted when the
key is present, otherwise the new entry is inserted at its place in the
order. -/
def mapEmplace {α : Type} (key : String) (value : α) : List (String × α) → List (String × α)
  | [] => [(key, value)]
  | (k, w) :: rest =>
    if key = k then (k, w) :: rest
    else if key.data < k.data then (key, value) :: (k, w) :: rest
    else (k, w) :: mapEmplace key value rest

/-- The call `at(key)` on such a map: `none` when it throws `out_of_range`. -/
def mapAt {α : Type} (key : String) : List (String × α) → Option α
  | [] => none
  | (k, w) :: rest => if key = k then some w else mapAt key rest

/-- A write of `value` through the reference that `at(key)` returns. -/
def mapStore {α : Type} (key : String) (value : α) : List (String × α) → List (String × α)
  | [] => []
  | (k, w) :: rest => if key = k then (k, value) :: rest else (k, w) :: mapStore key value rest

/-! ## configFile.hpp / configFile.cpp: ConfigVar -/

/-- The class `ConfigFileException`. -/
structure ConfigFileException where
  errorMessage : String
  deriving DecidableEq, Repr

/-- The enumeration `DATA_TYPE`. -/
inductive DATA_TYPE where
  | BOOLEAN
  | INTEGER
  | FLOATING_POINT
  | TEXT
  deriving DecidableEq, Repr

/-- An object of type `double`, as its 64-bit pattern. -/
abbrev Double := Nat

/-- The union `ConfigData`, as one slot for each member. Every read and every
write of a member in `ConfigVar` is guarded by the type tag, and the tag never
changes, so only the member named by the tag is ever written or read. -/
structure ConfigData where
  text : String
  integer : Int
  floatingPoint : Double
  boolean : Bool
  deriving DecidableEq, Repr

/-- The data members of `class ConfigVar`. -/
structure ConfigVar where
  type : DATA_TYPE
  data : ConfigData
  empty : Bool
  optional : Bool
  deriving DecidableEq, Repr

namespace ConfigVar

/-- The constructors from `std::string` and `const char*`; `empty {true}` and
`optional {false}` are the default member initialisers. -/
def ofText (txt : String) : ConfigVar := ⟨.TEXT, ⟨txt, 0, 0, false⟩, true, false⟩

/-- The constructor `ConfigVar(long num)`. -/
def ofInteger (num : Int) : ConfigVar := ⟨.INTEGER, ⟨"", num, 0, false⟩, true, false⟩

/-- The constructor `ConfigVar(double fl)`. -/
def ofFloat (fl : Double) : ConfigVar := ⟨.FLOATING_POINT, ⟨"", 0, fl, false⟩, true, false⟩

/-- The constructor `ConfigVar(bool bl)`. -/
def ofBool (bl : Bool) : ConfigVar := ⟨.BOOLEAN, ⟨"", 0, 0, bl⟩, true, false⟩

def getDataType (v : ConfigVar) : DATA_TYPE := v.type

def getText (v : ConfigVar) : Except ConfigFileException String :=
  if v.type = .TEXT then .ok v.data.text
  else .error ⟨"ConfigVar::getText()- wrong type"⟩

/-- The method `getIp`, given the parser `parseIp` of `StringUtils.hpp`: the
parser returns the address or throws a `StringUtilsException` with a
message. -/
def getIp (parseIp : String → Except String IpAddr) (v : ConfigVar) :
    Except ConfigFileException IpAddr :=
  if v.type = .TEXT then
    match parseIp v.data.text with
    | .ok dst => .ok dst
    | .error what => .error ⟨"ConfigVar::getIp()- wrong value : " ++ what⟩
  else .error ⟨"ConfigVar::getIp()- wrong type"⟩

/-- The method `getMAC`, given the parser `parseMAC` of `StringUtils.hpp`. -/
def getMAC (parseMAC : String → Except String MacAddr) (v : ConfigVar) :
    Except ConfigFileException MacAddr :=
  if v.type = .TEXT then
    match parseMAC v.data.text with
    | .ok dst => .ok dst
    | .error what => .error ⟨"ConfigVar::getMAC()- wrong value : " ++ what⟩
  else .error ⟨"ConfigVar::getMAC()- wrong type"⟩

def getFloat (v : ConfigVar) : Except ConfigFileException Double :=
  if v.type = .FLOATING_POINT then .ok v.data.floatingPoint
  else .error ⟨"ConfigVar::getFloat()- wrong type"⟩

def getInteger (v : ConfigVar) : Except ConfigFileException Int :=
  if v.type = .INTEGER then .ok v.data.integer
  else .error ⟨"ConfigVar::getInteger()- wrong type"⟩

def getBool (v : ConfigVar) : Except ConfigFileException Bool :=
  if v.type = .BOOLEAN then .ok v.data.boolean
  else .error ⟨"ConfigVar::getBool()- wrong type"⟩

def setText (v : ConfigVar) (val : String) : Except ConfigFileException ConfigVar :=
  if v.type = .TEXT then .ok { v with data := { v.data with text := val } }
  else .error ⟨"ConfigVar::setText()- wrong type" ++ val⟩

/-- The method `setFloat`, given the text that `std::to_string` produces for
a `double`. -/
def setFloat (to_string : Double → String) (v : ConfigVar) (val : Double) :
    Except ConfigFileException ConfigVar :=
  if v.type = .FLOATING_POINT then .ok { v with data := { v.data with floatingPoint := val } }
  else .error ⟨"ConfigVar::setFloat()- wrong type" ++ to_string val⟩

def setInteger (v : ConfigVar) (val : Int) : Except ConfigFileException ConfigVar :=
  if v.type = .INTEGER then .ok { v with data := { v.data with integer := val } }
  else .error ⟨"ConfigVar::setInteger()- wrong type" ++ toString val⟩

def setBool (v : ConfigVar) (val : Bool) : Except ConfigFileException ConfigVar :=
  if v.type = .BOOLEAN then .ok { v with data := { v.data with boolean := val } }
  else .error ⟨"ConfigVar::setBool()- wrong type" ++ (if val then "1" else "0")⟩

def setEmpty (v : ConfigVar) (val : Bool) : ConfigVar := { v with empty := val }

def setOptional (v : ConfigVar) (val : Bool) : ConfigVar := { v with optional := val }

def isNum (v : ConfigVar) : Bool := decide (v.type = .INTEGER)

def isFloat (v : ConfigVar) : Bool := decide (v.type = .FLOATING_POINT)

def isText (v : ConfigVar) : Bool := decide (v.type = .TEXT)

def isBool (v : ConfigVar) : Bool := decide (v.type = .BOOLEAN)

def isEmpty (v : ConfigVar) : Bool := v.empty

def isOptional (v : ConfigVar) : Bool := v.optional

end ConfigVar

/-! ## configFile.cpp: ConfigFile -/

/-- The type `ConfigEnv`, a `std::map<std::string, ConfigVar>`: its entries in
key order. -/
abbrev ConfigEnv := List (String × ConfigVar)

/-- The variables of a `ConfigFile`. -/
structure ConfigFile where
  configEnv : ConfigEnv
  deriving DecidableEq, Repr

/-- What the Lua C API answers about the value that
`lua_getglobal(luaState, key)` pushes: whether `lua_isnil` is 1, whether
`lua_isstring` is not 0, the text of `lua_tostring`, the result of
`lua_tointegerx` and of `lua_tonumberx` (`none` when the indicator is 0), and
the result of `lua_toboolean`. -/
structure LuaValue where
  isnil : Bool
  isstring : Bool
  tostring : String
  tointegerx : Option Int
  tonumberx : Option Double
  toboolean : Bool

/-- The outcome of loading and running the configuration file: the values
returned by `luaL_loadfile` and by `lua_pcall`, and the globals that the
script leaves in the Lua state. -/
structure LuaRun where
  loadfile : Int
  pcall : Int
  globals : String → LuaValue

namespace ConfigFile

/-- The constructor: no variable is registered. -/
def new : ConfigFile := ⟨[]⟩

/-- The overloads of `addLoadableVariable`; `dt` is the `ConfigVar` that
`emplace(name, dt)` constructs from the overload's second argument. -/
def addLoadableVariable (c : ConfigFile) (name : String) (dt : ConfigVar) (optional : Bool) :
    Except ConfigFileException Unit × ConfigFile :=
  if name = "" then
    (.error ⟨"Error: addOptionalLoadableVariable(): empty name."⟩, c)
  else
    let env := mapEmplace name dt c.configEnv
    match mapAt name env with
    | some configValue => (.ok (), ⟨mapStore name (configValue.setOptional optional) env⟩)
    | none => (.ok (), ⟨env⟩)

def loadString (globals : String → LuaValue) (key : String) :
    Except ConfigFileException String :=
  if (globals key).isnil then
    .error ⟨"Error: loadString() - invalid variable : " ++ key⟩
  else if (globals key).isstring = false then
    .error ⟨"Error: loadString(): invalid type : " ++ key⟩
  else .ok (globals key).tostring

def loadInteger (globals : String → LuaValue) (key : String) :
    Except ConfigFileException Int :=
  if (globals key).isnil = false then
    match (globals key).tointegerx with
    | none => .error ⟨"Error: loadInteger(): invalid value : " ++ key⟩
    | some ret => .ok ret
  else .error ⟨"Error: loadInteger() - invalid variable : " ++ key⟩

def loadFloat (globals : String → LuaValue) (key : String) :
    Except ConfigFileException Double :=
  if (globals key).isnil = false then
    match (globals key).tonumberx with
    | none => .error ⟨"Error: loadFloat(): invalid value : " ++ key⟩
    | some ret => .ok ret
  else .error ⟨"Error: loadFloat() - invalid variable : " ++ key⟩

def loadBool (globals : String → LuaValue) (key : String) :
    Except ConfigFileException Bool :=
  if (globals key).isnil = false then .ok (globals key).toboolean
  else .error ⟨"Error: loadBool() - invalid variable : " ++ key⟩

/-- The `switch` inside the inner `try` block of `loadConfig`, for the entry
`(key, value)`: the variable after the load and `setEmpty(false)`, or the
exception thrown, in which case the entry is as before. -/
def loadVar (to_string : Double → String) (globals : String → LuaValue) (key : String)
    (value : ConfigVar) : Except ConfigFileException ConfigVar :=
  match value.getDataType with
  | .BOOLEAN =>
    match loadBool globals key with
    | .error ex => .error ex
    | .ok b =>
      match value.setBool b with
      | .error ex => .error ex
      | .ok v => .ok (v.setEmpty false)
  | .FLOATING_POINT =>
    match loadFloat globals key with
    | .error ex => .error ex
    | .ok f =>
      match value.setFloat to_string f with
      | .error ex => .error ex
      | .ok v => .ok (v.setEmpty false)
  | .INTEGER =>
    match loadInteger globals key with
    | .error ex => .error ex
    | .ok n =>
      match value.setInteger n with
      | .error ex => .error ex
      | .ok v => .ok (v.setEmpty false)
  | .TEXT =>
    match loadString globals key with
    | .error ex => .error ex
    | .ok t =>
      match value.setText t with
      | .error ex => .error ex
      | .ok v => .ok (v.setEmpty false)

/-- The loop `for (auto &[key, value] : configEnv)` of `loadConfig`, over the
entries still to visit: the exception that leaves the loop, if any, and the
entries afterwards. `configEnv.at(key)` is the entry being visited, so it
never throws `out_of_range`. -/
def loadLoop (to_string : Double → String) (globals : String → LuaValue) :
    List (String × ConfigVar) → Except ConfigFileException Unit × List (String × ConfigVar)
  | [] => (.ok (), [])
  | (key, value) :: rest =>
    let optionalConf := value.isOptional
    match loadVar to_string globals key value with
    | .ok v =>
      let r := loadLoop to_string globals rest
      (r.1, (key, v) :: r.2)
    | .error ex =>
      if !optionalConf then (.error ex, (key, value) :: rest)
      else
        let r := loadLoop to_string globals rest
        (r.1, (key, value) :: r.2)

/-- The method `loadConfig`. -/
def loadConfig (to_string : Double → String) (c : ConfigFile) (run : LuaRun) :
    Except ConfigFileException Unit × ConfigFile :=
  if run.loadfile ≠ 0 then (.error ⟨"Error: Invalid config file name."⟩, c)
  else if run.pcall ≠ 0 then (.error ⟨"Error: syntax error in config file."⟩, c)
  else
    let r := loadLoop to_string run.globals c.configEnv
    (r.1, ⟨r.2⟩)

def getConf (c : ConfigFile) (key : String) : Except ConfigFileException ConfigVar :=
  match mapAt key c.configEnv with
  | some v => .ok v
  | none => .error ⟨"Error: getConf() - invalid key: " ++ key⟩

/-- The method `setConf`: the variable that the returned reference denotes. -/
def setConf (c : ConfigFile) (key : String) : Except ConfigFileException ConfigVar :=
  match mapAt key c.configEnv with
  | some v => .ok v
  | none => .error ⟨"Error: getConf() - invalid key: " ++ key⟩

/-- A write of `v` through the reference returned by `setConf(key)`. -/
def store (c : ConfigFile) (key : String) (v : ConfigVar) : ConfigFile :=
  ⟨mapStore key v c.configEnv⟩

end ConfigFile

/-! ## configFile.cpp: the script setters of ArpCtx -/

/-- The two objects that the static members of `ArpCtx` point at. -/
structure ArpCtx where
  arpsocket : ArpsocketScript
  configFile : ConfigFile

/-- A call of a method inherited from `ArpsocketBase` on an
`ArpsocketScript`. -/
def ArpsocketScript.onBase (s : ArpsocketScript) (method : ArpsocketBase → ArpsocketBase) :
    ArpsocketScript :=
  { s with toArpsocketBase := method s.toArpsocketBase }

namespace ArpCtx

/-- The common body of `setSrcHdrMAC`, `setDestHdrMAC`, `setDestMAC` and
`setSrcMAC`, which differ in the message, in the configuration key and in the
socket setter: `par` is the text returned by `luaL_checkstring(L, 1)`, and
`parseMAC` is the parser of `StringUtils.hpp`, which returns the address or
throws a `StringUtilsException` with a message. An exception leaves the
function before the statements that follow the throwing call. -/
def macSetter (parseMAC : String → Except String MacAddr) (message key : String)
    (setter : ArpsocketBase → MacAddr → ArpsocketBase) (c : ArpCtx) (par : String) :
    Except ConfigFileException Int × ArpCtx :=
  match parseMAC par with
  | .error what => (.error ⟨message ++ what⟩, c)
  | .ok mac =>
    match c.configFile.setConf key with
    | .error ex => (.error ex, c)
    | .ok v =>
      match v.setText par with
      | .error ex => (.error ex, c)
      | .ok v2 =>
        (.ok 0, { arpsocket := c.arpsocket.onBase (fun b => setter b mac),
                  configFile := c.configFile.store key v2 })

/-- The common body of `setDestIp` and `setSrcIp`: `parseIpCheckOnly` is the
checker of `StringUtils.hpp`, which returns or throws a
`StringUtilsException` with a message. -/
def ipSetter (parseIpCheckOnly : String → Except String Unit) (message key : String)
    (setter : ArpsocketBase → String → ArpsocketBase) (c : ArpCtx) (par : String) :
    Except ConfigFileException Int × ArpCtx :=
  match parseIpCheckOnly par with
  | .error what => (.error ⟨message ++ what⟩, c)
  | .ok _ =>
    match c.configFile.setConf key with
    | .error ex => (.error ex, c)
    | .ok v =>
      match v.setText par with
      | .error ex => (.error ex, c)
      | .ok v2 =>
        (.ok 0, { arpsocket := c.arpsocket.onBase (fun b => setter b par),
                  configFile := c.configFile.store key v2 })

def setSrcHdrMAC (parseMAC : String → Except String MacAddr) (c : ArpCtx) (par : String) :
    Except ConfigFileException Int × ArpCtx :=
  macSetter parseMAC "Error: setSrcHdrMAC :" "hdrSenderMAC" ArpsocketBase.setSrcHdrMAC c par

def setDestHdrMAC (parseMAC : String → Except String MacAddr) (c : ArpCtx) (par : String) :
    Except ConfigFileException Int × ArpCtx :=
  macSetter parseMAC "Error: setDestHdrMAC :" "hdrTargetMAC" ArpsocketBase.setDestHdrMAC c par

def setDestMAC (parseMAC : String → Except String MacAddr) (c : ArpCtx) (par : String) :
    Except ConfigFileException Int × ArpCtx :=
  macSetter parseMAC "Error: setDestMAC :" "targetMAC" ArpsocketBase.setDestMAC c par

def setSrcMAC (parseMAC : String → Except String MacAddr) (c : ArpCtx) (par : String) :
    Except ConfigFileException Int × ArpCtx :=
  macSetter parseMAC "Error: setSrcMAC :" "senderMAC" ArpsocketBase.setSrcMAC c par

def setDestIp (parseIpCheckOnly : String → Except String Unit) (inet_pton : InetPton)
    (c : ArpCtx) (par : String) : Except ConfigFileException Int × ArpCtx :=
  ipSetter parseIpCheckOnly "Error: setDestIp :" "targetIp"
    (fun b => b.setDestIp inet_pton) c par

def setSrcIp (parseIpCheckOnly : String → Except String Unit) (inet_pton : InetPton)
    (c : ArpCtx) (par : String) : Except ConfigFileException Int × ArpCtx :=
  ipSetter parseIpCheckOnly "Error: setSrcIp :" "senderIp"
    (fun b => b.setSrcIp inet_pton) c par

end ArpCtx

/-! ## arpfuzzer_main.cpp: registered variables and the filter map -/

/-- The calls of `addLoadableVariable` in `main` (lines 147 to 170), in
order: name, variable constructed from the second argument, optional flag. -/
def mainVariables : List (String × ConfigVar × Bool) :=
  [("hdrSenderMAC", ConfigVar.ofText "", false),
   ("hdrTargetMAC", ConfigVar.ofText "", false),
   ("frameType", ConfigVar.ofInteger 0, false),
   ("hardType", ConfigVar.ofInteger 0, false),
   ("protType", ConfigVar.ofInteger 0, false),
   ("hardSize", ConfigVar.ofInteger 0, false),
   ("protSize", ConfigVar.ofInteger 0, false),
   ("opcode", ConfigVar.ofInteger 0, false),
   ("targetMAC", ConfigVar.ofText "", false),
   ("senderMAC", ConfigVar.ofText "", false),
   ("targetIp", ConfigVar.ofText "", false),
   ("senderIp", ConfigVar.ofText "", false),
   ("frameTypeFilter", ConfigVar.ofInteger 0, true),
   ("hardTypeFilter", ConfigVar.ofInteger 0, true),
   ("protTypeFilter", ConfigVar.ofInteger 0, true),
   ("hardSizeFilter", ConfigVar.ofInteger 0, true),
   ("protSizeFilter", ConfigVar.ofInteger 0, true),
   ("opcodeFilter", ConfigVar.ofInteger 0, true),
   ("senderMACFilter", ConfigVar.ofText "", true),
   ("senderIpFilter", ConfigVar.ofText "", true),
   ("targetMACFilter", ConfigVar.ofText "", true),
   ("targetIpFilter", ConfigVar.ofText "", true)]

/-- Successive calls of `addLoadableVariable`, stopping at the first that
throws. -/
def registerAll (c : ConfigFile) :
    List (String × ConfigVar × Bool) → Except ConfigFileException Unit × ConfigFile
  | [] => (.ok (), c)
  | (name, dt, optional) :: rest =>
    match c.addLoadableVariable name dt optional with
    | (.ok _, c1) => registerAll c1 rest
    | (.error ex, c1) => (.error ex, c1)

/-- The configuration of `main` after its registrations and `loadConfig`. -/
def mainConfig (to_string : Double → String) (run : LuaRun) :
    Except ConfigFileException Unit × ConfigFile :=
  match registerAll ConfigFile.new mainVariables with
  | (.ok _, c) => c.loadConfig to_string run
  | (.error ex, c) => (.error ex, c)

/-- One of the six statements of `main` (lines 208 to 213) that register a
scalar rule: when the variable `conf` is not empty, its integer is converted
with `static_cast<uint16_t>` and `htons`, and the `uint16_t` result selects
the constructor `FilterValue(uint16_t)` in `emplace`. The bytes of the union
that this constructor does not write are those of `junk`. -/
def emplaceScalarRule (e : Endian) (junk : FilterValue) (cfg : ConfigFile)
    (conf rule : String) (filterMap : FilterMap) : Except ConfigFileException FilterMap :=
  match cfg.getConf conf with
  | .error ex => .error ex
  | .ok v =>
    if !v.isEmpty then
      match cfg.getConf conf with
      | .error ex => .error ex
      | .ok w =>
        match w.getInteger with
        | .error ex => .error ex
        | .ok n => .ok (mapEmplace rule (FilterValue.ofU16 e junk (htons e (castU16 n))) filterMap)
    else .ok filterMap

/-- One of the two statements of `main` that register a MAC rule. -/
def emplaceMACRule (parseMAC : String → Except String MacAddr) (cfg : ConfigFile)
    (conf rule : String) (filterMap : FilterMap) : Except ConfigFileException FilterMap :=
  match cfg.getConf conf with
  | .error ex => .error ex
  | .ok v =>
    if !v.isEmpty then
      match cfg.getConf conf with
      | .error ex => .error ex
      | .ok w =>
        match w.getMAC parseMAC with
        | .error ex => .error ex
        | .ok macAddr => .ok (mapEmplace rule (FilterValue.ofMAC macAddr) filterMap)
    else .ok filterMap

/-- One of the two statements of `main` that register an IP rule. -/
def emplaceIpRule (parseIp : String → Except String IpAddr) (junk : FilterValue)
    (cfg : ConfigFile) (conf rule : String) (filterMap : FilterMap) :
    Except ConfigFileException FilterMap :=
  match cfg.getConf conf with
  | .error ex => .error ex
  | .ok v =>
    if !v.isEmpty then
      match cfg.getConf conf with
      | .error ex => .error ex
      | .ok w =>
        match w.getIp parseIp with
        | .error ex => .error ex
        | .ok ipAddr => .ok (mapEmplace rule (FilterValue.ofIp junk ipAddr) filterMap)
    else .ok filterMap

/-- The filter map that `main` builds from the loaded configuration (lines
207 to 233). -/
def mainFilterMap (e : Endian) (parseMAC : String → Except String MacAddr)
    (parseIp : String → Except String IpAddr) (junk : FilterValue) (cfg : ConfigFile) :
    Except ConfigFileException FilterMap :=
  (emplaceScalarRule e junk cfg "frameTypeFilter" "frameType" []) >>=
  emplaceScalarRule e junk cfg "hardTypeFilter" "hardType" >>=
  emplaceScalarRule e junk cfg "protTypeFilter" "protType" >>=
  emplaceScalarRule e junk cfg "hardSizeFilter" "hardSize" >>=
  emplaceScalarRule e junk cfg "protSizeFilter" "protSize" >>=
  emplaceScalarRule e junk cfg "opcodeFilter" "opcode" >>=
  emplaceMACRule parseMAC cfg "senderMACFilter" "senderMAC" >>=
  emplaceIpRule parseIp junk cfg "senderIpFilter" "senderIp" >>=
  emplaceMACRule parseMAC cfg "targetMACFilter" "targetMAC" >>=
  emplaceIpRule parseIp junk cfg "targetIpFilter" "targetIp"

/-- A Lua global that holds the integer `n`. -/
def LuaValue.ofInteger (n : Int) : LuaValue :=
  ⟨false, true, toString n, some n, none, true⟩

/-- A Lua global that holds the string `s`, which is not the text of a
number. -/
def LuaValue.ofString (s : String) : LuaValue :=
  ⟨false, true, s, none, none, true⟩

/-- A Lua global that was never assigned. -/
def LuaValue.nil : LuaValue :=
  ⟨true, false, "", none, none, false⟩

/-- A parser that accepts one written form of one MAC address and rejects
every other text, standing for `parseMAC` at concrete inputs. -/
def sampleParseMAC : String → Except String MacAddr := fun s =>
  if s = "aa:bb:cc:dd:ee:ff" then .ok ![0xAA, 0xBB, 0xCC, 0xDD, 0xEE, 0xFF]
  else .error "invalid MAC address"

/-- A checker that accepts what `dottedQuad` accepts, standing for
`parseIpCheckOnly` at concrete inputs. -/
def sampleParseIpCheckOnly : String → Except String Unit := fun s =>
  match dottedQuad s with
  | some _ => .ok ()
  | none => .error "invalid IP address"

/-- A parser that accepts what `dottedQuad` accepts, standing for `parseIp`
at concrete inputs. -/
def sampleParseIp : String → Except String IpAddr := fun s =>
  match dottedQuad s with
  | some a => .ok a
  | none => .error "invalid IP address"

/-- The entry of a variable after an iteration of the loop that does not leave
it: the loaded variable, or the variable as it was when the load threw. -/
def loadedEntry (to_string : Double → String) (globals : String → LuaValue)
    (kv : String × ConfigVar) : String × ConfigVar :=
  match ConfigFile.loadVar to_string globals kv.1 kv.2 with
  | .ok v => (kv.1, v)
  | .error _ => kv

/-- The globals left by a configuration script that assigns the twelve
mandatory variables and `hardSizeFilter = 6`, and no other filter variable. -/
def sampleGlobals : String → LuaValue := fun key =>
  if key = "hardSizeFilter" then LuaValue.ofInteger 6
  else if key = "frameType" then LuaValue.ofInteger 0x0806
  else if key = "hardType" then LuaValue.ofInteger 1
  else if key = "protType" then LuaValue.ofInteger 0x0800
  else if key = "hardSize" then LuaValue.ofInteger 6
  else if key = "protSize" then LuaValue.ofInteger 4
  else if key = "opcode" then LuaValue.ofInteger 1
  else if key = "hdrSenderMAC" ∨ key = "senderMAC" then LuaValue.ofString "aa:bb:cc:dd:ee:ff"
  else if key = "hdrTargetMAC" ∨ key = "targetMAC" then LuaValue.ofString "ff:ff:ff:ff:ff:ff"
  else if key = "targetIp" then LuaValue.ofString "192.168.1.1"
  else if key = "senderIp" then LuaValue.ofString "192.168.1.10"
  else LuaValue.nil

/-! ## Lemmas: bytes and byte order -/

theorem toByte_eq_iff (a b : Nat) : toByte a = toByte b ↔ a % 256 = b % 256 := by
  simp [toByte, Fin.ext_iff]

theorem toByte_val (a : Nat) : (toByte a).val = a % 256 := rfl

theorem toU16_val (a : Nat) : (toU16 a).val = a % 65536 := rfl

theorem toByte_of_val (b : Byte) : toByte b.val = b := by
  apply Fin.ext
  rw [toByte_val]
  exact Nat.mod_eq_of_lt b.isLt

theorem storeU16_htons (e : Endian) (v : U16) :
    List.ofFn (storeU16 e (htons e v)) = [toByte (v.val / 256), toByte (v.val % 256)] := by
  have hv := v.isLt
  cases e
  · simp only [storeU16, htons, List.ofFn_succ, List.ofFn_zero, Matrix.cons_val_zero,
      Fin.succ_zero_eq_one, Matrix.cons_val_one, Matrix.head_cons, toU16_val,
      List.cons.injEq, toByte_eq_iff, and_true]
    have hlo : v.val % 256 < 256 := Nat.mod_lt _ (by decide)
    have hhi : v.val / 256 < 256 := by omega
    generalize v.val % 256 = lo at hlo ⊢
    generalize v.val / 256 = hi at hhi ⊢
    constructor <;> omega
  · simp only [storeU16, htons, List.ofFn_succ, List.ofFn_zero, Matrix.cons_val_zero,
      Fin.succ_zero_eq_one, Matrix.cons_val_one, Matrix.head_cons,
      List.cons.injEq, toByte_eq_iff, and_true]
    exact ⟨trivial, by omega⟩

theorem loadU16_storeU16 (e : Endian) (v : U16) :
    loadU16 e (storeU16 e v 0) (storeU16 e v 1) = v := by
  have hv := v.isLt
  cases e <;>
  · apply Fin.ext
    simp only [storeU16, loadU16, Matrix.cons_val_zero, Matrix.cons_val_one, Matrix.head_cons,
      toU16_val, toByte_val]
    omega

theorem ArpPkt.toBytes_length (e : Endian) (p : ArpPkt) : (p.toBytes e).length = 42 := by
  simp [ArpPkt.toBytes]

theorem bufferPrefix_memcpy (dst : ArpBuffer) (src : List Byte) (n : Nat)
    (h : src.length = n) : bufferPrefix (memcpy dst src n) n = src := by
  apply List.ext_getElem
  · simp [bufferPrefix, h]
  · intro i h1 h2
    have hi : i < n := by simpa [bufferPrefix] using h1
    simp [bufferPrefix, memcpy, hi, List.getD_eq_getElem?_getD, List.getElem?_eq_getElem h2]

theorem sizeofArpPkt_eq : sizeofArpPkt = 42 := by decide

theorem Arpsocket.sendBuffer_eq (e : Endian) (s : Arpsocket) :
    s.sendBuffer e = s.arppkt.toBytes e := by
  unfold Arpsocket.sendBuffer
  rw [sizeofArpPkt_eq]
  exact bufferPrefix_memcpy _ _ _ (ArpPkt.toBytes_length e _)

theorem ArpPkt.toBytes_slices (e : Endian) (p : ArpPkt) :
    slice (p.toBytes e) IPHDR_DEST_MAC 6 = List.ofFn p.hdrTargetMAC ∧
    slice (p.toBytes e) IPHDR_SRC_MAC 6 = List.ofFn p.hdrSenderMAC ∧
    slice (p.toBytes e) FRAME_TYPE 2 = List.ofFn (storeU16 e p.frameType) ∧
    slice (p.toBytes e) HARD_TYPE 2 = List.ofFn (storeU16 e p.hardType) ∧
    slice (p.toBytes e) PROT_TYPE 2 = List.ofFn (storeU16 e p.protType) ∧
    slice (p.toBytes e) HARD_SIZE 1 = [p.hardSize] ∧
    slice (p.toBytes e) PROT_SIZE 1 = [p.protSize] ∧
    slice (p.toBytes e) OP_SIZE 2 = List.ofFn (storeU16 e p.opcode) ∧
    slice (p.toBytes e) SENDER_MAC 6 = List.ofFn p.senderMAC ∧
    slice (p.toBytes e) SENDER_IP 4 = List.ofFn p.senderIp ∧
    slice (p.toBytes e) DEST_MAC 6 = List.ofFn p.targetMAC ∧
    slice (p.toBytes e) DEST_IP 4 = List.ofFn p.targetIp := by
  refine ⟨?_, ?_, ?_, ?_, ?_, ?_, ?_, ?_, ?_, ?_, ?_, ?_⟩ <;>
  simp [slice, ArpPkt.toBytes, List.ofFn_succ, IPHDR_DEST_MAC, IPHDR_SRC_MAC, FRAME_TYPE,
    HARD_TYPE, PROT_TYPE, HARD_SIZE, PROT_SIZE, OP_SIZE, SENDER_MAC, SENDER_IP, DEST_MAC, DEST_IP]

theorem Arpsocket.onBase_sendBuffer (e : Endian) (s : Arpsocket)
    (method : ArpsocketBase → ArpsocketBase) :
    (s.onBase method).sendBuffer e = (method s.toArpsocketBase).arppkt.toBytes e := by
  rw [Arpsocket.sendBuffer_eq]
  rfl

/-! ## C1: wire layout -/

/-- C1: for every packet held by a socket, whatever `sendto` returns, the
`sizeof(ArpPkt)` bytes of `etherFrame` that `send` hands to `sendto` are the
image `sendBuffer`; that image is 42 bytes, `sizeof(ArpPkt)` is 42, the struct layout places the
members at the offsets of `PACKET_MAPPING`, the image is the concatenation of
the twelve members in order (no gap, no overlap), and each member is found at
its `PACKET_MAPPING` offset with its width. -/
theorem send_image_layout (e : Endian) (s : Arpsocket) (bytesSent : Int) (strerror : String) :
    bufferPrefix (s.send e bytesSent strerror).2.etherFrame sizeofArpPkt = s.sendBuffer e ∧
    (s.sendBuffer e).length = 42 ∧
    sizeofArpPkt = 42 ∧
    (layoutFrom 0 ArpPkt.members).1 =
      [IPHDR_DEST_MAC, IPHDR_SRC_MAC, FRAME_TYPE, HARD_TYPE, PROT_TYPE, HARD_SIZE,
       PROT_SIZE, OP_SIZE, SENDER_MAC, SENDER_IP, DEST_MAC, DEST_IP] ∧
    s.sendBuffer e =
      List.ofFn s.arppkt.hdrTargetMAC ++ List.ofFn s.arppkt.hdrSenderMAC ++
      List.ofFn (storeU16 e s.arppkt.frameType) ++ List.ofFn (storeU16 e s.arppkt.hardType) ++
      List.ofFn (storeU16 e s.arppkt.protType) ++
      [s.arppkt.hardSize] ++ [s.arppkt.protSize] ++ List.ofFn (storeU16 e s.arppkt.opcode) ++
      List.ofFn s.arppkt.senderMAC ++ List.ofFn s.arppkt.senderIp ++
      List.ofFn s.arppkt.targetMAC ++ List.ofFn s.arppkt.targetIp ∧
    slice (s.sendBuffer e) IPHDR_DEST_MAC 6 = List.ofFn s.arppkt.hdrTargetMAC ∧
    slice (s.sendBuffer e) IPHDR_SRC_MAC 6 = List.ofFn s.arppkt.hdrSenderMAC ∧
    slice (s.sendBuffer e) FRAME_TYPE 2 = List.ofFn (storeU16 e s.arppkt.frameType) ∧
    slice (s.sendBuffer e) HARD_TYPE 2 = List.ofFn (storeU16 e s.arppkt.hardType) ∧
    slice (s.sendBuffer e) PROT_TYPE 2 = List.ofFn (storeU16 e s.arppkt.protType) ∧
    slice (s.sendBuffer e) HARD_SIZE 1 = [s.arppkt.hardSize] ∧
    slice (s.sendBuffer e) PROT_SIZE 1 = [s.arppkt.protSize] ∧
    slice (s.sendBuffer e) OP_SIZE 2 = List.ofFn (storeU16 e s.arppkt.opcode) ∧
    slice (s.sendBuffer e) SENDER_MAC 6 = List.ofFn s.arppkt.senderMAC ∧
    slice (s.sendBuffer e) SENDER_IP 4 = List.ofFn s.arppkt.senderIp ∧
    slice (s.sendBuffer e) DEST_MAC 6 = List.ofFn s.arppkt.targetMAC ∧
    slice (s.sendBuffer e) DEST_IP 4 = List.ofFn s.arppkt.targetIp := by
  refine ⟨?_, ?_⟩
  · unfold Arpsocket.send
    simp only
    split <;> rfl
  · rw [Arpsocket.sendBuffer_eq]
    exact ⟨ArpPkt.toBytes_length e _, sizeofArpPkt_eq, by decide, rfl,
      ArpPkt.toBytes_slices e _⟩

/-! ## C3: setters write network byte order -/

/-- C3: after `setFrameType(v)`, `setHardType(v)`, `setProtType(v)` or
`setOpcode(v)` the two bytes sent at offset 12, 14, 16 or 20 are `v / 256`
then `v % 256` on either host byte order; after a MAC setter the six bytes at
the field's offset are the address bytes in order; after an IP setter whose
text `inet_pton` accepts, the four bytes at the field's offset are the parsed
address bytes in order. With sender MAC AA:BB:CC:DD:EE:FF, target IP
192.168.1.1 and opcode 1 the bytes 20..21 are 0,1, the bytes 22..27 are the
MAC and the bytes 38..41 are 192,168,1,1. -/
theorem setters_write_network_order (e : Endian) (s : Arpsocket) (v : U16) (m : MacAddr)
    (inet_pton : InetPton) (text : String) (a : IpAddr) (h : inet_pton text = some a) :
    slice ((s.onBase (fun b => b.setFrameType e v)).sendBuffer e) FRAME_TYPE 2
      = [toByte (v.val / 256), toByte (v.val % 256)] ∧
    slice ((s.onBase (fun b => b.setHardType e v)).sendBuffer e) HARD_TYPE 2
      = [toByte (v.val / 256), toByte (v.val % 256)] ∧
    slice ((s.onBase (fun b => b.setProtType e v)).sendBuffer e) PROT_TYPE 2
      = [toByte (v.val / 256), toByte (v.val % 256)] ∧
    slice ((s.onBase (fun b => b.setOpcode e v)).sendBuffer e) OP_SIZE 2
      = [toByte (v.val / 256), toByte (v.val % 256)] ∧
    slice ((s.onBase (fun b => b.setDestHdrMAC m)).sendBuffer e) IPHDR_DEST_MAC 6
      = List.ofFn m ∧
    slice ((s.onBase (fun b => b.setSrcHdrMAC m)).sendBuffer e) IPHDR_SRC_MAC 6
      = List.ofFn m ∧
    slice ((s.onBase (fun b => b.setSrcMAC m)).sendBuffer e) SENDER_MAC 6 = List.ofFn m ∧
    slice ((s.onBase (fun b => b.setDestMAC m)).sendBuffer e) DEST_MAC 6 = List.ofFn m ∧
    slice ((s.onBase (fun b => b.setSrcIp inet_pton text)).sendBuffer e) SENDER_IP 4
      = List.ofFn a ∧
    slice ((s.onBase (fun b => b.setDestIp inet_pton text)).sendBuffer e) DEST_IP 4
      = List.ofFn a ∧
    slice ((s.onBase (fun b =>
        ((b.setSrcMAC ![0xAA, 0xBB, 0xCC, 0xDD, 0xEE, 0xFF]).setDestIp dottedQuad
          "192.168.1.1").setOpcode e 1)).sendBuffer e) 20 2 = [0x00, 0x01] ∧
    slice ((s.onBase (fun b =>
        ((b.setSrcMAC ![0xAA, 0xBB, 0xCC, 0xDD, 0xEE, 0xFF]).setDestIp dottedQuad
          "192.168.1.1").setOpcode e 1)).sendBuffer e) 22 6
      = [0xAA, 0xBB, 0xCC, 0xDD, 0xEE, 0xFF] ∧
    slice ((s.onBase (fun b =>
        ((b.setSrcMAC ![0xAA, 0xBB, 0xCC, 0xDD, 0xEE, 0xFF]).setDestIp dottedQuad
          "192.168.1.1").setOpcode e 1)).sendBuffer e) 38 4 = [192, 168, 1, 1] := by
  have hq : dottedQuad "192.168.1.1" = some ![192, 168, 1, 1] := by decide
  simp only [Arpsocket.onBase_sendBuffer]
  refine ⟨?_, ?_, ?_, ?_, ?_, ?_, ?_, ?_, ?_, ?_, ?_, ?_, ?_⟩
  · rw [(ArpPkt.toBytes_slices e _).2.2.1]; exact storeU16_htons e v
  · rw [(ArpPkt.toBytes_slices e _).2.2.2.1]; exact storeU16_htons e v
  · rw [(ArpPkt.toBytes_slices e _).2.2.2.2.1]; exact storeU16_htons e v
  · rw [(ArpPkt.toBytes_slices e _).2.2.2.2.2.2.2.1]; exact storeU16_htons e v
  · rw [(ArpPkt.toBytes_slices e _).1]; rfl
  · rw [(ArpPkt.toBytes_slices e _).2.1]; rfl
  · rw [(ArpPkt.toBytes_slices e _).2.2.2.2.2.2.2.2.1]; rfl
  · rw [(ArpPkt.toBytes_slices e _).2.2.2.2.2.2.2.2.2.2.1]; rfl
  · rw [(ArpPkt.toBytes_slices e _).2.2.2.2.2.2.2.2.2.1]
    simp [ArpsocketBase.setSrcIp, h]
  · rw [(ArpPkt.toBytes_slices e _).2.2.2.2.2.2.2.2.2.2.2]
    simp [ArpsocketBase.setDestIp, h]
  · have h2 := (ArpPkt.toBytes_slices e (((s.toArpsocketBase.setSrcMAC
      ![0xAA, 0xBB, 0xCC, 0xDD, 0xEE, 0xFF]).setDestIp dottedQuad
          "192.168.1.1").setOpcode e 1).arppkt).2.2.2.2.2.2.2.1
    rw [OP_SIZE] at h2
    rw [h2]
    exact storeU16_htons e 1
  · have h2 := (ArpPkt.toBytes_slices e (((s.toArpsocketBase.setSrcMAC
      ![0xAA, 0xBB, 0xCC, 0xDD, 0xEE, 0xFF]).setDestIp dottedQuad
          "192.168.1.1").setOpcode e 1).arppkt).2.2.2.2.2.2.2.2.1
    rw [SENDER_MAC] at h2
    rw [h2]
    simp [ArpsocketBase.setOpcode, ArpsocketBase.setDestIp, hq, ArpsocketBase.setSrcMAC,
      List.ofFn_succ]
  · have h2 := (ArpPkt.toBytes_slices e (((s.toArpsocketBase.setSrcMAC
      ![0xAA, 0xBB, 0xCC, 0xDD, 0xEE, 0xFF]).setDestIp dottedQuad
          "192.168.1.1").setOpcode e 1).arppkt).2.2.2.2.2.2.2.2.2.2.2
    rw [DEST_IP] at h2
    rw [h2]
    simp [ArpsocketBase.setOpcode, ArpsocketBase.setDestIp, hq, ArpsocketBase.setSrcMAC,
      List.ofFn_succ]

/-- Witness for C3 on a little-endian host with frame type 0x0806. -/
theorem setters_write_network_order_witness :
    dottedQuad "10.0.0.7" = some ![10, 0, 0, 7] ∧
    slice (((Arpsocket.new .little dottedQuad zeroBuffer zeroBuffer []).onBase
      (fun b => b.setFrameType .little 0x0806)).sendBuffer .little) FRAME_TYPE 2
      = [toByte ((0x0806 : U16).val / 256), toByte ((0x0806 : U16).val % 256)] :=
  ⟨by decide,
   (setters_write_network_order .little
      (Arpsocket.new .little dottedQuad zeroBuffer zeroBuffer []) 0x0806
      (fun _ => 0) dottedQuad "10.0.0.7" ![10, 0, 0, 7] (by decide)).1⟩

/-! ## C2: round trip through the decode accessors -/

theorem Arpsocket.receive_incoming (e : Endian) (r : Arpsocket) (data : List Byte) :
    (r.receive e (some data)).2.incoming
      = memcpy zeroBuffer data (min data.length IP_MAXPACKET) := by
  unfold Arpsocket.receive
  simp only
  split <;> rfl

theorem deliver_incoming (e : Endian) (sender receiver : Arpsocket) :
    (deliver e sender receiver).incoming
      = memcpy zeroBuffer (sender.arppkt.toBytes e) 42 := by
  unfold deliver
  rw [Arpsocket.receive_incoming, Arpsocket.sendBuffer_eq, ArpPkt.toBytes_length]
  rfl

theorem deliver_getters (e : Endian) (sender receiver : Arpsocket) :
    (deliver e sender receiver).getDestHdrMAC = sender.arppkt.hdrTargetMAC ∧
    (deliver e sender receiver).getSrcHdrMAC = sender.arppkt.hdrSenderMAC ∧
    (deliver e sender receiver).getDestMAC = sender.arppkt.targetMAC ∧
    (deliver e sender receiver).getSrcMAC = sender.arppkt.senderMAC ∧
    (deliver e sender receiver).getDestIp = List.ofFn sender.arppkt.targetIp ∧
    (deliver e sender receiver).getSrcIp = List.ofFn sender.arppkt.senderIp ∧
    (deliver e sender receiver).getFrameType e = sender.arppkt.frameType ∧
    (deliver e sender receiver).getHardType e = sender.arppkt.hardType ∧
    (deliver e sender receiver).getProtType e = sender.arppkt.protType ∧
    (deliver e sender receiver).getOpcode e = sender.arppkt.opcode := by
  refine ⟨?_, ?_, ?_, ?_, ?_, ?_, ?_, ?_, ?_, ?_⟩
  · funext i
    simp only [ArpsocketBase.getDestHdrMAC, deliver_incoming]
    fin_cases i <;> simp [memcpy, ArpPkt.toBytes, List.ofFn_succ, IPHDR_DEST_MAC] <;> rfl
  · funext i
    simp only [ArpsocketBase.getSrcHdrMAC, deliver_incoming]
    fin_cases i <;> simp [memcpy, ArpPkt.toBytes, List.ofFn_succ, IPHDR_SRC_MAC] <;> rfl
  · funext i
    simp only [ArpsocketBase.getDestMAC, deliver_incoming]
    fin_cases i <;> simp [memcpy, ArpPkt.toBytes, List.ofFn_succ, DEST_MAC] <;> rfl
  · funext i
    simp only [ArpsocketBase.getSrcMAC, deliver_incoming]
    fin_cases i <;> simp [memcpy, ArpPkt.toBytes, List.ofFn_succ, SENDER_MAC] <;> rfl
  · simp [ArpsocketBase.getDestIp, deliver_incoming, memcpy, ArpPkt.toBytes, List.ofFn_succ,
      DEST_IP]
  · simp [ArpsocketBase.getSrcIp, deliver_incoming, memcpy, ArpPkt.toBytes, List.ofFn_succ,
      SENDER_IP]
  · have h := loadU16_storeU16 e sender.arppkt.frameType
    simpa [ArpsocketBase.getFrameType, deliver_incoming, memcpy, ArpPkt.toBytes,
      List.ofFn_succ, FRAME_TYPE] using h
  · have h := loadU16_storeU16 e sender.arppkt.hardType
    simpa [ArpsocketBase.getHardType, deliver_incoming, memcpy, ArpPkt.toBytes,
      List.ofFn_succ, HARD_TYPE] using h
  · have h := loadU16_storeU16 e sender.arppkt.protType
    simpa [ArpsocketBase.getProtType, deliver_incoming, memcpy, ArpPkt.toBytes,
      List.ofFn_succ, PROT_TYPE] using h
  · have h := loadU16_storeU16 e sender.arppkt.opcode
    simpa [ArpsocketBase.getOpcode, deliver_incoming, memcpy, ArpPkt.toBytes,
      List.ofFn_succ, OP_SIZE] using h

/-- C2, as stated, fails: with the sample assignment on a little-endian host
`getOpcode` returns 256 where 1 was set and `getFrameType` returns 0x0608
where 0x0806 was set; on either host `getHardSize` does not return the 6 that
was set (it reads the protocol size byte as well). -/
theorem roundtrip_counterexample :
    (deliver .little
      ((Arpsocket.new .little dottedQuad zeroBuffer zeroBuffer []).onBase
        (fun b => assignFields .little dottedQuad b sampleFields))
      (Arpsocket.new .little dottedQuad zeroBuffer zeroBuffer [])).getOpcode .little = 256 ∧
    (deliver .little
      ((Arpsocket.new .little dottedQuad zeroBuffer zeroBuffer []).onBase
        (fun b => assignFields .little dottedQuad b sampleFields))
      (Arpsocket.new .little dottedQuad zeroBuffer zeroBuffer [])).getFrameType .little
        = 0x0608 ∧
    (deliver .little
      ((Arpsocket.new .little dottedQuad zeroBuffer zeroBuffer []).onBase
        (fun b => assignFields .little dottedQuad b sampleFields))
      (Arpsocket.new .little dottedQuad zeroBuffer zeroBuffer [])).getHardSize .little
        = 1030 ∧
    (deliver .big
      ((Arpsocket.new .big dottedQuad zeroBuffer zeroBuffer []).onBase
        (fun b => assignFields .big dottedQuad b sampleFields))
      (Arpsocket.new .big dottedQuad zeroBuffer zeroBuffer [])).getHardSize .big = 1540 := by
  decide

/-- C2 as amended: after one call of each setter, the frame that `send` emits,
once received, is decoded as follows. The four MAC accessors return exactly
the addresses set; `getDestIp` and `getSrcIp` return the four bytes that
`inet_pton` parsed from the text set; `getFrameType`, `getHardType`,
`getProtType` and `getOpcode` return `htons` of the value set, which is the
value itself on a big-endian host and its byte swap on a little-endian one.
Nothing is said of `getHardSize` and `getProtSize`. -/
theorem roundtrip_decode_accessors (e : Endian) (inet_pton : InetPton) (s r : Arpsocket)
    (v : FieldValues) (dip sip : IpAddr)
    (hd : inet_pton v.targetIp = some dip) (hs : inet_pton v.senderIp = some sip) :
    (deliver e (s.onBase (fun b => assignFields e inet_pton b v)) r).getDestHdrMAC
      = v.hdrTargetMAC ∧
    (deliver e (s.onBase (fun b => assignFields e inet_pton b v)) r).getSrcHdrMAC
      = v.hdrSenderMAC ∧
    (deliver e (s.onBase (fun b => assignFields e inet_pton b v)) r).getDestMAC
      = v.targetMAC ∧
    (deliver e (s.onBase (fun b => assignFields e inet_pton b v)) r).getSrcMAC
      = v.senderMAC ∧
    (deliver e (s.onBase (fun b => assignFields e inet_pton b v)) r).getDestIp
      = List.ofFn dip ∧
    (deliver e (s.onBase (fun b => assignFields e inet_pton b v)) r).getSrcIp
      = List.ofFn sip ∧
    (deliver e (s.onBase (fun b => assignFields e inet_pton b v)) r).getFrameType e
      = htons e v.frameType ∧
    (deliver e (s.onBase (fun b => assignFields e inet_pton b v)) r).getHardType e
      = htons e v.hardType ∧
    (deliver e (s.onBase (fun b => assignFields e inet_pton b v)) r).getProtType e
      = htons e v.protType ∧
    (deliver e (s.onBase (fun b => assignFields e inet_pton b v)) r).getOpcode e
      = htons e v.opcode ∧
    htons .big v.opcode = v.opcode ∧
    htons .little v.opcode = toU16 (v.opcode.val % 256 * 256 + v.opcode.val / 256) := by
  have h := deliver_getters e (s.onBase (fun b => assignFields e inet_pton b v)) r
  have hp : (s.onBase (fun b => assignFields e inet_pton b v)).arppkt
      = (assignFields e inet_pton s.toArpsocketBase v).arppkt := rfl
  rw [hp] at h
  obtain ⟨h1, h2, h3, h4, h5, h6, h7, h8, h9, h10⟩ := h
  refine ⟨h1.trans ?_, h2.trans ?_, h3.trans ?_, h4.trans ?_, h5.trans ?_, h6.trans ?_,
    h7.trans ?_, h8.trans ?_, h9.trans ?_, h10.trans ?_, rfl, rfl⟩ <;>
  simp [assignFields, ArpsocketBase.setDestHdrMAC, ArpsocketBase.setSrcHdrMAC,
    ArpsocketBase.setDestMAC, ArpsocketBase.setSrcMAC, ArpsocketBase.setDestIp,
    ArpsocketBase.setSrcIp, ArpsocketBase.setFrameType, ArpsocketBase.setHardType,
    ArpsocketBase.setProtType, ArpsocketBase.setHardSize, ArpsocketBase.setProtSize,
    ArpsocketBase.setOpcode, hd, hs]

/-- Witness for the amended C2: the sample assignment on a little-endian
host, where both address texts parse. -/
theorem roundtrip_decode_accessors_witness :
    dottedQuad sampleFields.targetIp = some ![192, 168, 1, 1] ∧
    dottedQuad sampleFields.senderIp = some ![192, 168, 1, 10] ∧
    (deliver .little
      ((Arpsocket.new .little dottedQuad zeroBuffer zeroBuffer []).onBase
        (fun b => assignFields .little dottedQuad b sampleFields))
      (Arpsocket.new .little dottedQuad zeroBuffer zeroBuffer [])).getDestHdrMAC
        = sampleFields.hdrTargetMAC :=
  ⟨by decide, by decide,
   (roundtrip_decode_accessors .little dottedQuad
      (Arpsocket.new .little dottedQuad zeroBuffer zeroBuffer [])
      (Arpsocket.new .little dottedQuad zeroBuffer zeroBuffer [])
      sampleFields ![192, 168, 1, 1] ![192, 168, 1, 10] (by decide) (by decide)).1⟩

/-! ## Lemmas: the filter engine -/

theorem filterActions_eq_none_iff (e : Endian) (key : String) :
    filterActions e key = none ↔ key ∉ filterNames := by
  constructor
  · intro h hmem
    simp only [filterNames, List.mem_cons, List.mem_singleton, List.not_mem_nil, or_false] at hmem
    rcases hmem with rfl | rfl | rfl | rfl | rfl | rfl | rfl | rfl | rfl | rfl <;>
      exact absurd h (by simp [filterActions])
  · intro h
    simp only [filterNames, List.mem_cons, List.mem_singleton, List.not_mem_nil, or_false,
      not_or] at h
    obtain ⟨h1, h2, h3, h4, h5, h6, h7, h8, h9, h10⟩ := h
    simp [filterActions, h1, h2, h3, h4, h5, h6, h7, h8, h9, h10]

theorem applyFiltersLoop_eq_all (e : Endian) (pck : ArpPkt) (fs : List (String × FilterValue))
    (h : ∀ rule ∈ fs, rule.1 ∈ filterNames) :
    applyFiltersLoop e pck fs = .ok (fs.all (ruleMatches e pck)) := by
  induction fs with
  | nil => rfl
  | cons rule rest ih =>
    obtain ⟨key, filter⟩ := rule
    have hk : key ∈ filterNames := h (key, filter) (List.mem_cons_self _ _)
    have hrest : ∀ rule ∈ rest, rule.1 ∈ filterNames :=
      fun r hr => h r (List.mem_cons_of_mem _ hr)
    cases hact : filterActions e key with
    | none => exact absurd hk ((filterActions_eq_none_iff e key).mp hact)
    | some action =>
      simp only [applyFiltersLoop, hact, List.all_cons, ruleMatches]
      cases hres : action pck filter
      · simpa using ih hrest
      · simp

theorem applyFiltersLoop_error_iff (e : Endian) (pck : ArpPkt)
    (fs : List (String × FilterValue)) :
    (∃ err, applyFiltersLoop e pck fs = .error err) ↔
      ∃ pre rule post, fs = pre ++ rule :: post ∧ rule.1 ∉ filterNames ∧
        ∀ r ∈ pre, ruleMatches e pck r = true := by
  induction fs with
  | nil => simp [applyFiltersLoop]
  | cons rule rest ih =>
    obtain ⟨key, filter⟩ := rule
    cases hact : filterActions e key with
    | none =>
      have hk := (filterActions_eq_none_iff e key).mp hact
      simp only [applyFiltersLoop, hact]
      constructor
      · intro _
        exact ⟨[], (key, filter), rest, rfl, hk, by simp⟩
      · intro _
        exact ⟨_, rfl⟩
    | some action =>
      have hk : key ∈ filterNames := by
        by_contra hn
        rw [(filterActions_eq_none_iff e key).mpr hn] at hact
        cases hact
      simp only [applyFiltersLoop, hact]
      cases hres : action pck filter
      · simp only [Bool.false_eq_true, if_false]
        rw [ih]
        constructor
        · rintro ⟨pre, rule, post, h1, h2, h3⟩
          refine ⟨(key, filter) :: pre, rule, post, by simp [h1], h2, ?_⟩
          intro r hr
          rcases List.mem_cons.mp hr with hr | hr
          · subst hr
            simp [ruleMatches, hact, hres]
          · exact h3 r hr
        · rintro ⟨pre, rule, post, h1, h2, h3⟩
          cases pre with
          | nil =>
            simp only [List.nil_append, List.cons.injEq] at h1
            rw [← h1.1] at h2
            exact absurd hk h2
          | cons p pre2 =>
            simp only [List.cons_append, List.cons.injEq] at h1
            exact ⟨pre2, rule, post, h1.2, h2,
              fun r hr => h3 r (List.mem_cons_of_mem _ hr)⟩
      · simp only [if_true]
        constructor
        · rintro ⟨err, herr⟩
          cases herr
        · rintro ⟨pre, rule, post, h1, h2, h3⟩
          cases pre with
          | nil =>
            simp only [List.nil_append, List.cons.injEq] at h1
            rw [← h1.1] at h2
            exact absurd hk h2
          | cons p pre2 =>
            simp only [List.cons_append, List.cons.injEq] at h1
            have := h3 p (List.mem_cons_self _ _)
            rw [← h1.1] at this
            simp [ruleMatches, hact, hres] at this

theorem all_eq_of_perm {α : Type} (p : α → Bool) {l₁ l₂ : List α} (h : l₁.Perm l₂) :
    l₁.all p = l₂.all p := by
  rw [Bool.eq_iff_iff]
  simp only [List.all_eq_true]
  exact ⟨fun h1 x hx => h1 x (h.mem_iff.mpr hx), fun h1 x hx => h1 x (h.mem_iff.mp hx)⟩

theorem FilterValue.doublebt_ofU16 (e : Endian) (junk : FilterValue) (val : U16) :
    (FilterValue.ofU16 e junk val).doublebt e = val :=
  loadU16_storeU16 e val

theorem FilterValue.bt_ofU8 (junk : FilterValue) (val : Byte) :
    (FilterValue.ofU8 junk val).bt = val := rfl

theorem FilterValue.btarrMAC_ofMAC (val : MacAddr) :
    (FilterValue.ofMAC val).btarrMAC = val := rfl

theorem FilterValue.btarrIp_ofIp (junk : FilterValue) (val : IpAddr) :
    (FilterValue.ofIp junk val).btarrIp = val := by
  funext i
  have hi := i.isLt
  simp [FilterValue.btarrIp, FilterValue.ofIp, hi]

theorem anyDiffer_eq_false_iff {n : Nat} (a b : Fin n → Byte) :
    anyDiffer a b = false ↔ a = b := by
  simp only [anyDiffer, List.any_eq_false, List.mem_finRange, bne_iff_ne, ne_eq,
    not_not, true_implies]
  exact ⟨fun h => funext h, fun h i => congrFun h i⟩

/-! ## C4: applyFilters is the conjunction of the rules -/

/-- C4: when every rule name is one of the ten recognised names,
`applyFilters` returns (without raising) the conjunction over all registered
rules of "the rule's comparator matches the frame": it returns true exactly
when every rule matches and false exactly when some rule does not; the empty
rule set accepts every frame; and evaluating the same rules in any other order
gives the same result. -/
theorem applyFilters_is_conjunction (e : Endian) (s : ArpsocketFiltered)
    (h : ∀ rule ∈ s.filters, rule.1 ∈ filterNames) :
    s.applyFilters e = .ok (s.filters.all (ruleMatches e s.lastPacketRecv)) ∧
    (s.applyFilters e = .ok true ↔
      ∀ rule ∈ s.filters, ruleMatches e s.lastPacketRecv rule = true) ∧
    (s.applyFilters e = .ok false ↔
      ∃ rule ∈ s.filters, ruleMatches e s.lastPacketRecv rule = false) ∧
    ({ s with filters := [] } : ArpsocketFiltered).applyFilters e = .ok true ∧
    (∀ fs : FilterMap, fs.Perm s.filters →
      ({ s with filters := fs } : ArpsocketFiltered).applyFilters e = s.applyFilters e) := by
  have h0 := applyFiltersLoop_eq_all e s.lastPacketRecv s.filters h
  refine ⟨h0, ?_, ?_, rfl, ?_⟩
  · unfold ArpsocketFiltered.applyFilters
    rw [h0]
    simp
  · unfold ArpsocketFiltered.applyFilters
    rw [h0]
    simp
  · intro fs hperm
    unfold ArpsocketFiltered.applyFilters
    have hfs : ∀ rule ∈ fs, rule.1 ∈ filterNames :=
      fun r hr => h r (hperm.mem_iff.mp hr)
    rw [h0]
    simp only
    rw [applyFiltersLoop_eq_all e s.lastPacketRecv fs hfs, all_eq_of_perm _ hperm]

/-- Witness for C4: an opcode rule and a hardware-size rule against the
value-initialised frame on a little-endian host. -/
theorem applyFilters_is_conjunction_witness :
    (∀ rule ∈ (ArpsocketFiltered.new zeroBuffer
        [("hardSize", FilterValue.ofU8 (FilterValue.ofMAC (fun _ => 0)) 6),
         ("opcode", FilterValue.ofU16 .little (FilterValue.ofMAC (fun _ => 0)) 0)]).filters,
      rule.1 ∈ filterNames) ∧
    (ArpsocketFiltered.new zeroBuffer
        [("hardSize", FilterValue.ofU8 (FilterValue.ofMAC (fun _ => 0)) 6),
         ("opcode", FilterValue.ofU16 .little (FilterValue.ofMAC (fun _ => 0)) 0)]).applyFilters
          .little
      = .ok ((ArpsocketFiltered.new zeroBuffer
        [("hardSize", FilterValue.ofU8 (FilterValue.ofMAC (fun _ => 0)) 6),
         ("opcode", FilterValue.ofU16 .little (FilterValue.ofMAC (fun _ => 0)) 0)]).filters.all
          (ruleMatches .little ArpPkt.init)) :=
  ⟨by decide,
   (applyFilters_is_conjunction .little (ArpsocketFiltered.new zeroBuffer
        [("hardSize", FilterValue.ofU8 (FilterValue.ofMAC (fun _ => 0)) 6),
         ("opcode", FilterValue.ofU16 .little (FilterValue.ofMAC (fun _ => 0)) 0)])
      (by decide)).1⟩

/-! ## C5: single address rules -/

theorem single_address_rule (e : Endian) (s : ArpsocketFiltered) (junk : FilterValue)
    (m : MacAddr) (a : IpAddr) :
    ({ s with filters := [("senderMAC", FilterValue.ofMAC m)] }
      : ArpsocketFiltered).applyFilters e = .ok (decide (s.lastPacketRecv.senderMAC = m)) ∧
    ({ s with filters := [("senderIp", FilterValue.ofIp junk a)] }
      : ArpsocketFiltered).applyFilters e = .ok (decide (s.lastPacketRecv.senderIp = a)) ∧
    ({ s with filters := [("targetMAC", FilterValue.ofMAC m)] }
      : ArpsocketFiltered).applyFilters e = .ok (decide (s.lastPacketRecv.targetMAC = m)) ∧
    ({ s with filters := [("targetIp", FilterValue.ofIp junk a)] }
      : ArpsocketFiltered).applyFilters e = .ok (decide (s.lastPacketRecv.senderIp = a)) := by
  refine ⟨?_, ?_, ?_, ?_⟩
  · by_cases hv : m = s.lastPacketRecv.senderMAC
    · subst hv
      have h1 : ∀ {n : Nat} (x : Fin n → Byte), anyDiffer x x = false :=
        fun x => (anyDiffer_eq_false_iff x x).mpr rfl
      simp [ArpsocketFiltered.applyFilters, applyFiltersLoop, filterActions,
        FilterValue.btarrMAC_ofMAC, h1]
    · have h1 : anyDiffer m s.lastPacketRecv.senderMAC = true := by
        rw [← Bool.not_eq_false, anyDiffer_eq_false_iff]; exact hv
      have hv2 : ¬ s.lastPacketRecv.senderMAC = m := fun h => hv h.symm
      simp [ArpsocketFiltered.applyFilters, applyFiltersLoop, filterActions,
        FilterValue.btarrMAC_ofMAC, h1, hv2]
  · by_cases hv : a = s.lastPacketRecv.senderIp
    · subst hv
      have h1 : ∀ {n : Nat} (x : Fin n → Byte), anyDiffer x x = false :=
        fun x => (anyDiffer_eq_false_iff x x).mpr rfl
      simp [ArpsocketFiltered.applyFilters, applyFiltersLoop, filterActions,
        FilterValue.btarrIp_ofIp, h1]
    · have h1 : anyDiffer a s.lastPacketRecv.senderIp = true := by
        rw [← Bool.not_eq_false, anyDiffer_eq_false_iff]; exact hv
      have hv2 : ¬ s.lastPacketRecv.senderIp = a := fun h => hv h.symm
      simp [ArpsocketFiltered.applyFilters, applyFiltersLoop, filterActions,
        FilterValue.btarrIp_ofIp, h1, hv2]
  · by_cases hv : m = s.lastPacketRecv.targetMAC
    · subst hv
      have h1 : ∀ {n : Nat} (x : Fin n → Byte), anyDiffer x x = false :=
        fun x => (anyDiffer_eq_false_iff x x).mpr rfl
      simp [ArpsocketFiltered.applyFilters, applyFiltersLoop, filterActions,
        FilterValue.btarrMAC_ofMAC, h1]
    · have h1 : anyDiffer m s.lastPacketRecv.targetMAC = true := by
        rw [← Bool.not_eq_false, anyDiffer_eq_false_iff]; exact hv
      have hv2 : ¬ s.lastPacketRecv.targetMAC = m := fun h => hv h.symm
      simp [ArpsocketFiltered.applyFilters, applyFiltersLoop, filterActions,
        FilterValue.btarrMAC_ofMAC, h1, hv2]
  · by_cases hv : a = s.lastPacketRecv.senderIp
    · subst hv
      have h1 : ∀ {n : Nat} (x : Fin n → Byte), anyDiffer x x = false :=
        fun x => (anyDiffer_eq_false_iff x x).mpr rfl
      simp [ArpsocketFiltered.applyFilters, applyFiltersLoop, filterActions,
        FilterValue.btarrIp_ofIp, h1]
    · have h1 : anyDiffer a s.lastPacketRecv.senderIp = true := by
        rw [← Bool.not_eq_false, anyDiffer_eq_false_iff]; exact hv
      have hv2 : ¬ s.lastPacketRecv.senderIp = a := fun h => hv h.symm
      simp [ArpsocketFiltered.applyFilters, applyFiltersLoop, filterActions,
        FilterValue.btarrIp_ofIp, h1, hv2]

/-- C5 at a failing input: the rule set holds only `targetIp = 10.0.0.2`. A
received frame with sender 10.0.0.1 and target 10.0.0.2 is filtered out
(`receive` returns -2 and queues nothing) although its target address equals
the rule's value, and a frame with sender 10.0.0.2 and target 10.0.0.9 is
accepted although its target address differs: the `targetIp` comparator reads
`pck.senderIp`. -/
theorem targetIp_rule_reads_senderIp (e : Endian) :
    ((Arpsocket.new e dottedQuad zeroBuffer zeroBuffer
        [("targetIp", FilterValue.ofIp (FilterValue.ofMAC (fun _ => 0)) ![10, 0, 0, 2])]).receive e
      (some (((Arpsocket.new e dottedQuad zeroBuffer zeroBuffer []).onBase
        (fun b => (b.setSrcIp dottedQuad "10.0.0.1").setDestIp dottedQuad
          "10.0.0.2")).sendBuffer e))).1 = .ok (-2) ∧
    ((Arpsocket.new e dottedQuad zeroBuffer zeroBuffer
        [("targetIp", FilterValue.ofIp (FilterValue.ofMAC (fun _ => 0)) ![10, 0, 0, 2])]).receive e
      (some (((Arpsocket.new e dottedQuad zeroBuffer zeroBuffer []).onBase
        (fun b => (b.setSrcIp dottedQuad "10.0.0.1").setDestIp dottedQuad
          "10.0.0.2")).sendBuffer e))).2.incomingQueue = [] ∧
    ((Arpsocket.new e dottedQuad zeroBuffer zeroBuffer
        [("targetIp", FilterValue.ofIp (FilterValue.ofMAC (fun _ => 0)) ![10, 0, 0, 2])]).receive e
      (some (((Arpsocket.new e dottedQuad zeroBuffer zeroBuffer []).onBase
        (fun b => (b.setSrcIp dottedQuad "10.0.0.2").setDestIp dottedQuad
          "10.0.0.9")).sendBuffer e))).1 = .ok 42 := by
  cases e <;> decide

/-! ## C6: single scalar rules -/

/-- C6: a rule set holding one rule named `frameType`, `hardType`, `protType`
or `opcode` with a value built by the `uint16_t` constructor, or named
`hardSize` or `protSize` with a value built by the `uint8_t` constructor,
makes `applyFilters` return (without raising) true exactly when the stored
member of that name of the last received packet equals the rule's value. -/
theorem single_scalar_rule (e : Endian) (s : ArpsocketFiltered) (junk : FilterValue)
    (v : U16) (b : Byte) :
    ({ s with filters := [("frameType", FilterValue.ofU16 e junk v)] }
      : ArpsocketFiltered).applyFilters e = .ok (decide (s.lastPacketRecv.frameType = v)) ∧
    ({ s with filters := [("hardType", FilterValue.ofU16 e junk v)] }
      : ArpsocketFiltered).applyFilters e = .ok (decide (s.lastPacketRecv.hardType = v)) ∧
    ({ s with filters := [("protType", FilterValue.ofU16 e junk v)] }
      : ArpsocketFiltered).applyFilters e = .ok (decide (s.lastPacketRecv.protType = v)) ∧
    ({ s with filters := [("opcode", FilterValue.ofU16 e junk v)] }
      : ArpsocketFiltered).applyFilters e = .ok (decide (s.lastPacketRecv.opcode = v)) ∧
    ({ s with filters := [("hardSize", FilterValue.ofU8 junk b)] }
      : ArpsocketFiltered).applyFilters e = .ok (decide (s.lastPacketRecv.hardSize = b)) ∧
    ({ s with filters := [("protSize", FilterValue.ofU8 junk b)] }
      : ArpsocketFiltered).applyFilters e = .ok (decide (s.lastPacketRecv.protSize = b)) := by
  refine ⟨?_, ?_, ?_, ?_, ?_, ?_⟩
  · by_cases hv : s.lastPacketRecv.frameType = v <;>
      simp [ArpsocketFiltered.applyFilters, applyFiltersLoop, filterActions,
        FilterValue.doublebt_ofU16, hv, eq_comm]
  · by_cases hv : s.lastPacketRecv.hardType = v <;>
      simp [ArpsocketFiltered.applyFilters, applyFiltersLoop, filterActions,
        FilterValue.doublebt_ofU16, hv, eq_comm]
  · by_cases hv : s.lastPacketRecv.protType = v <;>
      simp [ArpsocketFiltered.applyFilters, applyFiltersLoop, filterActions,
        FilterValue.doublebt_ofU16, hv, eq_comm]
  · by_cases hv : s.lastPacketRecv.opcode = v <;>
      simp [ArpsocketFiltered.applyFilters, applyFiltersLoop, filterActions,
        FilterValue.doublebt_ofU16, hv, eq_comm]
  · by_cases hv : s.lastPacketRecv.hardSize = b <;>
      simp [ArpsocketFiltered.applyFilters, applyFiltersLoop, filterActions,
        FilterValue.bt_ofU8, hv, eq_comm]
  · by_cases hv : s.lastPacketRecv.protSize = b <;>
      simp [ArpsocketFiltered.applyFilters, applyFiltersLoop, filterActions,
        FilterValue.bt_ofU8, hv, eq_comm]

/-! ## C7: unknown rule names -/

/-- C7, as stated, fails: a rule named `bogus`, which is not one of the ten
names, is stored by the constructor, and `applyFilters` then raises. -/
theorem unknown_rule_name_counterexample :
    "bogus" ∉ filterNames ∧
    (ArpsocketFiltered.new zeroBuffer
      [("bogus", FilterValue.ofU8 (FilterValue.ofMAC (fun _ => 0)) 1)]).filters.map Prod.fst
      = ["bogus"] ∧
    (ArpsocketFiltered.new zeroBuffer
      [("bogus", FilterValue.ofU8 (FilterValue.ofMAC (fun _ => 0)) 1)]).applyFilters .little
      = .error ⟨"Error: applyFilters()"⟩ := by
  decide

/-- C7 as amended: the constructor stores every rule set as given, whatever
its names; `applyFilters` raises exactly when the rule set holds a rule with
an unrecognised name that is reached, that is, every rule before it in
iteration order matches the frame; hence when all names are recognised
`applyFilters` returns a boolean without raising. -/
theorem unknown_rule_name_raises_at_evaluation (e : Endian) (incoming : ArpBuffer)
    (filt : FilterMap) (s : ArpsocketFiltered) :
    (ArpsocketFiltered.new incoming filt).filters = filt ∧
    ((∃ err, s.applyFilters e = .error err) ↔
      ∃ pre rule post, s.filters = pre ++ rule :: post ∧ rule.1 ∉ filterNames ∧
        ∀ r ∈ pre, ruleMatches e s.lastPacketRecv r = true) ∧
    ((∀ rule ∈ s.filters, rule.1 ∈ filterNames) → ∃ b, s.applyFilters e = .ok b) :=
  ⟨rfl, applyFiltersLoop_error_iff e s.lastPacketRecv s.filters,
    fun h => ⟨_, applyFiltersLoop_eq_all e s.lastPacketRecv s.filters h⟩⟩

/-- Witness for the amended C7: a rule set with the recognised name
`hardSize` is evaluated without raising. -/
theorem unknown_rule_name_raises_at_evaluation_witness :
    (∀ rule ∈ (ArpsocketFiltered.new zeroBuffer
        [("hardSize", FilterValue.ofU8 (FilterValue.ofMAC (fun _ => 0)) 6)]).filters,
      rule.1 ∈ filterNames) ∧
    ∃ b, (ArpsocketFiltered.new zeroBuffer
        [("hardSize", FilterValue.ofU8 (FilterValue.ofMAC (fun _ => 0)) 6)]).applyFilters
          .little = .ok b :=
  ⟨by decide,
   (unknown_rule_name_raises_at_evaluation .little zeroBuffer []
      (ArpsocketFiltered.new zeroBuffer
        [("hardSize", FilterValue.ofU8 (FilterValue.ofMAC (fun _ => 0)) 6)])).2.2 (by decide)⟩

/-! ## Lemmas: the capture queue -/

theorem Arpsocket.popPacket_nil (s : Arpsocket) (h : s.incomingQueue = []) :
    s.popPacket = (.error ⟨"Error: attempt to pop from empty queue"⟩, s.lock.unlock) := by
  have h1 : s.lock.incomingQueue = [] := h
  simp only [Arpsocket.popPacket, h1]

theorem Arpsocket.popPacket_cons (s : Arpsocket) (f : ArpPkt) (rest : List ArpPkt)
    (h : s.incomingQueue = f :: rest) :
    s.popPacket = (.ok f, Arpsocket.unlock { s.lock with incomingQueue := rest }) := by
  have h1 : s.lock.incomingQueue = f :: rest := h
  simp only [Arpsocket.popPacket, h1]

theorem runQueueOps_fifo (ops : List QueueOp) (s : Arpsocket) :
    (runQueueOps s ops).1 ++ (runQueueOps s ops).2.incomingQueue
      = s.incomingQueue ++ pushedFrames ops := by
  induction ops generalizing s with
  | nil => simp [runQueueOps, pushedFrames]
  | cons op ops ih =>
    cases op with
    | push pkt =>
      simp only [runQueueOps, pushedFrames]
      rw [ih (s.pushBack pkt)]
      simp [Arpsocket.pushBack, Arpsocket.lock, Arpsocket.unlock]
    | pop =>
      cases hq : s.incomingQueue with
      | nil =>
        simp only [runQueueOps, pushedFrames, Arpsocket.popPacket_nil s hq]
        rw [ih]
        simp [Arpsocket.lock, Arpsocket.unlock, hq]
      | cons f rest =>
        simp only [runQueueOps, pushedFrames, Arpsocket.popPacket_cons s f rest hq]
        rw [List.cons_append, ih]
        simp [Arpsocket.lock, Arpsocket.unlock]

theorem Arpsocket.new_incomingQueue (e : Endian) (inet_pton : InetPton)
    (incoming etherFrame : ArpBuffer) (filt : FilterMap) :
    (Arpsocket.new e inet_pton incoming etherFrame filt).incomingQueue = [] := rfl

/-! ## C8: FIFO without loss or duplication -/

/-- C8: for every sequence of pushes and `popPacket` calls, from any state,
the frames returned by the successful pops followed by the frames left in the
queue are the frames initially queued followed by the pushed frames in push
order; on a freshly constructed socket they are exactly the pushed frames;
and pushing F1, F2, F3 then popping three times returns F1, F2, F3 and leaves
the queue empty. -/
theorem queue_is_fifo (e : Endian) (inet_pton : InetPton) (incoming etherFrame : ArpBuffer)
    (filt : FilterMap) (s : Arpsocket) (ops : List QueueOp) (F1 F2 F3 : ArpPkt) :
    (runQueueOps s ops).1 ++ (runQueueOps s ops).2.incomingQueue
      = s.incomingQueue ++ pushedFrames ops ∧
    (runQueueOps (Arpsocket.new e inet_pton incoming etherFrame filt) ops).1 ++
      (runQueueOps (Arpsocket.new e inet_pton incoming etherFrame filt) ops).2.incomingQueue
      = pushedFrames ops ∧
    (runQueueOps (Arpsocket.new e inet_pton incoming etherFrame filt)
      [.push F1, .push F2, .push F3, .pop, .pop, .pop]).1 = [F1, F2, F3] ∧
    (runQueueOps (Arpsocket.new e inet_pton incoming etherFrame filt)
      [.push F1, .push F2, .push F3, .pop, .pop, .pop]).2.incomingQueue = [] := by
  refine ⟨runQueueOps_fifo ops s, ?_, rfl, rfl⟩
  rw [runQueueOps_fifo, Arpsocket.new_incomingQueue]
  rfl

/-! ## C9: popPacket on an empty queue -/

/-- C9: `popPacket` raises exactly when the queue is empty. When it raises
the queue is still empty, the mutex is free and no other member has changed.
When it does not raise it returns the front frame, the queue is the former
queue without its first element, and the mutex is free. It is a total
function of the state: on an empty queue it answers with the error at once
instead of waiting for a push. After three pushes and three pops on a fresh
socket, the fourth pop raises. -/
theorem popPacket_raises_iff_empty (e : Endian) (inet_pton : InetPton)
    (incoming etherFrame : ArpBuffer) (filt : FilterMap) (s : Arpsocket) (F1 F2 F3 : ArpPkt) :
    ((∃ err, s.popPacket.1 = .error err) ↔ s.incomingQueue = []) ∧
    (s.incomingQueue = [] →
      s.popPacket.1 = .error ⟨"Error: attempt to pop from empty queue"⟩ ∧
      s.popPacket.2.incomingQueue = [] ∧
      s.popPacket.2.queueMtx = false ∧
      s.popPacket.2 = { s with queueMtx := false }) ∧
    (∀ f rest, s.incomingQueue = f :: rest →
      s.popPacket.1 = .ok f ∧
      s.popPacket.2.incomingQueue = rest ∧
      s.popPacket.2.queueMtx = false ∧
      s.popPacket.2 = { s with incomingQueue := rest, queueMtx := false }) ∧
    ((runQueueOps (Arpsocket.new e inet_pton incoming etherFrame filt)
        [.push F1, .push F2, .push F3, .pop, .pop, .pop]).2.popPacket.1
      = .error ⟨"Error: attempt to pop from empty queue"⟩) := by
  refine ⟨?_, ?_, ?_, rfl⟩
  · cases hq : s.incomingQueue with
    | nil => simp [Arpsocket.popPacket_nil s hq]
    | cons f rest => simp [Arpsocket.popPacket_cons s f rest hq]
  · intro hq
    rw [Arpsocket.popPacket_nil s hq]
    refine ⟨rfl, hq, rfl, rfl⟩
  · intro f rest hq
    rw [Arpsocket.popPacket_cons s f rest hq]
    exact ⟨rfl, rfl, rfl, rfl⟩

/-- Witness for C9: a fresh socket has an empty queue and its first pop
raises; after one push the pop returns the pushed frame. -/
theorem popPacket_raises_iff_empty_witness :
    (Arpsocket.new .little dottedQuad zeroBuffer zeroBuffer []).incomingQueue = [] ∧
    (Arpsocket.new .little dottedQuad zeroBuffer zeroBuffer []).popPacket.1
      = .error ⟨"Error: attempt to pop from empty queue"⟩ ∧
    ((Arpsocket.new .little dottedQuad zeroBuffer zeroBuffer []).pushBack
      ArpPkt.init).incomingQueue = ArpPkt.init :: [] ∧
    ((Arpsocket.new .little dottedQuad zeroBuffer zeroBuffer []).pushBack
      ArpPkt.init).popPacket.1 = .ok ArpPkt.init :=
  ⟨rfl,
   ((popPacket_raises_iff_empty .little dottedQuad zeroBuffer zeroBuffer []
      (Arpsocket.new .little dottedQuad zeroBuffer zeroBuffer [])
      ArpPkt.init ArpPkt.init ArpPkt.init).2.1 rfl).1,
   rfl,
   ((popPacket_raises_iff_empty .little dottedQuad zeroBuffer zeroBuffer []
      ((Arpsocket.new .little dottedQuad zeroBuffer zeroBuffer []).pushBack ArpPkt.init)
      ArpPkt.init ArpPkt.init ArpPkt.init).2.2.1 ArpPkt.init [] rfl).1⟩

/-! ## C10: availeblePackets counts pushes minus pops -/

/-- C10: after every sequence of pushes and `popPacket` calls on a freshly
constructed socket, `availeblePackets` returns the number of pushes minus the
number of successful pops (which never exceeds the number of pushes); from
any state it returns the initial length plus the pushes minus the successful
pops; it leaves the queue as it is; after two pushes and one pop it returns
1. -/
theorem availeblePackets_counts (e : Endian) (inet_pton : InetPton)
    (incoming etherFrame : ArpBuffer) (filt : FilterMap) (s : Arpsocket) (ops : List QueueOp)
    (F1 F2 : ArpPkt) :
    (runQueueOps (Arpsocket.new e inet_pton incoming etherFrame filt)
        ops).2.availeblePackets.1
      = (pushedFrames ops).length -
        (runQueueOps (Arpsocket.new e inet_pton incoming etherFrame filt) ops).1.length ∧
    (runQueueOps (Arpsocket.new e inet_pton incoming etherFrame filt) ops).1.length
      ≤ (pushedFrames ops).length ∧
    (runQueueOps s ops).2.availeblePackets.1 + (runQueueOps s ops).1.length
      = s.incomingQueue.length + (pushedFrames ops).length ∧
    (runQueueOps s ops).2.availeblePackets.2.incomingQueue
      = (runQueueOps s ops).2.incomingQueue ∧
    (runQueueOps (Arpsocket.new e inet_pton incoming etherFrame filt)
        [.push F1, .push F2, .pop]).2.availeblePackets.1 = 1 := by
  have hgen : ∀ t : Arpsocket,
      (runQueueOps t ops).2.availeblePackets.1 + (runQueueOps t ops).1.length
        = t.incomingQueue.length + (pushedFrames ops).length := by
    intro t
    have h := congrArg List.length (runQueueOps_fifo ops t)
    simp only [List.length_append] at h
    have ha : (runQueueOps t ops).2.availeblePackets.1
        = (runQueueOps t ops).2.incomingQueue.length := rfl
    omega
  have hnew := hgen (Arpsocket.new e inet_pton incoming etherFrame filt)
  rw [Arpsocket.new_incomingQueue] at hnew
  simp only [List.length_nil, Nat.zero_add] at hnew
  refine ⟨by omega, by omega, hgen s, rfl, rfl⟩

/-! ## Lemmas: the traced methods agree with the methods -/

theorem Arpsocket.sendTraced_eq (e : Endian) (s : Arpsocket) (bytesSent : Int)
    (strerror : String) :
    (s.sendTraced e bytesSent strerror).1 = (s.send e bytesSent strerror).1 ∧
    (s.sendTraced e bytesSent strerror).2.1 = (s.send e bytesSent strerror).2 := by
  unfold Arpsocket.sendTraced Arpsocket.send
  simp only
  split <;> exact ⟨rfl, rfl⟩

theorem Arpsocket.receiveTraced_eq (e : Endian) (s : Arpsocket) (recvfrom : Option (List Byte)) :
    (s.receiveTraced e recvfrom).1 = (s.receive e recvfrom).1 ∧
    (s.receiveTraced e recvfrom).2.1 = (s.receive e recvfrom).2 := by
  unfold Arpsocket.receiveTraced Arpsocket.receive
  cases recvfrom with
  | none => exact ⟨rfl, rfl⟩
  | some data =>
    simp only
    split <;> exact ⟨rfl, rfl⟩

/-! ## C11: send makes one attempt and tests the count against zero -/

/-- C11, as stated, fails: when `sendto` reports 10 bytes written out of 42,
a partial transmission, both `Arpsocket::send` and `ArpsocketScript::send`
return 10 normally. -/
theorem send_partial_counterexample :
    ((Arpsocket.new .little dottedQuad zeroBuffer zeroBuffer []).sendTraced .little 10
      "").1 = .ok 10 ∧
    ((⟨ArpsocketFiltered.new zeroBuffer [], zeroBuffer⟩ : ArpsocketScript).sendTraced .little 10
      "").1 = .ok 10 := by
  decide

/-- C11 as amended: `send`, in `Arpsocket` and in `ArpsocketScript`, performs
exactly one call of `sendto`, on the 42 encoded bytes, and nothing else; it
raises a socket error exactly when the count reported is zero or negative,
and otherwise returns that count, also when it is below 42. -/
theorem send_single_attempt (e : Endian) (s : Arpsocket) (t : ArpsocketScript)
    (bytesSent : Int) (strerror : String) :
    (s.sendTraced e bytesSent strerror).2.2 = [.sendto (s.arppkt.toBytes e)] ∧
    (t.sendTraced e bytesSent strerror).2.2 = [.sendto (t.arppkt.toBytes e)] ∧
    (s.arppkt.toBytes e).length = 42 ∧ (t.arppkt.toBytes e).length = 42 ∧
    (s.sendTraced e bytesSent strerror).1 = (s.send e bytesSent strerror).1 ∧
    (bytesSent ≤ 0 →
      (s.sendTraced e bytesSent strerror).1 = .error ⟨"Error: sendto() : " ++ strerror⟩ ∧
      (t.sendTraced e bytesSent strerror).1 = .error ⟨"Error: sendto() : " ++ strerror⟩) ∧
    (0 < bytesSent →
      (s.sendTraced e bytesSent strerror).1 = .ok bytesSent ∧
      (t.sendTraced e bytesSent strerror).1 = .ok bytesSent) := by
  have h42 := sizeofArpPkt_eq
  have hs := bufferPrefix_memcpy s.etherFrame (s.arppkt.toBytes e) 42 (ArpPkt.toBytes_length e _)
  have ht := bufferPrefix_memcpy t.etherFrame (t.arppkt.toBytes e) 42 (ArpPkt.toBytes_length e _)
  refine ⟨?_, ?_, ArpPkt.toBytes_length e _, ArpPkt.toBytes_length e _,
    (Arpsocket.sendTraced_eq e s bytesSent strerror).1, ?_, ?_⟩
  · unfold Arpsocket.sendTraced
    simp only [h42]
    split <;> simp [hs]
  · unfold ArpsocketScript.sendTraced
    simp only [h42]
    split <;> simp [ht]
  · intro h
    simp [Arpsocket.sendTraced, ArpsocketScript.sendTraced, h]
  · intro h
    have h2 : ¬ bytesSent ≤ 0 := by omega
    simp [Arpsocket.sendTraced, ArpsocketScript.sendTraced, h2]

/-- Witness for the amended C11: a failed transmission (-1) raises and a full
one (42) returns 42. -/
theorem send_single_attempt_witness :
    ((-1 : Int) ≤ 0 ∧
      ((Arpsocket.new .little dottedQuad zeroBuffer zeroBuffer []).sendTraced .little (-1)
        "EPERM").1 = .error ⟨"Error: sendto() : " ++ "EPERM"⟩) ∧
    ((0 : Int) < 42 ∧
      ((Arpsocket.new .little dottedQuad zeroBuffer zeroBuffer []).sendTraced .little 42
        "").1 = .ok 42) :=
  ⟨⟨by decide,
    ((send_single_attempt .little (Arpsocket.new .little dottedQuad zeroBuffer zeroBuffer [])
      ⟨ArpsocketFiltered.new zeroBuffer [], zeroBuffer⟩ (-1) "EPERM").2.2.2.2.2.1
        (by decide)).1⟩,
   ⟨by decide,
    ((send_single_attempt .little (Arpsocket.new .little dottedQuad zeroBuffer zeroBuffer [])
      ⟨ArpsocketFiltered.new zeroBuffer [], zeroBuffer⟩ 42 "").2.2.2.2.2.2
        (by decide)).1⟩⟩

/-! ## C12: no length validation on the receive path -/

theorem memcpy_zeroBuffer (data : List Byte) :
    memcpy zeroBuffer data data.length = fun i => data.getD i 0 := by
  funext i
  unfold memcpy zeroBuffer
  by_cases h : i < data.length
  · simp [h]
  · have h2 : data.length ≤ i := Nat.le_of_not_lt h
    simp [h, List.getD_eq_getElem?_getD, List.getElem?_eq_none h2]

theorem Arpsocket.receive_some (e : Endian) (s : Arpsocket) (data : List Byte)
    (h : data.length ≤ IP_MAXPACKET) :
    (s.receive e (some data)).2.lastPacketRecv = ArpPkt.ofBuffer e (fun i => data.getD i 0) ∧
    (s.receive e (some data)).2.incoming = (fun i => data.getD i 0) ∧
    (∀ err, applyFiltersLoop e (ArpPkt.ofBuffer e (fun i => data.getD i 0)) s.filters
        = .error err →
      (s.receive e (some data)).1 = .error err ∧
      (s.receive e (some data)).2.incomingQueue = s.incomingQueue) ∧
    (applyFiltersLoop e (ArpPkt.ofBuffer e (fun i => data.getD i 0)) s.filters = .ok false →
      (s.receive e (some data)).1 = .ok (-2) ∧
      (s.receive e (some data)).2.incomingQueue = s.incomingQueue) ∧
    (applyFiltersLoop e (ArpPkt.ofBuffer e (fun i => data.getD i 0)) s.filters = .ok true →
      (s.receive e (some data)).1 = .ok data.length ∧
      (s.receive e (some data)).2.incomingQueue
        = s.incomingQueue ++ [ArpPkt.ofBuffer e (fun i => data.getD i 0)]) := by
  have hmin : min data.length IP_MAXPACKET = data.length := Nat.min_eq_left h
  unfold Arpsocket.receive
  simp only [hmin, memcpy_zeroBuffer, ArpsocketFiltered.applyFilters]
  refine ⟨?_, ?_, ?_, ?_, ?_⟩
  · split <;> rfl
  · split <;> rfl
  · intro err herr
    simp only [herr]
    refine ⟨?_, ?_⟩ <;> trivial
  · intro hf
    simp only [hf]
    refine ⟨?_, ?_⟩ <;> trivial
  · intro hf
    simp only [hf]
    refine ⟨?_, ?_⟩ <;> trivial

theorem receiveLoop_stopped (e : Endian) (strerror : String) (s : Arpsocket)
    (evs : List LoopEvent) (h : s.running = false) :
    receiveLoop e strerror s evs = (.finished, s, []) := by
  have hs : s.shutdown = s := by
    cases s
    simp_all [Arpsocket.shutdown]
  cases evs with
  | nil => simp [receiveLoop, h]
  | cons ev rest =>
    cases hsh : ev.shutdown
    · simp [receiveLoop, h, hsh]
    · rw [receiveLoop]
      simp only [hsh, if_true, hs, h]

theorem receiveLoop_nil_calls (e : Endian) (strerror : String) (s : Arpsocket) :
    (receiveLoop e strerror s []).2.2 = [] := by
  unfold receiveLoop
  split <;> rfl

theorem receiveLoop_shutdown (e : Endian) (strerror : String) (s : Arpsocket)
    (ev : LoopEvent) (rest : List LoopEvent) (h : ev.shutdown = true) :
    receiveLoop e strerror s (ev :: rest) = (.finished, s.shutdown, []) := by
  simp [receiveLoop, h, Arpsocket.shutdown]

theorem receiveLoop_select_error (e : Endian) (strerror : String) (s : Arpsocket)
    (ev : LoopEvent) (rest : List LoopEvent) (hrun : s.running = true)
    (hsh : ev.shutdown = false) (hsel : ev.select = -1) :
    receiveLoop e strerror s (ev :: rest)
      = (.threw ⟨"readLineTimeout: Select Error."⟩, s, [.select]) := by
  simp [receiveLoop, hrun, hsh, hsel]

theorem receiveLoop_timeout (e : Endian) (strerror : String) (s : Arpsocket)
    (ev : LoopEvent) (rest : List LoopEvent) (hrun : s.running = true)
    (hsh : ev.shutdown = false) (hsel : ev.select = 0) :
    receiveLoop e strerror s (ev :: rest)
      = ((receiveLoop e strerror s rest).1, (receiveLoop e strerror s rest).2.1,
          [.select, .usleep 250] ++ (receiveLoop e strerror s rest).2.2) := by
  simp [receiveLoop, hrun, hsh, hsel]

theorem receiveLoop_receive_raises (e : Endian) (strerror : String) (s s1 : Arpsocket)
    (ev : LoopEvent) (rest : List LoopEvent) (err : ArpSocketException)
    (calls : List Action) (hrun : s.running = true) (hsh : ev.shutdown = false)
    (hsel : ev.select ≠ -1 ∧ ev.select ≠ 0)
    (ht : s.receiveTraced e ev.recvfrom = (.error err, s1, calls)) :
    receiveLoop e strerror s (ev :: rest)
      = (.threw ⟨"Error: receiveAll() from receive() : " ++ err.errorMessage⟩, s1,
          .select :: calls) := by
  simp only [receiveLoop, hsh, hrun, ht, if_neg hsel.1, if_neg hsel.2, Bool.false_eq_true,
    if_false]
  simp

theorem receiveLoop_received (e : Endian) (strerror : String) (s s1 : Arpsocket)
    (ev : LoopEvent) (rest : List LoopEvent) (ret : Int) (calls : List Action)
    (hrun : s.running = true) (hsh : ev.shutdown = false)
    (hsel : ev.select ≠ -1 ∧ ev.select ≠ 0)
    (ht : s.receiveTraced e ev.recvfrom = (.ok ret, s1, calls)) :
    (ret = -2 →
      receiveLoop e strerror s (ev :: rest)
        = ((receiveLoop e strerror s1 rest).1, (receiveLoop e strerror s1 rest).2.1,
            .select :: calls ++ [.usleep 250] ++ (receiveLoop e strerror s1 rest).2.2)) ∧
    (ret = -1 →
      receiveLoop e strerror s (ev :: rest)
        = (.threw ⟨"Error: recvfrom() : " ++ strerror⟩, s1, .select :: calls)) ∧
    (ret = 0 →
      receiveLoop e strerror s (ev :: rest)
        = (.threw ⟨"readTimeout: Connection Closed by peer."⟩, s1, .select :: calls)) ∧
    (ret ≠ -2 → ret ≠ -1 → ret ≠ 0 → ev.write = -1 →
      receiveLoop e strerror s (ev :: rest)
        = (.threw ⟨"Error: can't write on UDS : " ++ strerror⟩, (s1.popN ev.pops).lock.unlock,
            .select :: calls ++
              [.lock, .write (Nat.repr (s1.popN ev.pops).incomingQueue.length), .unlock])) ∧
    (ret ≠ -2 → ret ≠ -1 → ret ≠ 0 → ev.write ≠ -1 →
      receiveLoop e strerror s (ev :: rest)
        = ((receiveLoop e strerror (s1.popN ev.pops).lock.unlock rest).1,
           (receiveLoop e strerror (s1.popN ev.pops).lock.unlock rest).2.1,
           .select :: calls ++
             [.lock, .write (Nat.repr (s1.popN ev.pops).incomingQueue.length), .unlock,
               .usleep 250] ++
             (receiveLoop e strerror (s1.popN ev.pops).lock.unlock rest).2.2)) := by
  have hs0 : (if ev.shutdown = true then s.shutdown else s) = s := by simp [hsh]
  have hrun2 : ¬ (s.running = false) := by simp [hrun]
  refine ⟨?_, ?_, ?_, ?_, ?_⟩
  · intro h
    subst h
    rw [receiveLoop]
    simp only [hs0, if_neg hrun2, if_neg hsel.1, if_neg hsel.2, ht]
    simp
  · intro h
    subst h
    rw [receiveLoop]
    simp only [hs0, if_neg hrun2, if_neg hsel.1, if_neg hsel.2, ht]
    simp
  · intro h
    subst h
    rw [receiveLoop]
    simp only [hs0, if_neg hrun2, if_neg hsel.1, if_neg hsel.2, ht]
    simp
  · intro h1 h2 h3 hw
    rw [receiveLoop]
    simp only [hs0, if_neg hrun2, if_neg hsel.1, if_neg hsel.2, ht, if_neg h1, if_neg h2,
      if_neg h3, if_pos hw]
    rfl
  · intro h1 h2 h3 hw
    rw [receiveLoop]
    simp only [hs0, if_neg hrun2, if_neg hsel.1, if_neg hsel.2, ht, if_neg h1, if_neg h2,
      if_neg h3, if_neg hw]
    rfl


theorem receiveTraced_eta (e : Endian) (s : Arpsocket) (r : Option (List Byte)) :
    s.receiveTraced e r
      = ((s.receiveTraced e r).1, (s.receiveTraced e r).2.1, (s.receiveTraced e r).2.2) := rfl

theorem receiveLoop_append (e : Endian) (strerror : String) (pre post : List LoopEvent)
    (s : Arpsocket) (h : (receiveLoop e strerror s pre).1 ≠ .pending) :
    receiveLoop e strerror s (pre ++ post) = receiveLoop e strerror s pre := by
  induction pre generalizing s with
  | nil =>
    have hrun : s.running = false := by
      cases hr : s.running
      · rfl
      · simp [receiveLoop, hr] at h
    rw [List.nil_append, receiveLoop_stopped e strerror s post hrun,
      receiveLoop_stopped e strerror s [] hrun]
  | cons ev pre ih =>
    rw [List.cons_append]
    cases hsh : ev.shutdown
    case true =>
      rw [receiveLoop_shutdown e strerror s ev _ hsh, receiveLoop_shutdown e strerror s ev _ hsh]
    case false =>
      cases hrun : s.running
      case false =>
        rw [receiveLoop_stopped e strerror s _ hrun, receiveLoop_stopped e strerror s _ hrun]
      case true =>
        by_cases hs1 : ev.select = -1
        · rw [receiveLoop_select_error e strerror s ev _ hrun hsh hs1,
            receiveLoop_select_error e strerror s ev _ hrun hsh hs1]
        by_cases hs0 : ev.select = 0
        · rw [receiveLoop_timeout e strerror s ev _ hrun hsh hs0] at h ⊢
          rw [receiveLoop_timeout e strerror s ev pre hrun hsh hs0]
          rw [ih s h]
        have ht := receiveTraced_eta e s ev.recvfrom
        cases hres : (s.receiveTraced e ev.recvfrom).1 with
        | error err =>
          rw [hres] at ht
          rw [receiveLoop_receive_raises e strerror s _ ev _ err _ hrun hsh ⟨hs1, hs0⟩ ht,
            receiveLoop_receive_raises e strerror s _ ev _ err _ hrun hsh ⟨hs1, hs0⟩ ht]
        | ok ret =>
          rw [hres] at ht
          have hp := fun rest => receiveLoop_received e strerror s _ ev rest ret _ hrun hsh
            ⟨hs1, hs0⟩ ht
          by_cases h2 : ret = -2
          · rw [(hp _).1 h2] at h ⊢
            rw [(hp pre).1 h2]
            rw [ih _ h]
          by_cases h1 : ret = -1
          · rw [(hp _).2.1 h1, (hp pre).2.1 h1]
          by_cases h0 : ret = 0
          · rw [(hp _).2.2.1 h0, (hp pre).2.2.1 h0]
          by_cases hw : ev.write = -1
          · rw [(hp _).2.2.2.1 h2 h1 h0 hw, (hp pre).2.2.2.1 h2 h1 h0 hw]
          · rw [(hp _).2.2.2.2 h2 h1 h0 hw] at h ⊢
            rw [(hp pre).2.2.2.2 h2 h1 h0 hw]
            rw [ih _ h]

theorem ArpPkt.ofBuffer_congr (e : Endian) (b1 b2 : ArpBuffer)
    (h : ∀ i, i < 42 → b1 i = b2 i) : ArpPkt.ofBuffer e b1 = ArpPkt.ofBuffer e b2 := by
  unfold ArpPkt.ofBuffer
  have h6 : ∀ (k : Nat) (i : Fin 6), k + 6 ≤ 42 → b1 (k + i.val) = b2 (k + i.val) :=
    fun k i hk => h _ (by have := i.isLt; omega)
  have h4 : ∀ (k : Nat) (i : Fin 4), k + 4 ≤ 42 → b1 (k + i.val) = b2 (k + i.val) :=
    fun k i hk => h _ (by have := i.isLt; omega)
  congr 1
  · funext i; exact h6 0 i (by omega)
  · funext i; exact h6 6 i (by omega)
  · rw [h 12 (by omega), h 13 (by omega)]
  · rw [h 14 (by omega), h 15 (by omega)]
  · rw [h 16 (by omega), h 17 (by omega)]
  · exact h 18 (by omega)
  · exact h 19 (by omega)
  · rw [h 20 (by omega), h 21 (by omega)]
  · funext i; exact h6 22 i (by omega)
  · funext i; exact h4 28 i (by omega)
  · funext i; exact h6 32 i (by omega)
  · funext i; exact h4 38 i (by omega)

theorem ofBuffer_received (e : Endian) (data : List Byte) (h : 42 ≤ data.length) :
    receivedFrame e data = frameOfBytes e data := by
  unfold frameOfBytes receivedFrame
  apply ArpPkt.ofBuffer_congr
  intro i hi
  have h1 : i < min data.length IP_MAXPACKET := by
    unfold IP_MAXPACKET
    omega
  have h2 : i < data.length := by omega
  simp [memcpy, zeroBuffer, h1, List.getD_eq_getElem?_getD, List.getElem?_take, hi]

theorem Arpsocket.receiveTraced_accept (e : Endian) (s : Arpsocket) (data : List Byte)
    (h : applyFiltersLoop e (receivedFrame e data) s.filters = .ok true) :
    s.receiveTraced e (some data)
      = (.ok ((min data.length IP_MAXPACKET : Nat) : Int), (s.receive e (some data)).2,
          [.recvfrom, .lock, .unlock]) ∧
    (s.receive e (some data)).2.incomingQueue = s.incomingQueue ++ [receivedFrame e data] ∧
    (s.receive e (some data)).2.running = s.running := by
  unfold receivedFrame at h ⊢
  unfold Arpsocket.receiveTraced Arpsocket.receive
  simp only [ArpsocketFiltered.applyFilters, h]
  refine ⟨?_, ?_, ?_⟩ <;> trivial

theorem Arpsocket.popN_zero (s : Arpsocket) : s.popN 0 = s := rfl

/-! ## C13: an accepted frame is queued, then notified -/

/-- C13: in a pass of the capture loop in which the worker is running, data
is ready, `recvfrom` delivers at least one byte and the rule set accepts the
received frame, `receive` appends exactly that frame at the tail of the
queue, and that frame is formed by the first 42 received bytes when there are
that many; the actions of the pass are the select, the read, the locked
push, and one locked `write` whose message is the decimal text of the queue
length at that moment (the digits of `Nat.toDigits 10`, nothing before or
after), followed by the pause unless the write failed; when the control
thread pops nothing in between, that length is the previous length plus one;
and when the write succeeds the loop goes on with the following events. -/
theorem accepted_frame_queued_then_notified (e : Endian) (strerror : String) (s : Arpsocket)
    (ev : LoopEvent) (rest : List LoopEvent) (data : List Byte)
    (hrun : s.running = true) (hsh : ev.shutdown = false)
    (hsel : ev.select ≠ -1 ∧ ev.select ≠ 0) (hrecv : ev.recvfrom = some data)
    (hlen : 0 < data.length)
    (hacc : applyFiltersLoop e (receivedFrame e data) s.filters = .ok true) :
    (s.receive e ev.recvfrom).2.incomingQueue = s.incomingQueue ++ [receivedFrame e data] ∧
    (42 ≤ data.length → receivedFrame e data = frameOfBytes e data) ∧
    (receiveLoop e strerror s [ev]).2.2
      = [.select, .recvfrom, .lock, .unlock, .lock,
          .write (Nat.repr ((s.receive e ev.recvfrom).2.popN ev.pops).incomingQueue.length),
          .unlock] ++ (if ev.write = -1 then [] else [.usleep 250]) ∧
    (Nat.repr ((s.receive e ev.recvfrom).2.popN ev.pops).incomingQueue.length).data
      = Nat.toDigits 10 ((s.receive e ev.recvfrom).2.popN ev.pops).incomingQueue.length ∧
    (ev.pops = 0 →
      ((s.receive e ev.recvfrom).2.popN ev.pops).incomingQueue.length
        = s.incomingQueue.length + 1) ∧
    (ev.write ≠ -1 →
      receiveLoop e strerror s (ev :: rest)
        = ((receiveLoop e strerror
              ((s.receive e ev.recvfrom).2.popN ev.pops).lock.unlock rest).1,
           (receiveLoop e strerror
              ((s.receive e ev.recvfrom).2.popN ev.pops).lock.unlock rest).2.1,
           [.select, .recvfrom, .lock, .unlock, .lock,
             .write (Nat.repr
               ((s.receive e ev.recvfrom).2.popN ev.pops).incomingQueue.length),
             .unlock, .usleep 250] ++
           (receiveLoop e strerror
              ((s.receive e ev.recvfrom).2.popN ev.pops).lock.unlock rest).2.2)) := by
  obtain ⟨ht, hq, _⟩ := Arpsocket.receiveTraced_accept e s data hacc
  have h42 : 0 < min data.length IP_MAXPACKET := by unfold IP_MAXPACKET; omega
  have hp2 : ((min data.length IP_MAXPACKET : Nat) : Int) ≠ -2 := by omega
  have hp1 : ((min data.length IP_MAXPACKET : Nat) : Int) ≠ -1 := by omega
  have hp0 : ((min data.length IP_MAXPACKET : Nat) : Int) ≠ 0 := by omega
  rw [← hrecv] at ht hq
  refine ⟨hq, ofBuffer_received e data, ?_, rfl, ?_, ?_⟩
  · by_cases hw : ev.write = -1
    · rw [(receiveLoop_received e strerror s _ ev [] _ _ hrun hsh hsel ht).2.2.2.1 hp2 hp1 hp0 hw]
      simp [hw]
    · rw [(receiveLoop_received e strerror s _ ev [] _ _ hrun hsh hsel ht).2.2.2.2 hp2 hp1 hp0 hw]
      simp [hw, receiveLoop_nil_calls]
  · intro hp
    rw [hp, Arpsocket.popN_zero, hq]
    simp
  · intro hw
    rw [(receiveLoop_received e strerror s _ ev rest _ _ hrun hsh hsel ht).2.2.2.2 hp2 hp1 hp0 hw]
    simp

/-- Witness for C13: a 42-byte datagram of zeros on a fresh socket without
rules, with the worker running, no pop in between and a successful write. -/
theorem accepted_frame_queued_then_notified_witness :
    (Arpsocket.new .little dottedQuad zeroBuffer zeroBuffer []).running = true ∧
    0 < (List.replicate 42 (0 : Byte)).length ∧
    (receiveLoop .little "" (Arpsocket.new .little dottedQuad zeroBuffer zeroBuffer [])
        [⟨false, 1, some (List.replicate 42 0), 0, 1⟩]).2.2
      = [.select, .recvfrom, .lock, .unlock, .lock,
          .write (Nat.repr (((Arpsocket.new .little dottedQuad zeroBuffer zeroBuffer []).receive
            .little (some (List.replicate 42 0))).2.popN 0).incomingQueue.length),
          .unlock] ++ (if (1 : Int) = -1 then [] else [.usleep 250]) :=
  ⟨rfl, by decide,
   (accepted_frame_queued_then_notified .little ""
      (Arpsocket.new .little dottedQuad zeroBuffer zeroBuffer [])
      ⟨false, 1, some (List.replicate 42 0), 0, 1⟩ [] (List.replicate 42 0)
      rfl rfl ⟨by decide, by decide⟩ rfl (by decide) rfl).2.2.1⟩

/-! ## Lemmas: the connect loop and the actions of the worker -/

theorem connectLoop_count_le (connect : Nat → Int) (retry attempt : Nat) :
    (connectLoop connect retry attempt).2.count .connect ≤ retry := by
  induction retry generalizing attempt with
  | zero => simp [connectLoop]
  | succ n ih =>
    unfold connectLoop
    simp only
    split
    · simp
    · have := ih (attempt + 1)
      simp [List.count_cons]
      omega

theorem connectLoop_actions (connect : Nat → Int) (retry attempt : Nat) :
    ∀ a ∈ (connectLoop connect retry attempt).2, a = .connect ∨ a = .usleep 1000 := by
  induction retry generalizing attempt with
  | zero => simp [connectLoop]
  | succ n ih =>
    unfold connectLoop
    simp only
    split
    · simp
    · intro a ha
      simp only [List.cons_append, List.nil_append, List.mem_cons] at ha
      rcases ha with ha | ha | ha
      · exact Or.inl ha
      · exact Or.inr ha
      · exact ih _ a ha

theorem connectLoop_all_fail (connect : Nat → Int) (retry attempt : Nat)
    (h : ∀ j, j < retry → connect (attempt + j) = -1) :
    (connectLoop connect retry attempt).1 = -1 ∧
    (connectLoop connect retry attempt).2.count .connect = retry := by
  induction retry generalizing attempt with
  | zero => simp [connectLoop]
  | succ n ih =>
    have h0 : connect attempt = -1 := by simpa using h 0 (Nat.succ_pos n)
    have hn : ∀ j, j < n → connect (attempt + 1 + j) = -1 := by
      intro j hj
      have := h (j + 1) (by omega)
      rwa [show attempt + 1 + j = attempt + (j + 1) by omega]
    obtain ⟨h1, h2⟩ := ih (attempt + 1) hn
    unfold connectLoop
    simp only [h0, ne_eq, not_true_eq_false, if_false]
    refine ⟨h1, ?_⟩
    simp [List.count_cons, h2]

theorem connectLoop_first_success (connect : Nat → Int) (retry attempt k : Nat)
    (hk : k < retry) (hfail : ∀ j, j < k → connect (attempt + j) = -1)
    (hok : connect (attempt + k) ≠ -1) :
    (connectLoop connect retry attempt).1 = connect (attempt + k) ∧
    (connectLoop connect retry attempt).2.count .connect = k + 1 := by
  induction retry generalizing attempt k with
  | zero => omega
  | succ n ih =>
    cases k with
    | zero =>
      have hok2 : connect attempt ≠ -1 := by simpa using hok
      unfold connectLoop
      simp [hok2]
    | succ k2 =>
      have h0 : connect attempt = -1 := by simpa using hfail 0 (Nat.succ_pos k2)
      have hf2 : ∀ j, j < k2 → connect (attempt + 1 + j) = -1 := by
        intro j hj
        have := hfail (j + 1) (by omega)
        rwa [show attempt + 1 + j = attempt + (j + 1) by omega]
      have hok2 : connect (attempt + 1 + k2) ≠ -1 := by
        rwa [show attempt + 1 + k2 = attempt + (k2 + 1) by omega]
      obtain ⟨h1, h2⟩ := ih (attempt + 1) k2 (by omega) hf2 hok2
      unfold connectLoop
      simp only [h0, ne_eq, not_true_eq_false, if_false]
      refine ⟨by rw [h1]; congr 1; omega, ?_⟩
      simp [List.count_cons, h2]

theorem receiveTraced_calls (e : Endian) (s : Arpsocket) (r : Option (List Byte)) :
    ∀ a ∈ (s.receiveTraced e r).2.2, a = .recvfrom ∨ a = .lock ∨ a = .unlock := by
  unfold Arpsocket.receiveTraced
  cases r with
  | none => simp
  | some data =>
    simp only
    split <;> simp

theorem receiveLoop_actions (e : Endian) (strerror : String) (evs : List LoopEvent)
    (s : Arpsocket) : ∀ a ∈ (receiveLoop e strerror s evs).2.2, a.inLoop = true := by
  induction evs generalizing s with
  | nil => simp [receiveLoop_nil_calls]
  | cons ev rest ih =>
    cases hsh : ev.shutdown
    case true => simp [receiveLoop_shutdown e strerror s ev _ hsh]
    case false =>
      cases hrun : s.running
      case false => simp [receiveLoop_stopped e strerror s _ hrun]
      case true =>
        by_cases hs1 : ev.select = -1
        · simp [receiveLoop_select_error e strerror s ev _ hrun hsh hs1, Action.inLoop]
        by_cases hs0 : ev.select = 0
        · rw [receiveLoop_timeout e strerror s ev _ hrun hsh hs0]
          intro a ha
          simp only [List.cons_append, List.nil_append, List.mem_cons] at ha
          rcases ha with ha | ha | ha
          · subst ha; rfl
          · subst ha; rfl
          · exact ih _ a ha
        have ht := receiveTraced_eta e s ev.recvfrom
        have hc := receiveTraced_calls e s ev.recvfrom
        have hc2 : ∀ a ∈ (s.receiveTraced e ev.recvfrom).2.2, a.inLoop = true := by
          intro a ha
          rcases hc a ha with h | h | h <;> subst h <;> rfl
        cases hres : (s.receiveTraced e ev.recvfrom).1 with
        | error err =>
          rw [hres] at ht
          rw [receiveLoop_receive_raises e strerror s _ ev _ err _ hrun hsh ⟨hs1, hs0⟩ ht]
          intro a ha
          rcases List.mem_cons.mp ha with ha | ha
          · subst ha; rfl
          · exact hc2 a ha
        | ok ret =>
          rw [hres] at ht
          have hp := receiveLoop_received e strerror s _ ev rest ret _ hrun hsh ⟨hs1, hs0⟩ ht
          by_cases h2 : ret = -2
          · rw [hp.1 h2]
            intro a ha
            simp only [List.cons_append, List.append_assoc, List.mem_cons, List.mem_append,
              List.mem_singleton, List.not_mem_nil, or_false, false_or] at ha
            rcases ha with ha | ha | ha | ha
            · subst ha; rfl
            · exact hc2 a ha
            · subst ha; rfl
            · exact ih _ a ha
          by_cases h1 : ret = -1
          · rw [hp.2.1 h1]
            intro a ha
            rcases List.mem_cons.mp ha with ha | ha
            · subst ha; rfl
            · exact hc2 a ha
          by_cases h0 : ret = 0
          · rw [hp.2.2.1 h0]
            intro a ha
            rcases List.mem_cons.mp ha with ha | ha
            · subst ha; rfl
            · exact hc2 a ha
          by_cases hw : ev.write = -1
          · rw [hp.2.2.2.1 h2 h1 h0 hw]
            intro a ha
            simp only [List.cons_append, List.mem_cons, List.mem_append,
              List.not_mem_nil, or_false] at ha
            rcases ha with ha | ha | ha | ha | ha
            · subst ha; rfl
            · exact hc2 a ha
            · subst ha; rfl
            · subst ha; rfl
            · subst ha; rfl
          · rw [hp.2.2.2.2 h2 h1 h0 hw]
            intro a ha
            simp only [List.cons_append, List.append_assoc, List.mem_cons, List.mem_append,
              List.not_mem_nil, or_false, false_or] at ha
            rcases ha with ha | ha | ha | ha | ha | ha | ha
            · subst ha; rfl
            · exact hc2 a ha
            · subst ha; rfl
            · subst ha; rfl
            · subst ha; rfl
            · subst ha; rfl
            · exact ih _ a ha

theorem receiveAll_socket_fail (e : Endian) (strerror : String) (s : Arpsocket)
    (env : WorkerEnv) (h : env.socket = -1) :
    s.receiveAll e strerror env
      = .returned { s with udsfd := env.socket, running := false } [.socket]
          (some ⟨"Error: can't create UDS : " ++ strerror⟩) := by
  simp [Arpsocket.receiveAll, h]

theorem receiveAll_connect_fail (e : Endian) (strerror : String) (s : Arpsocket)
    (env : WorkerEnv) (h1 : env.socket ≠ -1) (h2 : (connectLoop env.connect 5 0).1 = -1) :
    s.receiveAll e strerror env
      = .returned { s with udsfd := env.socket, running := false }
          (.socket :: (connectLoop env.connect 5 0).2)
          (some ⟨"Error: can't connect UDS : " ++ strerror⟩) := by
  simp [Arpsocket.receiveAll, h1, h2]

theorem receiveAll_loop (e : Endian) (strerror : String) (s : Arpsocket)
    (env : WorkerEnv) (h1 : env.socket ≠ -1) (h2 : (connectLoop env.connect 5 0).1 ≠ -1) :
    (s.receiveAll e strerror env).calls
      = .socket :: (connectLoop env.connect 5 0).2 ++
        (receiveLoop e strerror { s with udsfd := env.socket } env.loop).2.2 ∧
    ((receiveLoop e strerror { s with udsfd := env.socket } env.loop).1 = .pending →
      (s.receiveAll e strerror env).hasReturned = false ∧
      (s.receiveAll e strerror env).state
        = (receiveLoop e strerror { s with udsfd := env.socket } env.loop).2.1) ∧
    ((receiveLoop e strerror { s with udsfd := env.socket } env.loop).1 = .finished →
      (s.receiveAll e strerror env).hasReturned = true ∧
      (s.receiveAll e strerror env).caught = none ∧
      (s.receiveAll e strerror env).state.running = false) ∧
    (∀ err, (receiveLoop e strerror { s with udsfd := env.socket } env.loop).1 = .threw err →
      (s.receiveAll e strerror env).hasReturned = true ∧
      (s.receiveAll e strerror env).caught = some err ∧
      (s.receiveAll e strerror env).state.running = false) := by
  unfold Arpsocket.receiveAll
  simp only [if_neg h1, if_neg h2]
  generalize receiveLoop e strerror { s with udsfd := env.socket } env.loop = r
  obtain ⟨x, s2, calls⟩ := r
  cases x <;> simp [WorkerOutcome.calls, WorkerOutcome.hasReturned, WorkerOutcome.state,
    WorkerOutcome.caught]

theorem receiveAll_returned_stopped (e : Endian) (strerror : String) (s : Arpsocket)
    (env : WorkerEnv) (h : (s.receiveAll e strerror env).hasReturned = true) :
    (s.receiveAll e strerror env).state.running = false := by
  by_cases h1 : env.socket = -1
  · rw [receiveAll_socket_fail e strerror s env h1]
    rfl
  by_cases h2 : (connectLoop env.connect 5 0).1 = -1
  · rw [receiveAll_connect_fail e strerror s env h1 h2]
    rfl
  obtain ⟨_, hp, hf, ht⟩ := receiveAll_loop e strerror s env h1 h2
  cases hx : (receiveLoop e strerror { s with udsfd := env.socket } env.loop).1 with
  | pending =>
    rw [(hp hx).1] at h
    cases h
  | finished => exact (hf hx).2.2
  | threw err => exact (ht err hx).2.2

/-! ## Lemmas: the failures that end the worker -/

/-- The method `receiveAll` has exception-free results only, and whenever it
returns the running flag is false. It returns, having caught the error, when
`socket` fails, when all five `connect` calls fail, and when a pass of the
loop fails: `select` returns -1, `receive` returns -1, `receive` returns 0,
`receive` raises (an exception from the filter), or the notification `write`
returns -1. After a failing pass nothing more is done: appending further
events to the environment leaves the outcome, and thus the list of actions
with its calls of `recvfrom`, unchanged. What `receive` returns for a read of
0 bytes depends on the rule set. -/
theorem receiveAll_stops_on_reported_failure (e : Endian) (strerror : String) (s t : Arpsocket)
    (env : WorkerEnv) (post rest : List LoopEvent) (ev : LoopEvent) :
    ((s.receiveAll e strerror env).hasReturned = true →
      (s.receiveAll e strerror env).state.running = false) ∧
    (env.socket = -1 →
      (s.receiveAll e strerror env).hasReturned = true ∧
      (s.receiveAll e strerror env).calls = [.socket] ∧
      (s.receiveAll e strerror env).caught
        = some ⟨"Error: can't create UDS : " ++ strerror⟩) ∧
    (env.socket ≠ -1 → (∀ j, j < 5 → env.connect j = -1) →
      (s.receiveAll e strerror env).hasReturned = true ∧
      Action.recvfrom ∉ (s.receiveAll e strerror env).calls ∧
      (s.receiveAll e strerror env).caught
        = some ⟨"Error: can't connect UDS : " ++ strerror⟩) ∧
    (env.socket ≠ -1 → (connectLoop env.connect 5 0).1 ≠ -1 →
      ∀ err, (receiveLoop e strerror { s with udsfd := env.socket } env.loop).1 = .threw err →
        (s.receiveAll e strerror env).hasReturned = true ∧
        (s.receiveAll e strerror env).caught = some err ∧
        s.receiveAll e strerror { env with loop := env.loop ++ post }
          = s.receiveAll e strerror env) ∧
    (t.running = true → ev.shutdown = false → ev.select = -1 →
      (receiveLoop e strerror t (ev :: rest)).1
        = .threw ⟨"readLineTimeout: Select Error."⟩) ∧
    (t.running = true → ev.shutdown = false → ev.select ≠ -1 → ev.select ≠ 0 →
      (t.receive e ev.recvfrom).1 = .ok (-1) →
      (receiveLoop e strerror t (ev :: rest)).1
        = .threw ⟨"Error: recvfrom() : " ++ strerror⟩) ∧
    (t.running = true → ev.shutdown = false → ev.select ≠ -1 → ev.select ≠ 0 →
      (t.receive e ev.recvfrom).1 = .ok 0 →
      (receiveLoop e strerror t (ev :: rest)).1
        = .threw ⟨"readTimeout: Connection Closed by peer."⟩) ∧
    (t.running = true → ev.shutdown = false → ev.select ≠ -1 → ev.select ≠ 0 →
      ∀ err, (t.receive e ev.recvfrom).1 = .error err →
      (receiveLoop e strerror t (ev :: rest)).1
        = .threw ⟨"Error: receiveAll() from receive() : " ++ err.errorMessage⟩) ∧
    (t.running = true → ev.shutdown = false → ev.select ≠ -1 → ev.select ≠ 0 →
      ∀ n : Int, (t.receive e ev.recvfrom).1 = .ok n → n ≠ -2 → n ≠ -1 → n ≠ 0 →
      ev.write = -1 →
      (receiveLoop e strerror t (ev :: rest)).1
        = .threw ⟨"Error: can't write on UDS : " ++ strerror⟩) := by
  have heq := (Arpsocket.receiveTraced_eq e t ev.recvfrom).1
  have heta := receiveTraced_eta e t ev.recvfrom
  refine ⟨receiveAll_returned_stopped e strerror s env, ?_, ?_, ?_, ?_, ?_, ?_, ?_, ?_⟩
  · intro h
    rw [receiveAll_socket_fail e strerror s env h]
    exact ⟨rfl, rfl, rfl⟩
  · intro h1 hall
    have hc := connectLoop_all_fail env.connect 5 0 (by simpa using hall)
    rw [receiveAll_connect_fail e strerror s env h1 hc.1]
    refine ⟨rfl, ?_, rfl⟩
    intro hmem
    simp only [WorkerOutcome.calls, List.mem_cons] at hmem
    rcases hmem with hmem | hmem
    · cases hmem
    · rcases connectLoop_actions env.connect 5 0 _ hmem with h | h <;> cases h
  · intro h1 h2 err herr
    obtain ⟨_, _, _, ht⟩ := receiveAll_loop e strerror s env h1 h2
    refine ⟨(ht err herr).1, (ht err herr).2.1, ?_⟩
    have hne : (receiveLoop e strerror { s with udsfd := env.socket } env.loop).1 ≠ .pending := by
      rw [herr]
      simp
    have happ := receiveLoop_append e strerror env.loop post { s with udsfd := env.socket } hne
    unfold Arpsocket.receiveAll
    simp only [if_neg h1, if_neg h2, happ]
  · intro hrun hsh hsel
    rw [receiveLoop_select_error e strerror t ev rest hrun hsh hsel]
  · intro hrun hsh hs1 hs0 hr
    rw [← heq] at hr
    rw [hr] at heta
    rw [(receiveLoop_received e strerror t _ ev rest _ _ hrun hsh ⟨hs1, hs0⟩ heta).2.1 rfl]
  · intro hrun hsh hs1 hs0 hr
    rw [← heq] at hr
    rw [hr] at heta
    rw [(receiveLoop_received e strerror t _ ev rest _ _ hrun hsh ⟨hs1, hs0⟩ heta).2.2.1 rfl]
  · intro hrun hsh hs1 hs0 err hr
    rw [← heq] at hr
    rw [hr] at heta
    rw [receiveLoop_receive_raises e strerror t _ ev rest err _ hrun hsh ⟨hs1, hs0⟩ heta]
  · intro hrun hsh hs1 hs0 n hr h2 h1 h0 hw
    rw [← heq] at hr
    rw [hr] at heta
    rw [(receiveLoop_received e strerror t _ ev rest _ _ hrun hsh ⟨hs1, hs0⟩ heta).2.2.2.1
      h2 h1 h0 hw]

/-! ## C14: a read of 0 bytes behind a rejecting rule set does not end the worker -/

/-- C14 at a failing input: the rule set holds `hardSize = 6`, the
notification channel is created and connects at once, and the operating
system reports a read of 0 bytes (peer closed) and then, at the next
readiness, a frame of 42 bytes with hardware size 6. The read of 0 bytes does
not stop the worker: `receive` filters the all-zero buffer and reports -2, the
pass ends with the pause, and the worker waits and reads again, so `recvfrom`
is called a second time and the later frame is queued and notified; when the
events end `receiveAll` has not returned and the running flag is still true.
With an empty rule set the same outcomes make `receiveAll` return after the
read of 0 bytes, with the flag false and a single call of `recvfrom`. -/
theorem peer_closed_read_does_not_stop_worker (e : Endian) :
    ((Arpsocket.new e dottedQuad zeroBuffer zeroBuffer
        [("hardSize", FilterValue.ofU8 (FilterValue.ofMAC (fun _ => 0)) 6)]).receiveAll e ""
      ⟨3, fun _ => 0,
        [⟨false, 1, some [], 0, 1⟩,
         ⟨false, 1, some ((Arpsocket.new e dottedQuad zeroBuffer zeroBuffer []).sendBuffer e),
           0, 1⟩]⟩).hasReturned = false ∧
    ((Arpsocket.new e dottedQuad zeroBuffer zeroBuffer
        [("hardSize", FilterValue.ofU8 (FilterValue.ofMAC (fun _ => 0)) 6)]).receiveAll e ""
      ⟨3, fun _ => 0,
        [⟨false, 1, some [], 0, 1⟩,
         ⟨false, 1, some ((Arpsocket.new e dottedQuad zeroBuffer zeroBuffer []).sendBuffer e),
           0, 1⟩]⟩).state.running = true ∧
    ((Arpsocket.new e dottedQuad zeroBuffer zeroBuffer
        [("hardSize", FilterValue.ofU8 (FilterValue.ofMAC (fun _ => 0)) 6)]).receiveAll e ""
      ⟨3, fun _ => 0,
        [⟨false, 1, some [], 0, 1⟩,
         ⟨false, 1, some ((Arpsocket.new e dottedQuad zeroBuffer zeroBuffer []).sendBuffer e),
           0, 1⟩]⟩).calls
      = [.socket, .connect, .select, .recvfrom, .usleep 250,
          .select, .recvfrom, .lock, .unlock, .lock, .write "1", .unlock, .usleep 250] ∧
    ((Arpsocket.new e dottedQuad zeroBuffer zeroBuffer
        [("hardSize", FilterValue.ofU8 (FilterValue.ofMAC (fun _ => 0)) 6)]).receiveAll e ""
      ⟨3, fun _ => 0,
        [⟨false, 1, some [], 0, 1⟩,
         ⟨false, 1, some ((Arpsocket.new e dottedQuad zeroBuffer zeroBuffer []).sendBuffer e),
           0, 1⟩]⟩).state.incomingQueue.length = 1 ∧
    ((Arpsocket.new e dottedQuad zeroBuffer zeroBuffer []).receiveAll e ""
      ⟨3, fun _ => 0,
        [⟨false, 1, some [], 0, 1⟩,
         ⟨false, 1, some ((Arpsocket.new e dottedQuad zeroBuffer zeroBuffer []).sendBuffer e),
           0, 1⟩]⟩).hasReturned = true ∧
    ((Arpsocket.new e dottedQuad zeroBuffer zeroBuffer []).receiveAll e ""
      ⟨3, fun _ => 0,
        [⟨false, 1, some [], 0, 1⟩,
         ⟨false, 1, some ((Arpsocket.new e dottedQuad zeroBuffer zeroBuffer []).sendBuffer e),
           0, 1⟩]⟩).state.running = false ∧
    ((Arpsocket.new e dottedQuad zeroBuffer zeroBuffer []).receiveAll e ""
      ⟨3, fun _ => 0,
        [⟨false, 1, some [], 0, 1⟩,
         ⟨false, 1, some ((Arpsocket.new e dottedQuad zeroBuffer zeroBuffer []).sendBuffer e),
           0, 1⟩]⟩).calls
      = [.socket, .connect, .select, .recvfrom, .lock, .unlock] := by
  cases e <;> decide

/-! ## C19: bounded retry of the notification channel -/

/-- C19: in every run `receiveAll` calls `connect` at most 5 times. When the
call numbered `k` (from 0, `k < 5`) is the first to succeed, it is the last
one made: there are exactly `k + 1` calls. When all five fail, `receiveAll`
returns with the flag false after exactly 5 calls, without any `select` or
`recvfrom`. When the channel is connected the actions are `socket`, then
those of the connect loop, then those of the capture loop, and the capture
loop never calls `connect`. -/
theorem connect_bounded_retry (e : Endian) (strerror : String) (s t : Arpsocket)
    (env : WorkerEnv) (evs : List LoopEvent) (k : Nat) :
    (s.receiveAll e strerror env).calls.count .connect ≤ 5 ∧
    (env.socket ≠ -1 → k < 5 → (∀ j, j < k → env.connect j = -1) → env.connect k ≠ -1 →
      (s.receiveAll e strerror env).calls.count .connect = k + 1) ∧
    (env.socket ≠ -1 → (∀ j, j < 5 → env.connect j = -1) →
      (s.receiveAll e strerror env).hasReturned = true ∧
      (s.receiveAll e strerror env).state.running = false ∧
      (s.receiveAll e strerror env).calls.count .connect = 5 ∧
      Action.select ∉ (s.receiveAll e strerror env).calls ∧
      Action.recvfrom ∉ (s.receiveAll e strerror env).calls) ∧
    (env.socket ≠ -1 → (connectLoop env.connect 5 0).1 ≠ -1 →
      (s.receiveAll e strerror env).calls
        = .socket :: (connectLoop env.connect 5 0).2 ++
          (receiveLoop e strerror { s with udsfd := env.socket } env.loop).2.2) ∧
    Action.connect ∉ (receiveLoop e strerror t evs).2.2 := by
  have hloop : ∀ (u : Arpsocket) (l : List LoopEvent),
      (receiveLoop e strerror u l).2.2.count .connect = 0 := by
    intro u l
    rw [List.count_eq_zero]
    intro hmem
    have := receiveLoop_actions e strerror l u _ hmem
    cases this
  have hcount : ∀ env2 : WorkerEnv, env2.socket ≠ -1 →
      (s.receiveAll e strerror env2).calls.count .connect
        = (connectLoop env2.connect 5 0).2.count .connect := by
    intro env2 h1
    by_cases h2 : (connectLoop env2.connect 5 0).1 = -1
    · rw [receiveAll_connect_fail e strerror s env2 h1 h2]
      simp [WorkerOutcome.calls, List.count_cons]
    · rw [(receiveAll_loop e strerror s env2 h1 h2).1]
      simp [List.count_cons, List.count_append, hloop]
  refine ⟨?_, ?_, ?_, ?_, ?_⟩
  · by_cases h1 : env.socket = -1
    · rw [receiveAll_socket_fail e strerror s env h1]
      simp [WorkerOutcome.calls, List.count_cons]
    · rw [hcount env h1]
      exact connectLoop_count_le env.connect 5 0
  · intro h1 hk hfail hok
    rw [hcount env h1]
    exact (connectLoop_first_success env.connect 5 0 k hk (by simpa using hfail)
      (by simpa using hok)).2
  · intro h1 hall
    have hc := connectLoop_all_fail env.connect 5 0 (by simpa using hall)
    have hcnt := hcount env h1
    rw [receiveAll_connect_fail e strerror s env h1 hc.1] at hcnt ⊢
    refine ⟨rfl, rfl, by rw [hcnt]; exact hc.2, ?_, ?_⟩
    · intro hmem
      simp only [WorkerOutcome.calls, List.mem_cons] at hmem
      rcases hmem with hmem | hmem
      · cases hmem
      · rcases connectLoop_actions env.connect 5 0 _ hmem with h | h <;> cases h
    · intro hmem
      simp only [WorkerOutcome.calls, List.mem_cons] at hmem
      rcases hmem with hmem | hmem
      · cases hmem
      · rcases connectLoop_actions env.connect 5 0 _ hmem with h | h <;> cases h
  · intro h1 h2
    exact (receiveAll_loop e strerror s env h1 h2).1
  · intro hmem
    have := receiveLoop_actions e strerror evs t _ hmem
    cases this

/-- Witness for C19: the third call of `connect` is the first to succeed. -/
theorem connect_bounded_retry_witness :
    ((3 : Int) ≠ -1 ∧ 2 < 5) ∧
    ((Arpsocket.new .little dottedQuad zeroBuffer zeroBuffer []).receiveAll .little ""
      ⟨3, fun j => if j < 2 then -1 else 0, []⟩).calls.count .connect = 2 + 1 :=
  ⟨⟨by decide, by decide⟩,
   (connect_bounded_retry .little "" (Arpsocket.new .little dottedQuad zeroBuffer zeroBuffer [])
      (Arpsocket.new .little dottedQuad zeroBuffer zeroBuffer [])
      ⟨3, fun j => if j < 2 then -1 else 0, []⟩ [] 2).2.1 (by decide) (by decide)
      (by intro j hj; simp [hj]) (by decide)⟩

/-! ## C15: a read of 0 bytes behind a rejecting rule set -/

/-- C15 at a failing input: the rule set holds `hardSize = 6` and `recvfrom`
returns 0 bytes. `receive` filters the all-zero buffer before it looks at the
count, so it returns -2 instead of 0, and the worker stays in its loop (the
pass ends with the pause and the loop is still pending) instead of stopping.
Without rules the same read returns 0, after queueing an all-zero frame, and
the worker stops. -/
theorem peer_closed_masked_by_filter (e : Endian) :
    ((Arpsocket.new e dottedQuad zeroBuffer zeroBuffer
        [("hardSize", FilterValue.ofU8 (FilterValue.ofMAC (fun _ => 0)) 6)]).receive e
      (some [])).1 = .ok (-2) ∧
    (receiveLoop e "" (Arpsocket.new e dottedQuad zeroBuffer zeroBuffer
        [("hardSize", FilterValue.ofU8 (FilterValue.ofMAC (fun _ => 0)) 6)])
      [⟨false, 1, some [], 0, 1⟩]).1 = .pending ∧
    (receiveLoop e "" (Arpsocket.new e dottedQuad zeroBuffer zeroBuffer
        [("hardSize", FilterValue.ofU8 (FilterValue.ofMAC (fun _ => 0)) 6)])
      [⟨false, 1, some [], 0, 1⟩]).2.2 = [.select, .recvfrom, .usleep 250] ∧
    ((Arpsocket.new e dottedQuad zeroBuffer zeroBuffer
        [("hardSize", FilterValue.ofU8 (FilterValue.ofMAC (fun _ => 0)) 6)]).receiveAll e ""
      ⟨3, fun _ => 0, [⟨false, 1, some [], 0, 1⟩]⟩).hasReturned = false ∧
    ((Arpsocket.new e dottedQuad zeroBuffer zeroBuffer []).receive e (some [])).1 = .ok 0 ∧
    ((Arpsocket.new e dottedQuad zeroBuffer zeroBuffer []).receive e
      (some [])).2.incomingQueue.length = 1 ∧
    (receiveLoop e "" (Arpsocket.new e dottedQuad zeroBuffer zeroBuffer [])
      [⟨false, 1, some [], 0, 1⟩]).1 = .threw ⟨"readTimeout: Connection Closed by peer."⟩ := by
  cases e <;> decide

/-! ## C16: no guard against a second start -/

/-- C16, as stated, fails: two calls of `startReceiverThread` on a fresh
socket both return normally and spawn two workers; `reader` holds the
second. -/
theorem double_start_counterexample :
    ((Arpsocket.new .little dottedQuad zeroBuffer zeroBuffer []).startMany
      [some 1, some 2]).1 = [.ok (), .ok ()] ∧
    ((Arpsocket.new .little dottedQuad zeroBuffer zeroBuffer []).startMany
      [some 1, some 2]).2.2 = [.newThread 1, .newThread 2] ∧
    ((Arpsocket.new .little dottedQuad zeroBuffer zeroBuffer []).startMany
      [some 1, some 2]).2.1.reader = some 2 := by
  decide

theorem Arpsocket.startMany_all_created (tids : List Nat) (s : Arpsocket) :
    (s.startMany (tids.map some)).1 = tids.map (fun _ => .ok ()) ∧
    (s.startMany (tids.map some)).2.2 = tids.map Action.newThread := by
  induction tids generalizing s with
  | nil => simp [Arpsocket.startMany]
  | cons tid rest ih =>
    obtain ⟨h1, h2⟩ := ih ({ s with reader := some tid })
    simp [Arpsocket.startMany, Arpsocket.startReceiverThread, h1, h2]

/-- C16 as amended: `startReceiverThread` has no guard against a second
start. Whatever `reader` holds, a call whose thread creation succeeds returns
normally, spawns that worker and stores its handle in `reader`; a call whose
thread creation fails raises, spawns nothing and leaves the state as it was.
Hence `n` calls that all succeed spawn `n` workers. -/
theorem start_spawns_a_worker_each_time (s : Arpsocket) (tid : Nat) (tids : List Nat) :
    s.startReceiverThread (some tid)
      = (.ok (), { s with reader := some tid }, [.newThread tid]) ∧
    s.startReceiverThread none
      = (.error ⟨"Error: startReceiverThread() - creation "⟩, s, []) ∧
    (s.startMany (tids.map some)).1 = tids.map (fun _ => .ok ()) ∧
    (s.startMany (tids.map some)).2.2 = tids.map Action.newThread ∧
    (s.startMany (tids.map some)).2.2.length = tids.length :=
  ⟨rfl, rfl, (Arpsocket.startMany_all_created tids s).1,
    (Arpsocket.startMany_all_created tids s).2,
    by rw [(Arpsocket.startMany_all_created tids s).2, List.length_map]⟩

/-! ## C17: shutdown before start -/

/-- C17, as stated, fails: on a fresh socket `shutdown()` returns normally
and changes the flag from true to false; a worker started afterwards, whose
environment has a frame ready, returns after `socket` and `connect` without
any `select` or `recvfrom` and captures nothing, whereas without the
`shutdown()` the same worker reads and queues the frame. -/
theorem shutdown_before_start_counterexample :
    (Arpsocket.new .little dottedQuad zeroBuffer zeroBuffer []).running = true ∧
    (Arpsocket.new .little dottedQuad zeroBuffer zeroBuffer []).shutdown.running = false ∧
    ((((Arpsocket.new .little dottedQuad zeroBuffer zeroBuffer []).shutdown.startReceiverThread
        (some 1)).2.1).receiveAll .little ""
      ⟨3, fun _ => 0, [⟨false, 1, some (List.replicate 42 0), 0, 1⟩]⟩).hasReturned = true ∧
    ((((Arpsocket.new .little dottedQuad zeroBuffer zeroBuffer []).shutdown.startReceiverThread
        (some 1)).2.1).receiveAll .little ""
      ⟨3, fun _ => 0, [⟨false, 1, some (List.replicate 42 0), 0, 1⟩]⟩).calls
        = [.socket, .connect] ∧
    ((((Arpsocket.new .little dottedQuad zeroBuffer zeroBuffer []).shutdown.startReceiverThread
        (some 1)).2.1).receiveAll .little ""
      ⟨3, fun _ => 0, [⟨false, 1, some (List.replicate 42 0), 0, 1⟩]⟩).state.incomingQueue.length
        = 0 ∧
    ((((Arpsocket.new .little dottedQuad zeroBuffer zeroBuffer []).startReceiverThread
        (some 1)).2.1).receiveAll .little ""
      ⟨3, fun _ => 0, [⟨false, 1, some (List.replicate 42 0), 0, 1⟩]⟩).state.incomingQueue.length
        = 1 := by
  decide

/-- C17 as amended: `shutdown()` on a pipeline that has not been started
never raises and is not a no-op: it sets the running flag to false and
changes nothing else. A worker started afterwards returns without entering
the capture loop: whatever its environment, it performs no `select` and no
`recvfrom`, and leaves the queue as it was. -/
theorem shutdown_before_start_stops_later_worker (e : Endian) (strerror : String)
    (s : Arpsocket) (tid : Nat) (env : WorkerEnv) :
    s.shutdown = { s with running := false } ∧
    s.shutdown.running = false ∧
    (s.shutdown.startReceiverThread (some tid)).1 = .ok () ∧
    ((s.shutdown.startReceiverThread (some tid)).2.1.receiveAll e strerror env).hasReturned
      = true ∧
    Action.select ∉
      ((s.shutdown.startReceiverThread (some tid)).2.1.receiveAll e strerror env).calls ∧
    Action.recvfrom ∉
      ((s.shutdown.startReceiverThread (some tid)).2.1.receiveAll e strerror env).calls ∧
    ((s.shutdown.startReceiverThread (some tid)).2.1.receiveAll e strerror env).state.incomingQueue
      = s.incomingQueue := by
  have hrun : ({ (s.shutdown.startReceiverThread (some tid)).2.1 with udsfd := env.socket }
      : Arpsocket).running = false := rfl
  have hcl : ∀ a ∈ (connectLoop env.connect 5 0).2, a ≠ Action.select ∧ a ≠ Action.recvfrom := by
    intro a ha
    rcases connectLoop_actions env.connect 5 0 a ha with h | h <;> subst h <;> simp
  refine ⟨rfl, rfl, rfl, ?_⟩
  by_cases h1 : env.socket = -1
  · rw [receiveAll_socket_fail e strerror _ env h1]
    simp [WorkerOutcome.hasReturned, WorkerOutcome.calls, WorkerOutcome.state,
      Arpsocket.startReceiverThread, Arpsocket.shutdown]
  by_cases h2 : (connectLoop env.connect 5 0).1 = -1
  · rw [receiveAll_connect_fail e strerror _ env h1 h2]
    refine ⟨rfl, ?_, ?_, rfl⟩
    · intro hmem
      rcases List.mem_cons.mp hmem with h | h
      · cases h
      · exact (hcl _ h).1 rfl
    · intro hmem
      rcases List.mem_cons.mp hmem with h | h
      · cases h
      · exact (hcl _ h).2 rfl
  · have hl := receiveLoop_stopped e strerror _ env.loop hrun
    unfold Arpsocket.receiveAll
    simp only [if_neg h1, if_neg h2, hl]
    refine ⟨rfl, ?_, ?_, rfl⟩
    · intro hmem
      simp only [WorkerOutcome.calls, List.append_nil] at hmem
      rcases List.mem_cons.mp hmem with h | h
      · cases h
      · exact (hcl _ h).1 rfl
    · intro hmem
      simp only [WorkerOutcome.calls, List.append_nil] at hmem
      rcases List.mem_cons.mp hmem with h | h
      · cases h
      · exact (hcl _ h).2 rfl

/-! ## C18: destroying a socket that was never started -/

/-- C18 at a failing input: on a freshly constructed `Arpsocket`, and on any
socket whose `reader` is the null pointer, the destructor does not complete:
after `shutdown()` it calls `join` through the null pointer. With a started
worker it joins that worker and completes. -/
theorem destroy_never_started_dereferences_null (e : Endian) (inet_pton : InetPton)
    (incoming etherFrame : ArpBuffer) (filt : FilterMap) (s : Arpsocket) (tid : Nat) :
    (Arpsocket.new e inet_pton incoming etherFrame filt).reader = none ∧
    (Arpsocket.new e inet_pton incoming etherFrame filt).destroy.hasCompleted = false ∧
    ({ s with reader := none } : Arpsocket).destroy.hasCompleted = false ∧
    ((Arpsocket.new e inet_pton incoming etherFrame filt).startReceiverThread
      none).2.1.destroy.hasCompleted = false ∧
    ((Arpsocket.new e inet_pton incoming etherFrame filt).startReceiverThread
      (some tid)).2.1.destroy.hasCompleted = true :=
  ⟨rfl, rfl, rfl, rfl, rfl⟩

/-! ## C20: oversized configured values are truncated -/

theorem castU16_val (n : Int) : (castU16 n).val = (n % 65536).toNat := by
  unfold castU16
  rw [toU16_val]
  omega

theorem narrowU8_castU16 (n : Int) : narrowU8 (castU16 n) = toByte (n % 256).toNat := by
  unfold narrowU8
  rw [toByte_eq_iff, castU16_val]
  omega

/-- C20: for all integers returned by `getInteger()`, after the scalar setter
calls of `ArpFuzzer::init` the image handed to `sendto` is 42 bytes long; the
two bytes of `frameType`, `hardType`, `protType` and `opcode` are the high
byte then the low byte of the integer reduced modulo 65536, on either host
byte order; the byte of `hardSize` and of `protSize` is the integer reduced
modulo 256. -/
theorem oversized_values_truncated (e : Endian) (s : Arpsocket)
    (frameType hardType protType hardSize protSize opcode : Int) :
    ((s.onBase (fun b => ArpFuzzer.initScalars e b frameType hardType protType hardSize
        protSize opcode)).sendBuffer e).length = 42 ∧
    slice ((s.onBase (fun b => ArpFuzzer.initScalars e b frameType hardType protType hardSize
        protSize opcode)).sendBuffer e) FRAME_TYPE 2
      = [toByte ((frameType % 65536).toNat / 256), toByte ((frameType % 65536).toNat % 256)] ∧
    slice ((s.onBase (fun b => ArpFuzzer.initScalars e b frameType hardType protType hardSize
        protSize opcode)).sendBuffer e) HARD_TYPE 2
      = [toByte ((hardType % 65536).toNat / 256), toByte ((hardType % 65536).toNat % 256)] ∧
    slice ((s.onBase (fun b => ArpFuzzer.initScalars e b frameType hardType protType hardSize
        protSize opcode)).sendBuffer e) PROT_TYPE 2
      = [toByte ((protType % 65536).toNat / 256), toByte ((protType % 65536).toNat % 256)] ∧
    slice ((s.onBase (fun b => ArpFuzzer.initScalars e b frameType hardType protType hardSize
        protSize opcode)).sendBuffer e) OP_SIZE 2
      = [toByte ((opcode % 65536).toNat / 256), toByte ((opcode % 65536).toNat % 256)] ∧
    slice ((s.onBase (fun b => ArpFuzzer.initScalars e b frameType hardType protType hardSize
        protSize opcode)).sendBuffer e) HARD_SIZE 1 = [toByte (hardSize % 256).toNat] ∧
    slice ((s.onBase (fun b => ArpFuzzer.initScalars e b frameType hardType protType hardSize
        protSize opcode)).sendBuffer e) PROT_SIZE 1 = [toByte (protSize % 256).toNat] ∧
    (toByte (hardSize % 256).toNat).val = (hardSize % 256).toNat := by
  have hsl := ArpPkt.toBytes_slices e
    (ArpFuzzer.initScalars e s.toArpsocketBase frameType hardType protType hardSize protSize
      opcode).arppkt
  simp only [Arpsocket.onBase_sendBuffer]
  refine ⟨ArpPkt.toBytes_length e _, ?_, ?_, ?_, ?_, ?_, ?_, ?_⟩
  · rw [hsl.2.2.1, ← castU16_val]
    exact storeU16_htons e _
  · rw [hsl.2.2.2.1, ← castU16_val]
    exact storeU16_htons e _
  · rw [hsl.2.2.2.2.1, ← castU16_val]
    exact storeU16_htons e _
  · rw [hsl.2.2.2.2.2.2.2.1, ← castU16_val]
    exact storeU16_htons e _
  · rw [hsl.2.2.2.2.2.1, ← narrowU8_castU16]
    rfl
  · rw [hsl.2.2.2.2.2.2.1, ← narrowU8_castU16]
    rfl
  · rw [toByte_val]
    omega

/-! ## C21: script setters and rejected addresses -/

theorem ArpCtx.macSetter_rejected (parseMAC : String → Except String MacAddr)
    (message key : String) (setter : ArpsocketBase → MacAddr → ArpsocketBase) (c : ArpCtx)
    (par what : String) (h : parseMAC par = .error what) :
    ArpCtx.macSetter parseMAC message key setter c par = (.error ⟨message ++ what⟩, c) := by
  simp [ArpCtx.macSetter, h]

theorem ArpCtx.ipSetter_rejected (parseIpCheckOnly : String → Except String Unit)
    (message key : String) (setter : ArpsocketBase → String → ArpsocketBase) (c : ArpCtx)
    (par what : String) (h : parseIpCheckOnly par = .error what) :
    ArpCtx.ipSetter parseIpCheckOnly message key setter c par = (.error ⟨message ++ what⟩, c) := by
  simp [ArpCtx.ipSetter, h]

/-- C21: when the parser rejects the text argument of a script setter (for
`setSrcHdrMAC`, `setDestHdrMAC`, `setSrcMAC` and `setDestMAC` the parser
`parseMAC` throws, for `setSrcIp` and `setDestIp` the checker
`parseIpCheckOnly` throws), the setter raises a `ConfigFileException` whose
message is the setter's prefix followed by the parser's message, and the
state is as before the call: the configuration, so the stored value under the
setter's key, and the socket, so the frame it would send, are unchanged. -/
theorem script_setters_reject_invalid_address (e : Endian)
    (parseMAC : String → Except String MacAddr)
    (parseIpCheckOnly : String → Except String Unit) (inet_pton : InetPton) (c : ArpCtx)
    (mac whatMAC ip whatIp : String)
    (hmac : parseMAC mac = .error whatMAC) (hip : parseIpCheckOnly ip = .error whatIp) :
    c.setSrcHdrMAC parseMAC mac = (.error ⟨"Error: setSrcHdrMAC :" ++ whatMAC⟩, c) ∧
    c.setDestHdrMAC parseMAC mac = (.error ⟨"Error: setDestHdrMAC :" ++ whatMAC⟩, c) ∧
    c.setSrcMAC parseMAC mac = (.error ⟨"Error: setSrcMAC :" ++ whatMAC⟩, c) ∧
    c.setDestMAC parseMAC mac = (.error ⟨"Error: setDestMAC :" ++ whatMAC⟩, c) ∧
    c.setSrcIp parseIpCheckOnly inet_pton ip = (.error ⟨"Error: setSrcIp :" ++ whatIp⟩, c) ∧
    c.setDestIp parseIpCheckOnly inet_pton ip = (.error ⟨"Error: setDestIp :" ++ whatIp⟩, c) ∧
    (c.setSrcHdrMAC parseMAC mac).2.configFile.getConf "hdrSenderMAC"
      = c.configFile.getConf "hdrSenderMAC" ∧
    (c.setSrcHdrMAC parseMAC mac).2.arpsocket.arppkt.toBytes e = c.arpsocket.arppkt.toBytes e ∧
    (c.setDestIp parseIpCheckOnly inet_pton ip).2.configFile.getConf "targetIp"
      = c.configFile.getConf "targetIp" ∧
    (c.setDestIp parseIpCheckOnly inet_pton ip).2.arpsocket.arppkt.toBytes e
      = c.arpsocket.arppkt.toBytes e := by
  have h1 : c.setSrcHdrMAC parseMAC mac = (.error ⟨"Error: setSrcHdrMAC :" ++ whatMAC⟩, c) :=
    ArpCtx.macSetter_rejected parseMAC _ _ _ c mac whatMAC hmac
  have h2 : c.setDestIp parseIpCheckOnly inet_pton ip
      = (.error ⟨"Error: setDestIp :" ++ whatIp⟩, c) :=
    ArpCtx.ipSetter_rejected parseIpCheckOnly _ _ _ c ip whatIp hip
  refine ⟨h1, ArpCtx.macSetter_rejected parseMAC _ _ _ c mac whatMAC hmac,
    ArpCtx.macSetter_rejected parseMAC _ _ _ c mac whatMAC hmac,
    ArpCtx.macSetter_rejected parseMAC _ _ _ c mac whatMAC hmac,
    ArpCtx.ipSetter_rejected parseIpCheckOnly _ _ _ c ip whatIp hip, h2, ?_, ?_, ?_, ?_⟩
  · rw [h1]
  · rw [h1]
  · rw [h2]
  · rw [h2]

/-- Witness for C21: the texts "zz" and "300.1.1.1" on a context whose
configuration holds the variables that `main` registers. -/
theorem script_setters_reject_invalid_address_witness :
    sampleParseMAC "zz" = .error "invalid MAC address" ∧
    sampleParseIpCheckOnly "300.1.1.1" = .error "invalid IP address" ∧
    (ArpCtx.setSrcHdrMAC sampleParseMAC
      ⟨⟨ArpsocketFiltered.new zeroBuffer [], zeroBuffer⟩,
        (registerAll ConfigFile.new mainVariables).2⟩ "zz").1
      = .error ⟨"Error: setSrcHdrMAC :" ++ "invalid MAC address"⟩ :=
  ⟨by decide, by decide,
   congrArg Prod.fst
     (script_setters_reject_invalid_address .little sampleParseMAC sampleParseIpCheckOnly
       dottedQuad
       ⟨⟨ArpsocketFiltered.new zeroBuffer [], zeroBuffer⟩,
         (registerAll ConfigFile.new mainVariables).2⟩
       "zz" "invalid MAC address" "300.1.1.1" "invalid IP address"
       (by decide) (by decide)).1⟩

/-! ## C22: the 16-bit accessors convert nothing -/

theorem storeU16_loadU16 (e : Endian) (b0 b1 : Byte) :
    storeU16 e (loadU16 e b0 b1) = ![b0, b1] := by
  have h0 := b0.isLt
  have h1 := b1.isLt
  cases e
  · funext i
    fin_cases i
    · apply Fin.ext
      simp [storeU16, loadU16, toByte, toU16]
      omega
    · apply Fin.ext
      simp [storeU16, loadU16, toByte, toU16]
      omega
  · funext i
    fin_cases i
    · apply Fin.ext
      simp [storeU16, loadU16, toByte, toU16]
      omega
    · apply Fin.ext
      simp [storeU16, loadU16, toByte, toU16]
      omega

/-- C22: the 16-bit decode accessors convert nothing. For every buffer and
either byte order of the host, the two bytes that the result of
`getFrameType`, `getHardType`, `getProtType` and `getOpcode` occupies in
memory are the wire bytes at offsets 12-13, 14-15, 16-17 and 20-21; and on a
little-endian host `getOpcode`, applied to the frame a sender encodes after
`setOpcode(v)`, returns the byte-swapped value `256 * (v mod 256) + v div 256`. -/
theorem decode_accessors_keep_wire_bytes (e : Endian) (s : ArpsocketBase)
    (sender receiver : Arpsocket) (v : U16) :
    storeU16 e (s.getFrameType e) = ![s.incoming 12, s.incoming 13] ∧
    storeU16 e (s.getHardType e) = ![s.incoming 14, s.incoming 15] ∧
    storeU16 e (s.getProtType e) = ![s.incoming 16, s.incoming 17] ∧
    storeU16 e (s.getOpcode e) = ![s.incoming 20, s.incoming 21] ∧
    ((deliver .little (sender.onBase (fun b => b.setOpcode .little v)) receiver).getOpcode
        .little).val = 256 * (v.val % 256) + v.val / 256 := by
  refine ⟨storeU16_loadU16 _ _ _, storeU16_loadU16 _ _ _, storeU16_loadU16 _ _ _,
    storeU16_loadU16 _ _ _, ?_⟩
  rw [(deliver_getters .little _ receiver).2.2.2.2.2.2.2.2.2]
  have hv := v.isLt
  simp only [Arpsocket.onBase, ArpsocketBase.setOpcode, htons, toU16_val]
  omega

/-! ## C23: the size accessors -/

/-- C23: the size accessors read two bytes. `getHardSize` returns the 16-bit
value stored at offsets 18 and 19 and `getProtSize` the one stored at offsets
19 and 20, so each result depends on the byte after its field. For a received
frame with hardware size 6, protocol size 4 and opcode 0x0100 (wire bytes
6, 4, 1, 0 at offsets 18 to 21), `getHardSize` returns 1030 on a little-endian
host and 1540 on a big-endian one, and `getProtSize` returns 260 and 1025;
changing only the byte at offset 19 changes the result of `getHardSize`. -/
theorem size_accessors_read_two_bytes :
    (∀ (s : ArpsocketBase),
      (s.getHardSize .little).val = (s.incoming 18).val + 256 * (s.incoming 19).val ∧
      (s.getHardSize .big).val = 256 * (s.incoming 18).val + (s.incoming 19).val ∧
      (s.getProtSize .little).val = (s.incoming 19).val + 256 * (s.incoming 20).val ∧
      (s.getProtSize .big).val = 256 * (s.incoming 19).val + (s.incoming 20).val) ∧
    (deliver .little
        ((Arpsocket.new .little dottedQuad zeroBuffer zeroBuffer []).onBase
          (fun b => b.setOpcode .little 0x0100))
        (Arpsocket.new .little dottedQuad zeroBuffer zeroBuffer [])).getHardSize .little
      = 1030 ∧
    (deliver .little
        ((Arpsocket.new .little dottedQuad zeroBuffer zeroBuffer []).onBase
          (fun b => b.setOpcode .little 0x0100))
        (Arpsocket.new .little dottedQuad zeroBuffer zeroBuffer [])).getProtSize .little
      = 260 ∧
    (deliver .big
        ((Arpsocket.new .big dottedQuad zeroBuffer zeroBuffer []).onBase
          (fun b => b.setOpcode .big 0x0100))
        (Arpsocket.new .big dottedQuad zeroBuffer zeroBuffer [])).getHardSize .big
      = 1540 ∧
    (deliver .big
        ((Arpsocket.new .big dottedQuad zeroBuffer zeroBuffer []).onBase
          (fun b => b.setOpcode .big 0x0100))
        (Arpsocket.new .big dottedQuad zeroBuffer zeroBuffer [])).getProtSize .big
      = 1025 ∧
    (ArpsocketBase.new (memcpy zeroBuffer (List.replicate 18 0 ++ [6, 4]) 20)).getHardSize
        .little
      ≠ (ArpsocketBase.new (memcpy zeroBuffer (List.replicate 18 0 ++ [6, 5]) 20)).getHardSize
        .little := by
  refine ⟨?_, by decide, by decide, by decide, by decide, by decide⟩
  intro s
  have h18 := (s.incoming 18).isLt
  have h19 := (s.incoming 19).isLt
  have h20 := (s.incoming 20).isLt
  refine ⟨?_, ?_, ?_, ?_⟩ <;>
    simp only [ArpsocketBase.getHardSize, ArpsocketBase.getProtSize, loadU16, toU16_val,
      HARD_SIZE, PROT_SIZE, show (18 + 1 : Nat) = 19 from rfl,
      show (19 + 1 : Nat) = 20 from rfl] <;> omega

/-! ## C24: a rejected frame -/

theorem Arpsocket.receiveTraced_reject (e : Endian) (s : Arpsocket) (data : List Byte)
    (h : applyFiltersLoop e (receivedFrame e data) s.filters = .ok false) :
    s.receiveTraced e (some data) = (.ok (-2), (s.receive e (some data)).2, [.recvfrom]) ∧
    (s.receive e (some data)).1 = .ok (-2) ∧
    (s.receive e (some data)).2.incomingQueue = s.incomingQueue ∧
    (s.receive e (some data)).2.running = s.running := by
  unfold receivedFrame at h
  unfold Arpsocket.receiveTraced Arpsocket.receive
  simp only [ArpsocketFiltered.applyFilters, h]
  refine ⟨?_, ?_, ?_, ?_⟩ <;> trivial

theorem receiveLoop_first_action (e : Endian) (strerror : String) (s : Arpsocket)
    (ev : LoopEvent) (rest : List LoopEvent) (hrun : s.running = true)
    (hsh : ev.shutdown = false) :
    (receiveLoop e strerror s (ev :: rest)).2.2.head? = some .select := by
  by_cases hs1 : ev.select = -1
  · rw [receiveLoop_select_error e strerror s ev _ hrun hsh hs1]
    rfl
  by_cases hs0 : ev.select = 0
  · rw [receiveLoop_timeout e strerror s ev _ hrun hsh hs0]
    rfl
  have ht := receiveTraced_eta e s ev.recvfrom
  cases hres : (s.receiveTraced e ev.recvfrom).1 with
  | error err =>
    rw [hres] at ht
    rw [receiveLoop_receive_raises e strerror s _ ev _ err _ hrun hsh ⟨hs1, hs0⟩ ht]
    rfl
  | ok ret =>
    rw [hres] at ht
    have hp := receiveLoop_received e strerror s _ ev rest ret _ hrun hsh ⟨hs1, hs0⟩ ht
    by_cases h2 : ret = -2
    · rw [hp.1 h2]; rfl
    by_cases h1 : ret = -1
    · rw [hp.2.1 h1]; rfl
    by_cases h0 : ret = 0
    · rw [hp.2.2.1 h0]; rfl
    by_cases hw : ev.write = -1
    · rw [hp.2.2.2.1 h2 h1 h0 hw]; rfl
    · rw [hp.2.2.2.2 h2 h1 h0 hw]; rfl

/-- C24: in a pass of the capture loop in which the worker is running, data
is ready, `recvfrom` delivers a datagram and the rule set rejects the received
frame, `receive` returns -2, the queue is as before, and the running flag is
still true; the actions of the pass are the select, the read and the pause,
with no lock taken and no `write`; and the loop goes on with the following
events, its next action (unless the control thread has called `shutdown()` in
between) being the next `select`. -/
theorem rejected_frame_is_skipped (e : Endian) (strerror : String) (s : Arpsocket)
    (ev : LoopEvent) (rest : List LoopEvent) (data : List Byte)
    (hrun : s.running = true) (hsh : ev.shutdown = false)
    (hsel : ev.select ≠ -1 ∧ ev.select ≠ 0) (hrecv : ev.recvfrom = some data)
    (hrej : applyFiltersLoop e (receivedFrame e data) s.filters = .ok false) :
    (s.receive e ev.recvfrom).1 = .ok (-2) ∧
    (s.receive e ev.recvfrom).2.incomingQueue = s.incomingQueue ∧
    (s.receive e ev.recvfrom).2.running = true ∧
    (receiveLoop e strerror s [ev]).1 = .pending ∧
    (receiveLoop e strerror s [ev]).2.2 = [.select, .recvfrom, .usleep 250] ∧
    receiveLoop e strerror s (ev :: rest)
      = ((receiveLoop e strerror (s.receive e ev.recvfrom).2 rest).1,
         (receiveLoop e strerror (s.receive e ev.recvfrom).2 rest).2.1,
         [.select, .recvfrom, .usleep 250] ++
           (receiveLoop e strerror (s.receive e ev.recvfrom).2 rest).2.2) ∧
    (∀ ev2 rest2, rest = ev2 :: rest2 → ev2.shutdown = false →
      (receiveLoop e strerror (s.receive e ev.recvfrom).2 rest).2.2.head? = some .select) := by
  obtain ⟨ht, hret, hq, hr⟩ := Arpsocket.receiveTraced_reject e s data hrej
  rw [← hrecv] at ht hret hq hr
  have hrun1 : (s.receive e ev.recvfrom).2.running = true := by rw [hr, hrun]
  have hpass := fun rest =>
    (receiveLoop_received e strerror s _ ev rest _ _ hrun hsh hsel ht).1 rfl
  refine ⟨hret, hq, hrun1, ?_, ?_, ?_, ?_⟩
  · rw [hpass []]
    simp [receiveLoop, hrun1]
  · rw [hpass []]
    simp [receiveLoop_nil_calls]
  · rw [hpass rest]
    simp
  · intro ev2 rest2 hrest hsh2
    rw [hrest]
    exact receiveLoop_first_action e strerror _ ev2 rest2 hrun1 hsh2

/-- Witness for C24: a 42-byte datagram of zeros on a fresh socket whose only
rule asks for hardware size 6. -/
theorem rejected_frame_is_skipped_witness :
    (Arpsocket.new .little dottedQuad zeroBuffer zeroBuffer
      [("hardSize", FilterValue.ofU8 (FilterValue.ofMAC (fun _ => 0)) 6)]).running = true ∧
    (receiveLoop .little "" (Arpsocket.new .little dottedQuad zeroBuffer zeroBuffer
        [("hardSize", FilterValue.ofU8 (FilterValue.ofMAC (fun _ => 0)) 6)])
        [⟨false, 1, some (List.replicate 42 0), 0, 1⟩]).2.2
      = [.select, .recvfrom, .usleep 250] :=
  ⟨rfl,
   (rejected_frame_is_skipped .little ""
      (Arpsocket.new .little dottedQuad zeroBuffer zeroBuffer
        [("hardSize", FilterValue.ofU8 (FilterValue.ofMAC (fun _ => 0)) 6)])
      ⟨false, 1, some (List.replicate 42 0), 0, 1⟩ [] (List.replicate 42 0)
      rfl rfl ⟨by decide, by decide⟩ rfl (by decide)).2.2.2.2.1⟩

/-! ## C25: the size rules registered by main -/

theorem FilterValue.bt_ofU16_htons (e : Endian) (junk : FilterValue) (v : U16) :
    (FilterValue.ofU16 e junk (htons e v)).bt = toByte (v.val / 256) := by
  have hv := v.isLt
  cases e
  · apply Fin.ext
    simp [FilterValue.bt, FilterValue.ofU16, storeU16, htons, toByte, toU16]
    omega
  · simp [FilterValue.bt, FilterValue.ofU16, storeU16, htons]

/-- C25 at a failing input: the configuration of `main` is loaded from a
script that sets `hardSizeFilter = 6` and no other filter. The filter map
that `main` builds holds the single rule `hardSize`, whose value was stored
through `htons` and the 16-bit constructor, so the byte the comparator reads
is 0: a received frame whose hardware-size byte is 6 is filtered out
(`receive` returns -2), and a frame whose hardware-size byte is 0 is accepted.
On either byte order, for every value `v` in 0..255 the byte that the
`hardSize` and `protSize` comparators read from the value stored by `main` is
0, so such a rule accepts a frame exactly when its size byte is 0. -/
theorem main_size_filter_compares_with_zero (e : Endian) (junk : FilterValue) (v : Byte)
    (p : ArpPkt) :
    (mainConfig (fun _ => "") ⟨0, 0, sampleGlobals⟩).1 = .ok () ∧
    mainFilterMap e sampleParseMAC sampleParseIp junk
        (mainConfig (fun _ => "") ⟨0, 0, sampleGlobals⟩).2
      = .ok [("hardSize", FilterValue.ofU16 e junk (htons e (castU16 6)))] ∧
    ((Arpsocket.new e dottedQuad zeroBuffer zeroBuffer
        [("hardSize", FilterValue.ofU16 e junk (htons e (castU16 6)))]).receive e
      (some (((Arpsocket.new e dottedQuad zeroBuffer zeroBuffer []).onBase
        (fun b => b.setHardSize 6)).sendBuffer e))).1 = .ok (-2) ∧
    ((Arpsocket.new e dottedQuad zeroBuffer zeroBuffer
        [("hardSize", FilterValue.ofU16 e junk (htons e (castU16 6)))]).receive e
      (some (((Arpsocket.new e dottedQuad zeroBuffer zeroBuffer []).onBase
        (fun b => b.setHardSize 0)).sendBuffer e))).1 = .ok 42 ∧
    (FilterValue.ofU16 e junk (htons e (castU16 v.val))).bt = 0 ∧
    applyFiltersLoop e p [("hardSize", FilterValue.ofU16 e junk (htons e (castU16 v.val)))]
      = .ok (decide (p.hardSize = 0)) ∧
    applyFiltersLoop e p [("protSize", FilterValue.ofU16 e junk (htons e (castU16 v.val)))]
      = .ok (decide (p.protSize = 0)) := by
  have hv := v.isLt
  have hbt : ∀ w : Byte, (FilterValue.ofU16 e junk (htons e (castU16 w.val))).bt = 0 := by
    intro w
    have hw := w.isLt
    rw [FilterValue.bt_ofU16_htons]
    apply Fin.ext
    simp only [toByte_val, castU16_val]
    show (((w.val : Int) % 65536).toNat) / 256 % 256 = 0
    omega
  have h6 : (FilterValue.ofU16 e junk (htons e (castU16 6))).bt = 0 := hbt 6
  have hrule : ∀ (q : ArpPkt) (ft : FilterValue), ft.bt = 0 →
      applyFiltersLoop e q [("hardSize", ft)] = .ok (decide (q.hardSize = 0)) ∧
      applyFiltersLoop e q [("protSize", ft)] = .ok (decide (q.protSize = 0)) := by
    intro q ft hft
    constructor
    · by_cases hq : q.hardSize = 0
      · simp [applyFiltersLoop, filterActions, hft, hq]
      · have hq2 : ¬ (0 : Byte) = q.hardSize := fun h => hq h.symm
        simp [applyFiltersLoop, filterActions, hft, hq, hq2]
    · by_cases hq : q.protSize = 0
      · simp [applyFiltersLoop, filterActions, hft, hq]
      · have hq2 : ¬ (0 : Byte) = q.protSize := fun h => hq h.symm
        simp [applyFiltersLoop, filterActions, hft, hq, hq2]
  refine ⟨by decide, ?_, ?_, ?_, hbt v, (hrule p _ (hbt v)).1, (hrule p _ (hbt v)).2⟩
  · rfl
  · have hlen : (((Arpsocket.new e dottedQuad zeroBuffer zeroBuffer []).onBase
        (fun b => b.setHardSize 6)).sendBuffer e).length ≤ IP_MAXPACKET := by
      rw [Arpsocket.sendBuffer_eq, ArpPkt.toBytes_length]
      decide
    refine ((Arpsocket.receive_some e _ _ hlen).2.2.2.1 ?_).1
    refine ((hrule _ _ h6).1).trans ?_
    have hq : (ArpPkt.ofBuffer e (fun i =>
        (((Arpsocket.new e dottedQuad zeroBuffer zeroBuffer []).onBase
          (fun b => b.setHardSize 6)).sendBuffer e).getD i 0)).hardSize = 6 := by
      rw [Arpsocket.sendBuffer_eq]
      simp [ArpPkt.ofBuffer, ArpPkt.toBytes, List.ofFn_succ, Arpsocket.onBase,
        ArpsocketBase.setHardSize]
    rw [hq]
    rfl
  · have hlen : (((Arpsocket.new e dottedQuad zeroBuffer zeroBuffer []).onBase
        (fun b => b.setHardSize 0)).sendBuffer e).length ≤ IP_MAXPACKET := by
      rw [Arpsocket.sendBuffer_eq, ArpPkt.toBytes_length]
      decide
    have hl42 : (((Arpsocket.new e dottedQuad zeroBuffer zeroBuffer []).onBase
        (fun b => b.setHardSize 0)).sendBuffer e).length = 42 := by
      rw [Arpsocket.sendBuffer_eq, ArpPkt.toBytes_length]
    have hacc := ((Arpsocket.receive_some e
      (Arpsocket.new e dottedQuad zeroBuffer zeroBuffer
        [("hardSize", FilterValue.ofU16 e junk (htons e (castU16 6)))]) _ hlen).2.2.2.2 ?_).1
    · rw [hacc, hl42]
      rfl
    · refine ((hrule _ _ h6).1).trans ?_
      have hq : (ArpPkt.ofBuffer e (fun i =>
          (((Arpsocket.new e dottedQuad zeroBuffer zeroBuffer []).onBase
            (fun b => b.setHardSize 0)).sendBuffer e).getD i 0)).hardSize = 0 := by
        rw [Arpsocket.sendBuffer_eq]
        simp [ArpPkt.ofBuffer, ArpPkt.toBytes, List.ofFn_succ, Arpsocket.onBase,
          ArpsocketBase.setHardSize]
      rw [hq]
      rfl

/-! ## C26: what is done while the mutex is held -/

theorem receiveTraced_calls_shape (e : Endian) (s : Arpsocket) (r : Option (List Byte)) :
    (s.receiveTraced e r).2.2 = [.recvfrom] ∨
    (s.receiveTraced e r).2.2 = [.recvfrom, .lock, .unlock] := by
  unfold Arpsocket.receiveTraced
  cases r with
  | none => simp
  | some data =>
    simp only
    split <;> simp

theorem heldActions_connectLoop (connect : Nat → Int) (retry attempt : Nat)
    (tail : List Action) :
    heldActions false ((connectLoop connect retry attempt).2 ++ tail) = heldActions false tail ∧
    ((connectLoop connect retry attempt).2 ++ tail).filter Action.isWrite
      = tail.filter Action.isWrite := by
  induction retry generalizing attempt with
  | zero => simp [connectLoop]
  | succ n ih =>
    unfold connectLoop
    by_cases h : connect attempt ≠ -1
    · simp [h, heldActions, Action.isWrite]
    · simp only [h, if_false, List.append_assoc, List.cons_append, List.nil_append]
      simp only [heldActions, Bool.false_eq_true, if_false, List.filter_cons, Action.isWrite]
      exact ih (attempt + 1)

theorem heldActions_receiveLoop (e : Endian) (strerror : String) (evs : List LoopEvent)
    (s : Arpsocket) :
    heldActions false (receiveLoop e strerror s evs).2.2
      = (receiveLoop e strerror s evs).2.2.filter Action.isWrite := by
  induction evs generalizing s with
  | nil => simp [receiveLoop_nil_calls, heldActions]
  | cons ev rest ih =>
    cases hsh : ev.shutdown
    case true => simp [receiveLoop_shutdown e strerror s ev _ hsh, heldActions]
    case false =>
      cases hrun : s.running
      case false => simp [receiveLoop_stopped e strerror s _ hrun, heldActions]
      case true =>
        by_cases hs1 : ev.select = -1
        · simp [receiveLoop_select_error e strerror s ev _ hrun hsh hs1, heldActions,
            Action.isWrite]
        by_cases hs0 : ev.select = 0
        · rw [receiveLoop_timeout e strerror s ev _ hrun hsh hs0]
          simp [heldActions, Action.isWrite, ih]
        have ht := receiveTraced_eta e s ev.recvfrom
        have hc := receiveTraced_calls_shape e s ev.recvfrom
        cases hres : (s.receiveTraced e ev.recvfrom).1 with
        | error err =>
          rw [hres] at ht
          rw [receiveLoop_receive_raises e strerror s _ ev _ err _ hrun hsh ⟨hs1, hs0⟩ ht]
          rcases hc with hc | hc <;> simp [hc, heldActions, Action.isWrite]
        | ok ret =>
          rw [hres] at ht
          have hp := receiveLoop_received e strerror s _ ev rest ret _ hrun hsh ⟨hs1, hs0⟩ ht
          by_cases h2 : ret = -2
          · rw [hp.1 h2]
            rcases hc with hc | hc <;> simp [hc, heldActions, Action.isWrite, ih]
          by_cases h1 : ret = -1
          · rw [hp.2.1 h1]
            rcases hc with hc | hc <;> simp [hc, heldActions, Action.isWrite]
          by_cases h0 : ret = 0
          · rw [hp.2.2.1 h0]
            rcases hc with hc | hc <;> simp [hc, heldActions, Action.isWrite]
          by_cases hw : ev.write = -1
          · rw [hp.2.2.2.1 h2 h1 h0 hw]
            rcases hc with hc | hc <;> simp [hc, heldActions, Action.isWrite]
          · rw [hp.2.2.2.2 h2 h1 h0 hw]
            rcases hc with hc | hc <;> simp [hc, heldActions, Action.isWrite, ih]

/-- C26, as stated, fails: on a fresh socket without rules, a worker that
reads one 42-byte frame performs the notification `write` of the text "1"
between taking and releasing `queueMtx`. -/
theorem write_under_lock_counterexample :
    ((Arpsocket.new .little dottedQuad zeroBuffer zeroBuffer []).receiveAll .little ""
      ⟨3, fun _ => 0, [⟨false, 1, some (List.replicate 42 0), 0, 1⟩]⟩).calls
      = [.socket, .connect, .select, .recvfrom, .lock, .unlock, .lock, .write "1", .unlock,
          .usleep 250] ∧
    heldActions false
      ((Arpsocket.new .little dottedQuad zeroBuffer zeroBuffer []).receiveAll .little ""
        ⟨3, fun _ => 0, [⟨false, 1, some (List.replicate 42 0), 0, 1⟩]⟩).calls
      = [.write "1"] := by
  decide

/-- C26 as amended: in every execution of the capture worker, the actions
performed between acquiring and releasing `queueMtx` are exactly the
notification-channel writes of the execution, in order. So no `recvfrom`, no
`select`, no `socket`, no `connect` and no pause is performed while the lock
is held, and every notification `write` is performed while the lock is held. -/
theorem lock_held_across_writes_only (e : Endian) (strerror : String) (s : Arpsocket)
    (env : WorkerEnv) :
    heldActions false (s.receiveAll e strerror env).calls
      = (s.receiveAll e strerror env).calls.filter Action.isWrite ∧
    Action.recvfrom ∉ heldActions false (s.receiveAll e strerror env).calls ∧
    Action.select ∉ heldActions false (s.receiveAll e strerror env).calls ∧
    (∀ msg, Action.write msg ∈ (s.receiveAll e strerror env).calls →
      Action.write msg ∈ heldActions false (s.receiveAll e strerror env).calls) := by
  have key : heldActions false (s.receiveAll e strerror env).calls
      = (s.receiveAll e strerror env).calls.filter Action.isWrite := by
    have e1 : ∀ l, heldActions false (Action.socket :: l) = heldActions false l :=
      fun l => by simp [heldActions]
    have e2 : ∀ l : List Action,
        (Action.socket :: l).filter Action.isWrite = l.filter Action.isWrite :=
      fun l => by simp [Action.isWrite]
    by_cases h1 : env.socket = -1
    · rw [receiveAll_socket_fail e strerror s env h1]
      simp [WorkerOutcome.calls, heldActions, Action.isWrite]
    by_cases h2 : (connectLoop env.connect 5 0).1 = -1
    · rw [receiveAll_connect_fail e strerror s env h1 h2]
      have hc := heldActions_connectLoop env.connect 5 0 []
      simp only [List.append_nil] at hc
      simp only [WorkerOutcome.calls]
      rw [e1, e2, hc.1, hc.2]
      simp [heldActions]
    · rw [(receiveAll_loop e strerror s env h1 h2).1]
      have hc := heldActions_connectLoop env.connect 5 0
        (receiveLoop e strerror { s with udsfd := env.socket } env.loop).2.2
      rw [List.cons_append, e1, e2, hc.1, hc.2]
      exact heldActions_receiveLoop e strerror env.loop _
  refine ⟨key, ?_, ?_, ?_⟩
  · rw [key]
    simp [Action.isWrite]
  · rw [key]
    simp [Action.isWrite]
  · intro msg hmem
    rw [key]
    simp [Action.isWrite, hmem]

/-! ## C27: a lone targetIp rule -/

/-- C27: a rule set that holds only a `targetIp` rule with value `a` accepts
the last received frame exactly when the frame's sender address equals `a`;
the target address of the frame plays no part, so two frames that differ only
in their target address get the same verdict. -/
theorem targetIp_rule_decided_by_senderIp (e : Endian) (s : ArpsocketFiltered)
    (junk : FilterValue) (a x : IpAddr) :
    ({ s with filters := [("targetIp", FilterValue.ofIp junk a)] }
      : ArpsocketFiltered).applyFilters e = .ok (decide (s.lastPacketRecv.senderIp = a)) ∧
    ({ s with filters := [("targetIp", FilterValue.ofIp junk a)],
              lastPacketRecv := { s.lastPacketRecv with targetIp := x } }
      : ArpsocketFiltered).applyFilters e
      = ({ s with filters := [("targetIp", FilterValue.ofIp junk a)] }
          : ArpsocketFiltered).applyFilters e := by
  have h1 := (single_address_rule e s junk (fun _ => 0) a).2.2.2
  have h2 := (single_address_rule e
    { s with lastPacketRecv := { s.lastPacketRecv with targetIp := x } } junk (fun _ => 0) a).2.2.2
  exact ⟨h1, h2.trans h1.symm⟩

/-! ## C28: the running flag is never set again -/

theorem receiveAll_stopped (e : Endian) (strerror : String) (s : Arpsocket) (env : WorkerEnv)
    (h : s.running = false) :
    (s.receiveAll e strerror env).hasReturned = true ∧
    Action.select ∉ (s.receiveAll e strerror env).calls ∧
    Action.recvfrom ∉ (s.receiveAll e strerror env).calls ∧
    (s.receiveAll e strerror env).state.incomingQueue = s.incomingQueue ∧
    (s.receiveAll e strerror env).state.running = false := by
  have hrun : ({ s with udsfd := env.socket } : Arpsocket).running = false := h
  have hcl : ∀ a ∈ (connectLoop env.connect 5 0).2, a ≠ Action.select ∧ a ≠ Action.recvfrom := by
    intro a ha
    rcases connectLoop_actions env.connect 5 0 a ha with h | h <;> subst h <;> simp
  by_cases h1 : env.socket = -1
  · rw [receiveAll_socket_fail e strerror _ env h1]
    simp [WorkerOutcome.hasReturned, WorkerOutcome.calls, WorkerOutcome.state]
  by_cases h2 : (connectLoop env.connect 5 0).1 = -1
  · rw [receiveAll_connect_fail e strerror _ env h1 h2]
    refine ⟨rfl, ?_, ?_, rfl, rfl⟩
    · intro hmem
      rcases List.mem_cons.mp hmem with h | h
      · cases h
      · exact (hcl _ h).1 rfl
    · intro hmem
      rcases List.mem_cons.mp hmem with h | h
      · cases h
      · exact (hcl _ h).2 rfl
  · have hl := receiveLoop_stopped e strerror _ env.loop hrun
    unfold Arpsocket.receiveAll
    simp only [if_neg h1, if_neg h2, hl]
    refine ⟨rfl, ?_, ?_, rfl, rfl⟩
    · intro hmem
      simp only [WorkerOutcome.calls, List.append_nil] at hmem
      rcases List.mem_cons.mp hmem with h | h
      · cases h
      · exact (hcl _ h).1 rfl
    · intro hmem
      simp only [WorkerOutcome.calls, List.append_nil] at hmem
      rcases List.mem_cons.mp hmem with h | h
      · cases h
      · exact (hcl _ h).2 rfl

theorem Arpsocket.receive_running (e : Endian) (s : Arpsocket) (r : Option (List Byte)) :
    (s.receive e r).2.running = s.running := by
  unfold Arpsocket.receive
  cases r with
  | none => rfl
  | some data =>
    simp only
    split <;> rfl

theorem Arpsocket.popPacket_running (s : Arpsocket) : s.popPacket.2.running = s.running := by
  unfold Arpsocket.popPacket
  simp only
  split <;> rfl

theorem Arpsocket.send_running (e : Endian) (s : Arpsocket) (bytesSent : Int)
    (strerror : String) : (s.send e bytesSent strerror).2.running = s.running := by
  unfold Arpsocket.send
  simp only
  split <;> rfl

theorem Arpsocket.startReceiverThread_running (s : Arpsocket) (created : Option Nat) :
    (s.startReceiverThread created).2.1.running = s.running := by
  cases created <;> rfl

theorem applyLifeOp_stopped (e : Endian) (strerror : String) (s : Arpsocket) (op : LifeOp)
    (h : s.running = false) : (applyLifeOp e strerror s op).running = false := by
  cases op with
  | shutdown => rfl
  | startReceiverThread created =>
    exact (Arpsocket.startReceiverThread_running s created).trans h
  | receiveAll env => exact (receiveAll_stopped e strerror s env h).2.2.2.2
  | receive r => exact (Arpsocket.receive_running e s r).trans h
  | popPacket => exact (Arpsocket.popPacket_running s).trans h
  | send bytesSent => exact (Arpsocket.send_running e s bytesSent strerror).trans h

theorem runLifeOps_stopped (e : Endian) (strerror : String) (ops : List LifeOp) (s : Arpsocket)
    (h : s.running = false) : (runLifeOps e strerror s ops).running = false := by
  induction ops generalizing s with
  | nil => exact h
  | cons op rest ih => exact ih _ (applyLifeOp_stopped e strerror s op h)

/-- C28: the running flag is true after construction, and no call of
`shutdown`, `startReceiverThread`, `receiveAll`, `receive`, `popPacket` or
`send` changes it from false to true: when it is false before a call, or
before any run of such calls, it is false afterwards. `shutdown()` leaves it
false and so does every run of `receiveAll` that returns. Hence on an object
whose flag is false, after any run of further calls, a worker returns without
entering its loop: it performs no `select` and no `recvfrom` and leaves the
queue as it found it. -/
theorem running_flag_never_set_again (e : Endian) (strerror : String) (inet_pton : InetPton)
    (incoming etherFrame : ArpBuffer) (filt : FilterMap) (s : Arpsocket) (ops : List LifeOp)
    (env : WorkerEnv) (h : s.running = false) :
    (Arpsocket.new e inet_pton incoming etherFrame filt).running = true ∧
    (∀ op, (applyLifeOp e strerror s op).running = false) ∧
    (runLifeOps e strerror s ops).running = false ∧
    (∀ t : Arpsocket, t.shutdown.running = false) ∧
    (∀ (t : Arpsocket) (env0 : WorkerEnv), (t.receiveAll e strerror env0).hasReturned = true →
      (t.receiveAll e strerror env0).state.running = false) ∧
    ((runLifeOps e strerror s ops).receiveAll e strerror env).hasReturned = true ∧
    Action.select ∉ ((runLifeOps e strerror s ops).receiveAll e strerror env).calls ∧
    Action.recvfrom ∉ ((runLifeOps e strerror s ops).receiveAll e strerror env).calls ∧
    ((runLifeOps e strerror s ops).receiveAll e strerror env).state.incomingQueue
      = (runLifeOps e strerror s ops).incomingQueue := by
  have hr := runLifeOps_stopped e strerror ops s h
  obtain ⟨h1, h2, h3, h4, _⟩ := receiveAll_stopped e strerror _ env hr
  exact ⟨rfl, fun op => applyLifeOp_stopped e strerror s op h, hr, fun _ => rfl,
    fun t env0 => receiveAll_returned_stopped e strerror t env0, h1, h2, h3, h4⟩

/-- Witness for C28: a fresh socket on which `shutdown()` was called, then a
start; the worker, whose environment has a frame ready, returns. -/
theorem running_flag_never_set_again_witness :
    (Arpsocket.new .little dottedQuad zeroBuffer zeroBuffer []).shutdown.running = false ∧
    ((runLifeOps .little "" (Arpsocket.new .little dottedQuad zeroBuffer zeroBuffer []).shutdown
        [.startReceiverThread (some 1)]).receiveAll .little ""
      ⟨3, fun _ => 0, [⟨false, 1, some (List.replicate 42 0), 0, 1⟩]⟩).hasReturned = true :=
  ⟨rfl,
   (running_flag_never_set_again .little "" dottedQuad zeroBuffer zeroBuffer []
      (Arpsocket.new .little dottedQuad zeroBuffer zeroBuffer []).shutdown
      [.startReceiverThread (some 1)]
      ⟨3, fun _ => 0, [⟨false, 1, some (List.replicate 42 0), 0, 1⟩]⟩ rfl).2.2.2.2.2.1⟩

/-! ## C29: loadConfig -/

theorem ConfigFile.loadVar_ok (to_string : Double → String) (globals : String → LuaValue)
    (key : String) (v w : ConfigVar) (h : ConfigFile.loadVar to_string globals key v = .ok w) :
    w.isEmpty = false ∧ w.type = v.type ∧ w.optional = v.optional ∧
    (globals key).isnil = false ∧
    (v.type = .BOOLEAN → w.getBool = .ok (globals key).toboolean) ∧
    (v.type = .INTEGER →
      ∃ n, (globals key).tointegerx = some n ∧ w.getInteger = .ok n) ∧
    (v.type = .FLOATING_POINT →
      ∃ f, (globals key).tonumberx = some f ∧ w.getFloat = .ok f) ∧
    (v.type = .TEXT →
      (globals key).isstring = true ∧ w.getText = .ok (globals key).tostring) := by
  unfold ConfigFile.loadVar ConfigVar.getDataType at h
  cases ht : v.type <;> simp only [ht] at h
  · -- BOOLEAN
    unfold ConfigFile.loadBool at h
    cases hn : (globals key).isnil <;> simp [hn, ConfigVar.setBool, ht] at h
    subst h
    simp [ConfigVar.setEmpty, ConfigVar.isEmpty, ConfigVar.getBool, ht]
  · -- INTEGER
    unfold ConfigFile.loadInteger at h
    cases hn : (globals key).isnil <;> simp [hn] at h
    cases hi : (globals key).tointegerx <;> simp [hi, ConfigVar.setInteger, ht] at h
    subst h
    simp [ConfigVar.setEmpty, ConfigVar.isEmpty, ConfigVar.getInteger, ht]
  · -- FLOATING_POINT
    unfold ConfigFile.loadFloat at h
    cases hn : (globals key).isnil <;> simp [hn] at h
    cases hi : (globals key).tonumberx <;> simp [hi, ConfigVar.setFloat, ht] at h
    subst h
    simp [ConfigVar.setEmpty, ConfigVar.isEmpty, ConfigVar.getFloat, ht]
  · -- TEXT
    unfold ConfigFile.loadString at h
    cases hn : (globals key).isnil <;> simp [hn] at h
    cases hs : (globals key).isstring <;> simp [hs, ConfigVar.setText, ht] at h
    subst h
    simp [ConfigVar.setEmpty, ConfigVar.isEmpty, ConfigVar.getText, ht]

theorem ConfigFile.loadVar_error_iff (to_string : Double → String)
    (globals : String → LuaValue) (key : String) (v : ConfigVar) :
    (∃ ex, ConfigFile.loadVar to_string globals key v = .error ex) ↔
      ((globals key).isnil = true ∨
       (v.type = .INTEGER ∧ (globals key).tointegerx = none) ∨
       (v.type = .FLOATING_POINT ∧ (globals key).tonumberx = none) ∨
       (v.type = .TEXT ∧ (globals key).isstring = false)) := by
  unfold ConfigFile.loadVar ConfigVar.getDataType
  cases ht : v.type <;> simp only
  · unfold ConfigFile.loadBool
    cases hn : (globals key).isnil <;> simp [hn, ConfigVar.setBool, ht]
  · unfold ConfigFile.loadInteger
    cases hn : (globals key).isnil <;> simp [hn]
    cases hi : (globals key).tointegerx <;> simp [hi, ConfigVar.setInteger, ht]
  · unfold ConfigFile.loadFloat
    cases hn : (globals key).isnil <;> simp [hn]
    cases hi : (globals key).tonumberx <;> simp [hi, ConfigVar.setFloat, ht]
  · unfold ConfigFile.loadString
    cases hn : (globals key).isnil <;> simp [hn]
    cases hs : (globals key).isstring <;> simp [hs, ConfigVar.setText, ht]

theorem ConfigFile.loadLoop_spec (to_string : Double → String) (globals : String → LuaValue)
    (env : List (String × ConfigVar)) :
    ((∃ ex, (ConfigFile.loadLoop to_string globals env).1 = .error ex) ↔
      ∃ kv ∈ env, kv.2.optional = false ∧
        ∃ ex, ConfigFile.loadVar to_string globals kv.1 kv.2 = .error ex) ∧
    ((ConfigFile.loadLoop to_string globals env).1 = .ok () →
      (ConfigFile.loadLoop to_string globals env).2
        = env.map (loadedEntry to_string globals)) ∧
    (ConfigFile.loadLoop to_string globals env).2.map (fun kv => (kv.1, kv.2.type, kv.2.optional))
      = env.map (fun kv => (kv.1, kv.2.type, kv.2.optional)) := by
  induction env with
  | nil => simp [ConfigFile.loadLoop]
  | cons kv rest ih =>
    obtain ⟨key, value⟩ := kv
    obtain ⟨ih1, ih2, ih3⟩ := ih
    cases hl : ConfigFile.loadVar to_string globals key value with
    | ok v =>
      have hv := ConfigFile.loadVar_ok to_string globals key value v hl
      simp only [ConfigFile.loadLoop, hl]
      refine ⟨?_, ?_, ?_⟩
      · rw [ih1]
        simp [hl]
      · intro h
        simp [loadedEntry, hl, ih2 h]
      · simp [ih3, hv.2.1, hv.2.2.1]
    | error ex =>
      cases ho : value.optional
      · simp only [ConfigFile.loadLoop, hl, ConfigVar.isOptional, ho]
        refine ⟨?_, ?_, ?_⟩
        · simp [hl, ho]
        · intro h
          simp at h
        · simp
      · simp only [ConfigFile.loadLoop, hl, ConfigVar.isOptional, ho]
        refine ⟨?_, ?_, ?_⟩
        · simp only [Bool.not_true, Bool.false_eq_true, if_false]
          rw [ih1]
          simp [ho]
        · intro h
          simp only [Bool.not_true, Bool.false_eq_true, if_false] at h ⊢
          simp [loadedEntry, hl, ih2 h]
        · simp [ih3]

/-- C29: for every set of registered variables and every assignment of the
script's globals, once the file has been loaded and run, `loadConfig` raises
exactly when some non-optional variable fails to load, and a variable fails
to load exactly when its global is nil or cannot be converted to the
variable's type. When `loadConfig` returns, every variable whose load
succeeded (every non-optional one, and each optional one whose global is
present and loadable) is non-empty and holds the loaded value, and every
other variable, which is then optional, is exactly as it was, so still empty
with its initial value. Whether `loadConfig` returns or raises, the names,
the type tags and the optional flags are as before, and no setter of
`ConfigVar` changes the type tag. The variables that `main` registers are all
empty before the load. -/
theorem loadConfig_loads_or_raises (to_string : Double → String) (c : ConfigFile)
    (run : LuaRun) (hfile : run.loadfile = 0) (hcall : run.pcall = 0) :
    ((∃ ex, (c.loadConfig to_string run).1 = .error ex) ↔
      ∃ kv ∈ c.configEnv, kv.2.optional = false ∧
        ∃ ex, ConfigFile.loadVar to_string run.globals kv.1 kv.2 = .error ex) ∧
    (∀ key v, (∃ ex, ConfigFile.loadVar to_string run.globals key v = .error ex) ↔
      ((run.globals key).isnil = true ∨
       (v.type = .INTEGER ∧ (run.globals key).tointegerx = none) ∨
       (v.type = .FLOATING_POINT ∧ (run.globals key).tonumberx = none) ∨
       (v.type = .TEXT ∧ (run.globals key).isstring = false))) ∧
    ((c.loadConfig to_string run).1 = .ok () →
      (c.loadConfig to_string run).2.configEnv
        = c.configEnv.map (loadedEntry to_string run.globals)) ∧
    (∀ kv w, ConfigFile.loadVar to_string run.globals kv.1 kv.2 = .ok w →
      loadedEntry to_string run.globals kv = (kv.1, w) ∧
      w.isEmpty = false ∧ w.type = kv.2.type ∧ w.optional = kv.2.optional ∧
      (kv.2.type = .BOOLEAN → w.getBool = .ok (run.globals kv.1).toboolean) ∧
      (kv.2.type = .INTEGER →
        ∃ n, (run.globals kv.1).tointegerx = some n ∧ w.getInteger = .ok n) ∧
      (kv.2.type = .FLOATING_POINT →
        ∃ f, (run.globals kv.1).tonumberx = some f ∧ w.getFloat = .ok f) ∧
      (kv.2.type = .TEXT →
        (run.globals kv.1).isstring = true ∧ w.getText = .ok (run.globals kv.1).tostring)) ∧
    (∀ kv ex, ConfigFile.loadVar to_string run.globals kv.1 kv.2 = .error ex →
      loadedEntry to_string run.globals kv = kv) ∧
    (c.loadConfig to_string run).2.configEnv.map (fun kv => (kv.1, kv.2.type, kv.2.optional))
      = c.configEnv.map (fun kv => (kv.1, kv.2.type, kv.2.optional)) ∧
    (∀ (v w : ConfigVar) (t : String) (f : Double) (n : Int) (b : Bool),
      (v.setText t = .ok w → w.type = v.type) ∧
      (v.setFloat to_string f = .ok w → w.type = v.type) ∧
      (v.setInteger n = .ok w → w.type = v.type) ∧
      (v.setBool b = .ok w → w.type = v.type) ∧
      (v.setEmpty b).type = v.type ∧ (v.setOptional b).type = v.type) ∧
    (∀ kv ∈ (registerAll ConfigFile.new mainVariables).2.configEnv, kv.2.isEmpty = true) := by
  have hl := ConfigFile.loadLoop_spec to_string run.globals c.configEnv
  have hc : c.loadConfig to_string run
      = ((ConfigFile.loadLoop to_string run.globals c.configEnv).1,
          ⟨(ConfigFile.loadLoop to_string run.globals c.configEnv).2⟩) := by
    simp [ConfigFile.loadConfig, hfile, hcall]
  rw [hc]
  refine ⟨hl.1, fun key v => ConfigFile.loadVar_error_iff to_string run.globals key v, hl.2.1,
    ?_, ?_, hl.2.2, ?_, by decide⟩
  · intro kv w hw
    obtain ⟨h1, h2, h3, _, h5, h6, h7, h8⟩ :=
      ConfigFile.loadVar_ok to_string run.globals kv.1 kv.2 w hw
    exact ⟨by simp [loadedEntry, hw], h1, h2, h3, h5, h6, h7, h8⟩
  · intro kv ex hex
    simp [loadedEntry, hex]
  · intro v w t f n b
    refine ⟨?_, ?_, ?_, ?_, rfl, rfl⟩
    · intro h
      unfold ConfigVar.setText at h
      split at h
      · cases h; rfl
      · cases h
    · intro h
      unfold ConfigVar.setFloat at h
      split at h
      · cases h; rfl
      · cases h
    · intro h
      unfold ConfigVar.setInteger at h
      split at h
      · cases h; rfl
      · cases h
    · intro h
      unfold ConfigVar.setBool at h
      split at h
      · cases h; rfl
      · cases h

/-- Witness for C29: the variables that `main` registers, loaded from a
script that assigns the mandatory variables and one optional filter: the load
returns, the optional `hardSizeFilter` is non-empty and holds 6, and the
optional `protSizeFilter`, whose global is absent, is still empty. -/
theorem loadConfig_loads_or_raises_witness :
    ((registerAll ConfigFile.new mainVariables).2.loadConfig (fun _ => "")
        ⟨0, 0, sampleGlobals⟩).1 = .ok () ∧
    ((registerAll ConfigFile.new mainVariables).2.loadConfig (fun _ => "")
        ⟨0, 0, sampleGlobals⟩).2.configEnv
      = (registerAll ConfigFile.new mainVariables).2.configEnv.map
          (loadedEntry (fun _ => "") sampleGlobals) ∧
    (((registerAll ConfigFile.new mainVariables).2.loadConfig (fun _ => "")
        ⟨0, 0, sampleGlobals⟩).2.getConf "hardSizeFilter").map
          (fun v => (v.isEmpty, v.getInteger)) = .ok (false, .ok 6) ∧
    (((registerAll ConfigFile.new mainVariables).2.loadConfig (fun _ => "")
        ⟨0, 0, sampleGlobals⟩).2.getConf "protSizeFilter").map
          (fun v => (v.isEmpty, v.getInteger)) = .ok (true, .ok 0) :=
  ⟨by decide,
   (loadConfig_loads_or_raises (fun _ => "") (registerAll ConfigFile.new mainVariables).2
      ⟨0, 0, sampleGlobals⟩ rfl rfl).2.2.1 (by decide),
   by decide, by decide⟩

/-! ## C30: each setter writes its own field -/

/-- C30: each setter changes only its own field. For every frame held by a
socket and each of the twelve setters, the encoded bytes before the field's
offset and from the end of the field on are the same before and after the
call (for `setSrcIp` and `setDestIp` whatever the text, also one that
`inet_pton` rejects); and after `setAllDestMAC(m)` the image has its 42
bytes, bytes 0 to 5 and bytes 32 to 37 hold `m`, and bytes 6 to 31 and 38 to
41 are as before. -/
theorem setter_changes_only_its_field (e : Endian) (inet_pton : InetPton) (s : Arpsocket)
    (m : MacAddr) (v : U16) (b : Byte) (text : String) :
    sameOutside ((s.onBase (fun x => x.setDestHdrMAC m)).sendBuffer e) (s.sendBuffer e)
      IPHDR_DEST_MAC 6 ∧
    sameOutside ((s.onBase (fun x => x.setSrcHdrMAC m)).sendBuffer e) (s.sendBuffer e)
      IPHDR_SRC_MAC 6 ∧
    sameOutside ((s.onBase (fun x => x.setFrameType e v)).sendBuffer e) (s.sendBuffer e)
      FRAME_TYPE 2 ∧
    sameOutside ((s.onBase (fun x => x.setHardType e v)).sendBuffer e) (s.sendBuffer e)
      HARD_TYPE 2 ∧
    sameOutside ((s.onBase (fun x => x.setProtType e v)).sendBuffer e) (s.sendBuffer e)
      PROT_TYPE 2 ∧
    sameOutside ((s.onBase (fun x => x.setHardSize b)).sendBuffer e) (s.sendBuffer e)
      HARD_SIZE 1 ∧
    sameOutside ((s.onBase (fun x => x.setProtSize b)).sendBuffer e) (s.sendBuffer e)
      PROT_SIZE 1 ∧
    sameOutside ((s.onBase (fun x => x.setOpcode e v)).sendBuffer e) (s.sendBuffer e)
      OP_SIZE 2 ∧
    sameOutside ((s.onBase (fun x => x.setSrcMAC m)).sendBuffer e) (s.sendBuffer e)
      SENDER_MAC 6 ∧
    sameOutside ((s.onBase (fun x => x.setSrcIp inet_pton text)).sendBuffer e) (s.sendBuffer e)
      SENDER_IP 4 ∧
    sameOutside ((s.onBase (fun x => x.setDestMAC m)).sendBuffer e) (s.sendBuffer e)
      DEST_MAC 6 ∧
    sameOutside ((s.onBase (fun x => x.setDestIp inet_pton text)).sendBuffer e) (s.sendBuffer e)
      DEST_IP 4 ∧
    ((s.onBase (fun x => x.setAllDestMAC m)).sendBuffer e).length = 42 ∧
    slice ((s.onBase (fun x => x.setAllDestMAC m)).sendBuffer e) 0 6 = List.ofFn m ∧
    slice ((s.onBase (fun x => x.setAllDestMAC m)).sendBuffer e) 32 6 = List.ofFn m ∧
    slice ((s.onBase (fun x => x.setAllDestMAC m)).sendBuffer e) 6 26
      = slice (s.sendBuffer e) 6 26 ∧
    slice ((s.onBase (fun x => x.setAllDestMAC m)).sendBuffer e) 38 4
      = slice (s.sendBuffer e) 38 4 := by
  simp only [Arpsocket.sendBuffer_eq, sameOutside, Arpsocket.onBase]
  refine ⟨?_, ?_, ?_, ?_, ?_, ?_, ?_, ?_, ?_, ?_, ?_, ?_, ArpPkt.toBytes_length e _, ?_, ?_, ?_, ?_⟩
  · simp [ArpsocketBase.setDestHdrMAC, ArpPkt.toBytes, List.ofFn_succ, IPHDR_DEST_MAC]
  · simp [ArpsocketBase.setSrcHdrMAC, ArpPkt.toBytes, List.ofFn_succ, IPHDR_SRC_MAC]
  · simp [ArpsocketBase.setFrameType, ArpPkt.toBytes, List.ofFn_succ, FRAME_TYPE]
  · simp [ArpsocketBase.setHardType, ArpPkt.toBytes, List.ofFn_succ, HARD_TYPE]
  · simp [ArpsocketBase.setProtType, ArpPkt.toBytes, List.ofFn_succ, PROT_TYPE]
  · simp [ArpsocketBase.setHardSize, ArpPkt.toBytes, List.ofFn_succ, HARD_SIZE]
  · simp [ArpsocketBase.setProtSize, ArpPkt.toBytes, List.ofFn_succ, PROT_SIZE]
  · simp [ArpsocketBase.setOpcode, ArpPkt.toBytes, List.ofFn_succ, OP_SIZE]
  · simp [ArpsocketBase.setSrcMAC, ArpPkt.toBytes, List.ofFn_succ, SENDER_MAC]
  · unfold ArpsocketBase.setSrcIp
    cases inet_pton text <;> simp [ArpPkt.toBytes, List.ofFn_succ, SENDER_IP]
  · simp [ArpsocketBase.setDestMAC, ArpPkt.toBytes, List.ofFn_succ, DEST_MAC]
  · unfold ArpsocketBase.setDestIp
    cases inet_pton text <;> simp [ArpPkt.toBytes, List.ofFn_succ, DEST_IP]
  · simp [slice, ArpsocketBase.setAllDestMAC, ArpsocketBase.setDestHdrMAC,
      ArpsocketBase.setDestMAC, ArpPkt.toBytes, List.ofFn_succ]
  · simp [slice, ArpsocketBase.setAllDestMAC, ArpsocketBase.setDestHdrMAC,
      ArpsocketBase.setDestMAC, ArpPkt.toBytes, List.ofFn_succ]
  · simp [slice, ArpsocketBase.setAllDestMAC, ArpsocketBase.setDestHdrMAC,
      ArpsocketBase.setDestMAC, ArpPkt.toBytes, List.ofFn_succ]
  · simp [slice, ArpsocketBase.setAllDestMAC, ArpsocketBase.setDestHdrMAC,
      ArpsocketBase.setDestMAC, ArpPkt.toBytes, List.ofFn_succ]

end arplib
